import Mathlib

/-!
Shallow embedding of the crypto_db B+tree storage engine (src/src/*.c).

Pages are modelled as structured nodes rather than raw byte buffers: every
access in the C source goes through the fixed-offset accessors of
`leaf_node.c` / `internal_node.c`, so a page's observable content is exactly
a leaf record (is_root, parent, cells, next_leaf) or an internal record
(is_root, parent, cells, right_child).  A leaf cell is a (key, row) pair and
an internal cell is a (child_page, key) pair; a node's logical cell list has
length `num_cells` / `num_keys` (bytes beyond that count are stale in the C
page and are never read before being rewritten).  The pager's page cache is a
list of nodes indexed by page number; `get_unused_page_num` returns the list
length and the subsequent `get_page` materialises a fresh zeroed page, which
is modelled by appending `zeroPage`.  Machine integers are `Nat`; the one
place where u32 wrap-around is observable (`get_node_max_key` on an empty
leaf) is modelled with explicit `% 2^32` arithmetic.  Fallible code (the C
`exit(EXIT_FAILURE)` paths) returns `Option`.  Recursive tree walks take an
explicit fuel argument; exhausting fuel returns `none`.
-/

namespace CryptoDb

/-! ## Constants (constants.h) -/

def COLUMN_USERNAME_SIZE : Nat := 32
def COLUMN_EMAIL_SIZE : Nat := 255
def TABLE_MAX_PAGES : Nat := 100
def UINT32_MAX : Nat := 2 ^ 32 - 1
def INVALID_PAGE_NUM : Nat := UINT32_MAX

def ID_SIZE : Nat := 4
def USERNAME_SIZE : Nat := COLUMN_USERNAME_SIZE + 1
def EMAIL_SIZE : Nat := COLUMN_EMAIL_SIZE + 1
def ROW_SIZE : Nat := ID_SIZE + USERNAME_SIZE + EMAIL_SIZE

def PAGE_SIZE : Nat := 4096

def NODE_TYPE_SIZE : Nat := 1
def IS_ROOT_SIZE : Nat := 1
def PARENT_POINTER_SIZE : Nat := 4
def COMMON_NODE_HEADER_SIZE : Nat := NODE_TYPE_SIZE + IS_ROOT_SIZE + PARENT_POINTER_SIZE

def LEAF_NODE_NUM_CELLS_SIZE : Nat := 4
def LEAF_NODE_NEXT_LEAF_SIZE : Nat := 4
def LEAF_NODE_HEADER_SIZE : Nat :=
  COMMON_NODE_HEADER_SIZE + LEAF_NODE_NUM_CELLS_SIZE + LEAF_NODE_NEXT_LEAF_SIZE

def LEAF_NODE_KEY_SIZE : Nat := 4
def LEAF_NODE_VALUE_SIZE : Nat := ROW_SIZE
def LEAF_NODE_CELL_SIZE : Nat := LEAF_NODE_KEY_SIZE + LEAF_NODE_VALUE_SIZE
def LEAF_NODE_SPACE_FOR_CELL : Nat := PAGE_SIZE - LEAF_NODE_HEADER_SIZE
def LEAF_NODE_MAX_CELL : Nat := LEAF_NODE_SPACE_FOR_CELL / LEAF_NODE_CELL_SIZE
def LEAF_NODE_RIGHT_SPLIT_COUNT : Nat := (LEAF_NODE_MAX_CELL + 1) / 2
def LEAF_NODE_LEFT_SPLIT_COUNT : Nat :=
  (LEAF_NODE_MAX_CELL + 1) - LEAF_NODE_RIGHT_SPLIT_COUNT

def INTERNAL_NODE_MAX_CELL : Nat := 3


/-! ## The modelling monad

`DbM` is definitionally `Option`; the `exit(EXIT_FAILURE)` paths of the C
return `none`.  It carries its own `Monad` instance (whose `bind` is not
inlined) purely so that the long operation bodies compile efficiently; every
`DbM` value is an `Option` value. -/

def DbM (α : Type) : Type := Option α

instance : Monad DbM where
  pure x := some x
  bind x k := match x with | none => none | some a => k a

instance {α : Type} [DecidableEq α] : DecidableEq (DbM α) :=
  fun a b => inferInstanceAs (DecidableEq (Option α)) a b

instance {α : Type} [Repr α] : Repr (DbM α) :=
  inferInstanceAs (Repr (Option α))

/-! ## Data model -/

/-- A table row (`Row` in constants.h): u32 id plus two bounded strings.
Row (de)serialisation is an external codec per the spec; the string payloads
are carried abstractly. -/
structure Row where
  id : Nat
  username : String
  email : String
deriving Repr, DecidableEq

/-- A page interpreted as a node, as read through the accessors of
`btree.c` / `leaf_node.c` / `internal_node.c`.  Leaf cells are (key, row)
pairs; internal cells are (child_page, key) pairs.  `num_cells` / `num_keys`
is the length of the cell list. -/
inductive Node where
  | leaf (isRoot : Bool) (parent : Nat) (cells : List (Nat × Row)) (nextLeaf : Nat)
  | internal (isRoot : Bool) (parent : Nat) (cells : List (Nat × Nat)) (rightChild : Nat)
deriving Repr, DecidableEq

/-- A freshly `malloc`ed, zero-filled page as `get_page` materialises it on a
cache miss past the end of the file: node_type byte 0 = INTERNAL_NODE,
is_root 0 = false, parent 0, num_keys 0, right_child 0. -/
def zeroPage : Node := .internal false 0 [] 0

namespace Node

/-- `get_node_type` (btree.c): the node-type byte. -/
def isLeafNode : Node → Bool
  | .leaf .. => true
  | .internal .. => false

/-- `is_root_node` (btree.c). -/
def isRootNode : Node → Bool
  | .leaf r .. => r
  | .internal r .. => r

/-- `*node_parent` (btree.c) as a read. -/
def parentOf : Node → Nat
  | .leaf _ p .. => p
  | .internal _ p .. => p

/-- `*node_parent(node) = v` (btree.c) as a write. -/
def withParent : Node → Nat → Node
  | .leaf r _ cs nl, v => .leaf r v cs nl
  | .internal r _ cs rc, v => .internal r v cs rc

/-- `set_node_root` (btree.c). -/
def withRoot : Node → Bool → Node
  | .leaf _ p cs nl, v => .leaf v p cs nl
  | .internal _ p cs rc, v => .internal v p cs rc

end Node

/-- `internal_node_child` (internal_node.c): for `i < num_keys` the cell's
child pointer, for `i = num_keys` the right child; indices beyond `num_keys`
and an `INVALID_PAGE_NUM` read-out hit `exit(EXIT_FAILURE)`, modelled as
`none`.  On a leaf page the C would misread the layout; this is never
reached and is modelled as `none`. -/
def internal_node_child (node : Node) (childNum : Nat) : Option Nat :=
  match node with
  | .internal _ _ cells rightChild =>
    let numKey := cells.length
    if childNum > numKey then none
    else if childNum = numKey then
      if rightChild = INVALID_PAGE_NUM then none else some rightChild
    else
      match cells.get? childNum with
      | some (c, _) => if c = INVALID_PAGE_NUM then none else some c
      | none => none
  | .leaf .. => none

/-- `initialize_internal_node` (internal_node.c): internal, non-root,
no keys, parent 0, right child `INVALID_PAGE_NUM`. -/
def init_internal_node : Node := .internal false 0 [] INVALID_PAGE_NUM

/-- `initialize_leaf_node` (leaf_node.c): leaf, non-root, no cells,
next_leaf 0, parent 0. -/
def init_leaf_node : Node := .leaf false 0 [] 0

/-! ## Binary searches

`find_leaf_node`'s loop (leaf_node.c lines 139-152) runs `while (min_index
!= one_past_max_index)`; since `min ≤ one_past_max` is a loop invariant of
the C code (`min := mid+1 ≤ one_past_max` and `one_past_max := mid ≥ min`),
the guard is equivalently `min < one_past_max`.  The span `hi - lo` strictly
decreases on every iteration, so running the loop body `hi - lo` times (the
structural `span` argument of the `go` functions, which keeps every
definition reducible) is exactly the C loop. -/

/-- The body iterations of `find_leaf_node`'s binary search: `span` bounds
`hi - lo` and strictly decreases each step. -/
def find_leaf_go (keys : List Nat) (key : Nat) : Nat → Nat → Nat → Nat
  | 0, lo, _ => lo
  | span + 1, lo, hi =>
    if lo < hi then
      let mid := (lo + hi) / 2
      let keyAtMid := keys.getD mid 0
      if keyAtMid = key then mid
      else if key < keyAtMid then find_leaf_go keys key span lo mid
      else find_leaf_go keys key span (mid + 1) hi
    else lo

/-- The loop of `find_leaf_node`: binary search over `[lo, hi)` in the leaf's
key array, returning `mid` on an exact hit, else the final `lo` (the
insertion slot). -/
def find_leaf_loop (keys : List Nat) (key : Nat) (lo hi : Nat) : Nat :=
  find_leaf_go keys key (hi - lo) lo hi

/-- The body iterations of `internal_node_find_child`'s binary search
(internal_node.c lines 182-190): `key ≤ key_at_index` tightens `hi`, else
`lo := mid + 1`. -/
def internal_find_child_go (keys : List Nat) (key : Nat) : Nat → Nat → Nat → Nat
  | 0, lo, _ => lo
  | span + 1, lo, hi =>
    if lo < hi then
      let mid := (lo + hi) / 2
      let keyAtMid := keys.getD mid 0
      if key ≤ keyAtMid then internal_find_child_go keys key span lo mid
      else internal_find_child_go keys key span (mid + 1) hi
    else lo

/-- The loop of `internal_node_find_child`: binary search over `[lo, hi)`,
returning the final `lo`. -/
def internal_find_child_loop (keys : List Nat) (key : Nat) (lo hi : Nat) : Nat :=
  internal_find_child_go keys key (hi - lo) lo hi

/-- `internal_node_find_child` (internal_node.c): binary search over
`[0, num_keys]`. -/
def internal_node_find_child (cells : List (Nat × Nat)) (key : Nat) : Nat :=
  internal_find_child_loop (cells.map Prod.snd) key 0 cells.length

end CryptoDb

namespace CryptoDb

/-! ## Pager (pager.c)

Within a session started from an empty file every page that exists is in the
cache, so a read of an existing page is a list lookup; `get_unused_page_num`
returns `num_pages` (the list length) and the `get_page` that follows it
materialises a fresh zeroed buffer, modelled by appending `zeroPage` at the
allocation sites. -/

/-- The root is always page 0 (`table->root_page_num`, set in db.c and never
reassigned). -/
def rootPageNum : Nat := 0

/-- The read path of `get_page` (pager.c lines 62-103): the guard is
`page_num > TABLE_MAX_PAGES` (note: `>`, not `>=`), then the cached page is
returned.  A lookup past the end of the cache is the unreachable
uninitialised-buffer path, modelled as `none`. -/
def page_lookup (pages : List Node) (pageNum : Nat) : Option Node :=
  if pageNum > TABLE_MAX_PAGES then none else pages.get? pageNum

/-- `get_page` with its materialisation step: on `page_num = num_pages` a
zeroed buffer is installed and `num_pages` grows by one. -/
def get_page (pages : List Node) (pageNum : Nat) : Option (List Node × Node) :=
  if pageNum > TABLE_MAX_PAGES then none
  else if h : pageNum < pages.length then some (pages, pages.get ⟨pageNum, h⟩)
  else if pageNum = pages.length then some (pages ++ [zeroPage], zeroPage)
  else none

/-- `get_unused_page_num` (pager.c): returns `num_pages`. -/
def get_unused_page_num (pages : List Node) : Nat := pages.length

/-! ## Cursor (constants.h / cursor.c) -/

/-- Cursor: position (page, cell, end flag).  `find_*` leaves `end_of_table`
uninitialised in the C (only `start_table` and `cursor_advance` ever read or
set it); the model defaults it to `false`. -/
structure Cursor where
  pageNum : Nat
  cellNum : Nat
  endOfTable : Bool
deriving Repr, DecidableEq

/-! ## Max key (btree.c) -/

/-- The index `num_cells - 1` computed in u32 arithmetic
(btree.c line 126): on an empty leaf it wraps to `2^32 - 1`. -/
def leaf_max_key_index (numCells : Nat) : Nat := (numCells + UINT32_MAX) % 2 ^ 32

/-- `get_node_max_key` (btree.c): a leaf answers `key(num_cells - 1)` (u32
wrap on an empty leaf makes the access out of range, modelled by `get?`
returning `none`); an internal node recurses down its right child. -/
def get_node_max_key (fuel : Nat) (pages : List Node) (node : Node) : Option Nat :=
  match fuel with
  | 0 => none
  | fuel + 1 =>
    match node with
    | .leaf _ _ cells _ => (cells.map Prod.fst).get? (leaf_max_key_index cells.length)
    | .internal _ _ _ rightChild => do
      let rightNode ← page_lookup pages rightChild
      get_node_max_key fuel pages rightNode

/-! ## Search (leaf_node.c / internal_node.c / btree.c) -/

/-- `find_leaf_node`: binary search within the leaf at `pageNum`. -/
def find_leaf_node (pages : List Node) (pageNum key : Nat) : Option Cursor := do
  let node ← page_lookup pages pageNum
  match node with
  | .leaf _ _ cells _ =>
    some { pageNum := pageNum,
           cellNum := find_leaf_loop (cells.map Prod.fst) key 0 cells.length,
           endOfTable := false }
  | .internal .. => none

/-- `find_internal_node`: descend by `internal_node_find_child`, then
dispatch on the child's node type. -/
def find_internal_node (fuel : Nat) (pages : List Node) (pageNum key : Nat) :
    Option Cursor :=
  match fuel with
  | 0 => none
  | fuel + 1 => do
    let node ← page_lookup pages pageNum
    match node with
    | .internal _ _ cells _ =>
      let childIndex := internal_node_find_child cells key
      let childPageNum ← internal_node_child node childIndex
      let child ← page_lookup pages childPageNum
      match child with
      | .leaf .. => find_leaf_node pages childPageNum key
      | .internal .. => find_internal_node fuel pages childPageNum key
    | .leaf .. => none

/-- `find_table` (btree.c): dispatch on the root's node type. -/
def find_table (fuel : Nat) (pages : List Node) (key : Nat) : Option Cursor := do
  let rootNode ← page_lookup pages rootPageNum
  match rootNode with
  | .leaf .. => find_leaf_node pages rootPageNum key
  | .internal .. => find_internal_node fuel pages rootPageNum key

/-! ## Small node mutators -/

/-- Replace the element at an index, identity when the index is out of
range.  Used where the C writes a cell field in place; an in-place write at
`num_keys` lands in the stale region beyond the live cells and is never read
before being rewritten, so dropping it preserves the observable state. -/
def modifyIdx : List α → Nat → (α → α) → List α
  | [], _, _ => []
  | a :: as, 0, f => f a :: as
  | a :: as, n + 1, f => a :: modifyIdx as n f

/-- `update_internal_node_key` (internal_node.c): find the child index for
`old_key` by binary search and overwrite the key stored there.  When the
located index is `num_keys` (the node's own max grew past all keys) the C
writes the stale cell beyond the live ones; see `modifyIdx`. -/
def update_internal_node_key (node : Node) (oldKey newKey : Nat) : Node :=
  match node with
  | .internal r p cells rc =>
    let oldChildIndex := internal_node_find_child cells oldKey
    .internal r p (modifyIdx cells oldChildIndex (fun ck => (ck.1, newKey))) rc
  | n => n

/-- `*internal_node_right_child(node) = v` as a write. -/
def internal_with_right_child : Node → Nat → Node
  | .internal r p cells _, v => .internal r p cells v
  | n, _ => n

/-- `(*internal_node_num_keys(node))--`: the logical cell list loses its last
element (the C only decrements the count; the dropped cell's bytes become
stale). -/
def internal_dec_num_keys : Node → Node
  | .internal r p cells rc => .internal r p cells.dropLast rc
  | n => n

/-- `*internal_node_right_child(node)` as a raw read (no checks in the C). -/
def internal_right_child? : Node → Option Nat
  | .internal _ _ _ rc => some rc
  | .leaf .. => none

/-- `*internal_node_num_keys(node)` as a raw read.  (On a leaf the same byte
offset holds `num_cells`.) -/
def internal_num_keys : Node → Nat
  | .internal _ _ cells _ => cells.length
  | .leaf _ _ cells _ => cells.length

/-! ## Root creation (btree.c `create_new_root`) -/

/-- `create_new_root(table, right_child_page_num)`: copy the current root
into a freshly allocated left child, then rebuild page 0 as an internal node
over the two children.

Modelling notes, in source order:
* `get_page(right_child_page_num)`: in the internal-split path this page was
  only reserved by `get_unused_page_num`, so the fetch materialises it.
* The `if (get_node_type(left_child) == LEAF_NODE) num_cells = LEFT` block
  sits *before* the `memcpy`; at that point the left child is a freshly
  zeroed page (type byte 0 = internal) or was just initialised as internal,
  so the branch is dead code in both paths and has no counterpart here.
* The parent-fixing loop runs over children `0 .. num_keys-1` of the copied
  node, reading the child pointers through `internal_node_child` (whose
  `INVALID_PAGE_NUM` check aborts, modelled as `none`); the copied node's
  right child is *not* re-parented here.
* `internal_node_child(root, 0) = left` / `internal_node_key(root, 0)` write
  cell 0 with `num_keys` already 1, building the singleton cell list. -/
def create_new_root (pages : List Node) (rightChildPageNum : Nat) :
    DbM (List Node) := do
  let root ← page_lookup pages rootPageNum
  let pages := if rightChildPageNum = pages.length then pages ++ [zeroPage] else pages
  let _rootRightChild ← page_lookup pages rightChildPageNum
  let leftChildPageNum := get_unused_page_num pages
  let pages := pages ++ [zeroPage]
  let pages :=
    if root.isLeafNode then pages
    else (pages.set rightChildPageNum init_internal_node).set leftChildPageNum
      init_internal_node
  let pages := pages.set leftChildPageNum root
  let leftChild := root.withRoot false
  let pages := pages.set leftChildPageNum leftChild
  let pages ←
    match leftChild with
    | .internal _ _ cells _ =>
      cells.foldlM (fun (pgs : List Node) cell => do
        if cell.1 = INVALID_PAGE_NUM then none
        else do
          let childNode ← page_lookup pgs cell.1
          some (pgs.set cell.1 (childNode.withParent leftChildPageNum))) pages
    | .leaf .. => some pages
  let leftChildNow ← page_lookup pages leftChildPageNum
  let leftChildMaxKey ← get_node_max_key pages.length pages leftChildNow
  let pages := pages.set rootPageNum
    (.internal true 0 [(leftChildPageNum, leftChildMaxKey)] rightChildPageNum)
  let leftNow ← page_lookup pages leftChildPageNum
  let pages := pages.set leftChildPageNum (leftNow.withParent rootPageNum)
  let rightNow ← page_lookup pages rightChildPageNum
  some (pages.set rightChildPageNum (rightNow.withParent rootPageNum))

end CryptoDb

namespace CryptoDb

/-! ## Internal-node insertion and split (internal_node.c)

`internal_node_insert` and `internal_node_split_insert` are mutually
recursive (a full parent delegates to the split; the split pushes the new
sibling into the grandparent).  The recursion is bounded by an explicit fuel
argument; the per-key move loop of the split is `internal_split_move_loop`,
driven by the descending index list `i = INTERNAL_NODE_MAX_CELL-1` down to
`INTERNAL_NODE_MAX_CELL/2 + 1`. -/

mutual

/-- `internal_node_insert(table, parent_page_num, child_page_num)`
(internal_node.c lines 341-407), in source order: fetch both nodes, compute
the child's max key and its slot; a full parent delegates to the split; a
parent with `right_child = INVALID_PAGE_NUM` adopts the child as right child
and returns (without touching the child's parent pointer); otherwise either
promote the old right child into cell `num_keys` and install the child as
right child, or shift and write the `(child, child_max)` cell at the slot;
finally set the child's parent pointer. -/
def internal_node_insert (fuel : Nat) (pages : List Node)
    (parentPageNum childPageNum : Nat) : DbM (List Node) :=
  match fuel with
  | 0 => none
  | fuel + 1 => do
    let parent ← page_lookup pages parentPageNum
    let child ← page_lookup pages childPageNum
    let childMaxKey ← get_node_max_key pages.length pages child
    match parent with
    | .internal pRoot pParent cells rightChildPageNum =>
      let index := internal_node_find_child cells childMaxKey
      let originalNumKeys := cells.length
      if originalNumKeys ≥ INTERNAL_NODE_MAX_CELL then
        internal_node_split_insert fuel pages parentPageNum childPageNum
      else if rightChildPageNum = INVALID_PAGE_NUM then
        some (pages.set parentPageNum (.internal pRoot pParent cells childPageNum))
      else do
        let rightChild ← page_lookup pages rightChildPageNum
        let rightMaxKey ← get_node_max_key pages.length pages rightChild
        let parentNode :=
          if childMaxKey > rightMaxKey then
            Node.internal pRoot pParent
              (cells ++ [(rightChildPageNum, rightMaxKey)]) childPageNum
          else
            Node.internal pRoot pParent
              (cells.take index ++ [(childPageNum, childMaxKey)] ++ cells.drop index)
              rightChildPageNum
        let pages := pages.set parentPageNum parentNode
        let childNode ← page_lookup pages childPageNum
        some (pages.set childPageNum (childNode.withParent parentPageNum))
    | .leaf .. => none
termination_by structural fuel

/-- The move loop of `internal_node_split_insert` (internal_node.c lines
289-297): for each index `i` (descending), move `child(old, i)` into the new
node, re-parent it, and decrement the old node's key count.  (The loop
itself consumes fuel, which only strengthens the fuel-sufficiency
hypotheses of later lemmas.) -/
def internal_split_move_loop (fuel : Nat) (pages : List Node)
    (oldPageNum newPageNum : Nat) (idxs : List Nat) : DbM (List Node) :=
  match fuel, idxs with
  | _, [] => some pages
  | 0, _ :: _ => none
  | fuel + 1, i :: rest => do
    let oldNode ← page_lookup pages oldPageNum
    let curPageNum ← internal_node_child oldNode i
    let pages ← internal_node_insert fuel pages newPageNum curPageNum
    let curNode ← page_lookup pages curPageNum
    let pages := pages.set curPageNum (curNode.withParent newPageNum)
    let oldNode2 ← page_lookup pages oldPageNum
    let pages := pages.set oldPageNum (internal_dec_num_keys oldNode2)
    internal_split_move_loop fuel pages oldPageNum newPageNum rest
termination_by structural fuel

/-- `internal_node_split_insert(table, parent_page_num, child_page_num)`
(internal_node.c lines 232-317), in source order: record the old node's and
the triggering child's max keys; reserve a new page; if the old node is the
root, `create_new_root` first and re-locate the old node as the new root's
child 0, else materialise and initialise the new node; move the old right
child and then the upper cells into the new node; promote the now-highest
child to be the old node's right child; route the triggering child by
comparing against the old node's post-split max; update the parent's key for
the old node; if not splitting the root, insert the new node into the old
node's parent (as read before that insert, line 314) and overwrite the new
node's parent pointer with the old node's parent as re-read after the insert
(line 315 dereferences `node_parent(old_node)` again, so a root split inside
the line-314 insert that re-parents the old node is observed here). -/
def internal_node_split_insert (fuel : Nat) (pages : List Node)
    (parentPageNum childPageNum : Nat) : DbM (List Node) :=
  match fuel with
  | 0 => none
  | fuel + 1 => do
    let oldNode0 ← page_lookup pages parentPageNum
    let oldMax ← get_node_max_key pages.length pages oldNode0
    let child ← page_lookup pages childPageNum
    let childMax ← get_node_max_key pages.length pages child
    let newPageNum := get_unused_page_num pages
    let splittingRoot := oldNode0.isRootNode
    let step ←
      if splittingRoot then do
        let pages ← create_new_root pages newPageNum
        let parentNode ← page_lookup pages rootPageNum
        let oldPageNum ← internal_node_child parentNode 0
        some (pages, oldPageNum, rootPageNum)
      else do
        let pages := pages ++ [zeroPage]
        let pages := pages.set newPageNum init_internal_node
        some (pages, parentPageNum, oldNode0.parentOf)
    let (pages, oldPageNum, parentPageNum2) := step
    let oldNode ← page_lookup pages oldPageNum
    let curPageNum ← internal_right_child? oldNode
    let pages ← internal_node_insert fuel pages newPageNum curPageNum
    let curNode ← page_lookup pages curPageNum
    let pages := pages.set curPageNum (curNode.withParent newPageNum)
    let oldNode1 ← page_lookup pages oldPageNum
    let pages := pages.set oldPageNum
      (internal_with_right_child oldNode1 INVALID_PAGE_NUM)
    let moveIdxs := (List.range' (INTERNAL_NODE_MAX_CELL / 2 + 1)
      (INTERNAL_NODE_MAX_CELL - 1 - INTERNAL_NODE_MAX_CELL / 2)).reverse
    let pages ← internal_split_move_loop fuel pages oldPageNum newPageNum moveIdxs
    let oldNode2 ← page_lookup pages oldPageNum
    let promotedPageNum ← internal_node_child oldNode2 (internal_num_keys oldNode2 - 1)
    let pages := pages.set oldPageNum
      (internal_dec_num_keys (internal_with_right_child oldNode2 promotedPageNum))
    let oldNode3 ← page_lookup pages oldPageNum
    let maxAfterSplit ← get_node_max_key pages.length pages oldNode3
    let destinationPageNum := if childMax < maxAfterSplit then oldPageNum else newPageNum
    let pages ← internal_node_insert fuel pages destinationPageNum childPageNum
    let childNode ← page_lookup pages childPageNum
    let pages := pages.set childPageNum (childNode.withParent destinationPageNum)
    let oldNode4 ← page_lookup pages oldPageNum
    let newOldMax ← get_node_max_key pages.length pages oldNode4
    let parentNode ← page_lookup pages parentPageNum2
    let pages := pages.set parentPageNum2
      (update_internal_node_key parentNode oldMax newOldMax)
    if splittingRoot then
      some pages
    else do
      let oldNode5 ← page_lookup pages oldPageNum
      let pages ← internal_node_insert fuel pages oldNode5.parentOf newPageNum
      let newNode ← page_lookup pages newPageNum
      let oldNode6 ← page_lookup pages oldPageNum
      some (pages.set newPageNum (newNode.withParent oldNode6.parentOf))
termination_by structural fuel

end

end CryptoDb

namespace CryptoDb

/-! ## Leaf insertion and split (leaf_node.c) -/

/-- One logical slot of the redistribution loop of `leaf_node_split_insert`
(leaf_node.c lines 183-217).  The loop walks `i = LEAF_NODE_MAX_CELL` down
to `0`, writing destination cell `i % LEAF_NODE_LEFT_SPLIT_COUNT` of the old
node (for `i < LEAF_NODE_LEFT_SPLIT_COUNT`) or of the new node (otherwise):
slot `cell_num` receives the incoming pair, slots above it the old cell
`i - 1`, slots below it the old cell `i`.  Because the loop runs downwards,
every old cell is read before the iteration that overwrites it, so the slot
contents can be computed from the pre-split cell list. -/
def leaf_split_slot (cells : List (Nat × Row)) (cellNum : Nat) (key : Nat)
    (value : Row) (i : Nat) : Option (Nat × Row) :=
  if i = cellNum then some (key, value)
  else if i > cellNum then cells.get? (i - 1)
  else cells.get? i

/-- The old (lower) node's cells after the redistribution: slots
`0 .. LEAF_NODE_LEFT_SPLIT_COUNT - 1`, with `num_cells` set to
`LEAF_NODE_LEFT_SPLIT_COUNT` (leaf_node.c line 219). -/
def leaf_split_old_cells (cells : List (Nat × Row)) (cellNum : Nat) (key : Nat)
    (value : Row) : List (Nat × Row) :=
  (List.range LEAF_NODE_LEFT_SPLIT_COUNT).filterMap
    (leaf_split_slot cells cellNum key value)

/-- The new (upper) node's cells after the redistribution: slots
`LEAF_NODE_LEFT_SPLIT_COUNT .. LEAF_NODE_MAX_CELL`, landing at indices
`i % LEAF_NODE_LEFT_SPLIT_COUNT = i - LEAF_NODE_LEFT_SPLIT_COUNT`, with
`num_cells` set to `LEAF_NODE_RIGHT_SPLIT_COUNT` (leaf_node.c line 220). -/
def leaf_split_new_cells (cells : List (Nat × Row)) (cellNum : Nat) (key : Nat)
    (value : Row) : List (Nat × Row) :=
  ((List.range (LEAF_NODE_MAX_CELL + 1)).drop LEAF_NODE_LEFT_SPLIT_COUNT).filterMap
    (leaf_split_slot cells cellNum key value)

/-- `leaf_node_split_insert(cursor, key, value)` (leaf_node.c lines
168-235), in source order: record the old node's max key; materialise and
initialise a new leaf on a fresh page; copy the old node's parent into it;
link it into the sibling chain (`new.next := old.next; old.next := new`);
redistribute the `LEAF_NODE_MAX_CELL + 1` logical slots; then either create
a new root (old node was the root) or update the parent's key for the old
node and insert the new node into the parent. -/
def leaf_node_split_insert (fuel : Nat) (pages : List Node) (cursor : Cursor)
    (key : Nat) (value : Row) : DbM (List Node) := do
  let oldNode ← page_lookup pages cursor.pageNum
  match oldNode with
  | .leaf oldIsRoot oldParent oldCells oldNextLeaf =>
    let oldMax ← get_node_max_key pages.length pages oldNode
    let newPageNum := get_unused_page_num pages
    let pages := pages ++ [zeroPage]
    let pages := pages.set newPageNum (.leaf false oldParent [] oldNextLeaf)
    let pages := pages.set cursor.pageNum (.leaf oldIsRoot oldParent oldCells newPageNum)
    let oldCellsAfter := leaf_split_old_cells oldCells cursor.cellNum key value
    let newCellsAfter := leaf_split_new_cells oldCells cursor.cellNum key value
    let pages := pages.set cursor.pageNum (.leaf oldIsRoot oldParent oldCellsAfter newPageNum)
    let pages := pages.set newPageNum (.leaf false oldParent newCellsAfter oldNextLeaf)
    if oldIsRoot then
      create_new_root pages newPageNum
    else do
      let parentPageNum := oldParent
      let oldNodeAfter ← page_lookup pages cursor.pageNum
      let newMax ← get_node_max_key pages.length pages oldNodeAfter
      let parentNode ← page_lookup pages parentPageNum
      let pages := pages.set parentPageNum
        (update_internal_node_key parentNode oldMax newMax)
      internal_node_insert fuel pages parentPageNum newPageNum
  | .internal .. => none

/-- `leaf_node_insert(cursor, key, value)` (leaf_node.c lines 248-269): a
full leaf delegates to the split; otherwise shift the cells at and above the
cursor one slot right and write the new cell at the cursor
(`take/drop` captures the shift-then-write; `find_leaf_node` always returns
a slot `≤ num_cells`). -/
def leaf_node_insert (fuel : Nat) (pages : List Node) (cursor : Cursor)
    (key : Nat) (value : Row) : DbM (List Node) := do
  let node ← page_lookup pages cursor.pageNum
  match node with
  | .leaf isRoot parent cells nextLeaf =>
    if cells.length ≥ LEAF_NODE_MAX_CELL then
      leaf_node_split_insert fuel pages cursor key value
    else
      let cells2 := cells.take cursor.cellNum ++ [(key, value)] ++ cells.drop cursor.cellNum
      pure (pages.set cursor.pageNum (.leaf isRoot parent cells2 nextLeaf))
  | .internal .. => none

/-! ## Cursor operations (cursor.c) -/

/-- `start_table(table)` (cursor.c): position at key 0 via the tree search
and flag `end_of_table` iff the located leaf has `num_cells == 0`. -/
def start_table (fuel : Nat) (pages : List Node) : DbM Cursor := do
  let cursor ← find_table fuel pages 0
  let node ← page_lookup pages cursor.pageNum
  match node with
  | .leaf _ _ cells _ =>
    pure { cursor with endOfTable := cells.length = 0 }
  | .internal .. => none

/-- `cursor_value(cursor)` (cursor.c): the row stored at the cursor's
cell. -/
def cursor_value (pages : List Node) (cursor : Cursor) : DbM Row := do
  let page ← page_lookup pages cursor.pageNum
  match page with
  | .leaf _ _ cells _ => (cells.get? cursor.cellNum).map Prod.snd
  | .internal .. => none

/-- `cursor_advance(cursor)` (cursor.c lines 53-74): step to the next cell;
past the last cell hop to `next_leaf`, or set `end_of_table` when the
sibling pointer is 0. -/
def cursor_advance (pages : List Node) (cursor : Cursor) : DbM Cursor := do
  let node ← page_lookup pages cursor.pageNum
  match node with
  | .leaf _ _ cells nextLeaf =>
    let cellNum2 := cursor.cellNum + 1
    if cellNum2 ≥ cells.length then
      if nextLeaf = 0 then
        pure { cursor with cellNum := cellNum2, endOfTable := true }
      else
        pure { cursor with pageNum := nextLeaf, cellNum := 0 }
    else
      pure { cursor with cellNum := cellNum2 }
  | .internal .. => none

/-! ## Executor (query_processing.c) -/

/-- `ExecuteResult` (constants.h). -/
inductive ExecuteResult where
  | Success
  | TableFull
  | DuplicateKey
  | NotFound
deriving Repr, DecidableEq

/-- `execute_insert(statement, table)` (query_processing.c lines 173-194):
search for the id; when the located slot is an existing cell whose key
equals the id, return `DuplicateKey` (leaving the pages untouched);
otherwise `leaf_node_insert`. -/
def execute_insert (fuel : Nat) (pages : List Node) (rowToInsert : Row) :
    DbM (ExecuteResult × List Node) := do
  let keyToInsert := rowToInsert.id
  let cursor ← find_table fuel pages keyToInsert
  let node ← page_lookup pages cursor.pageNum
  match node with
  | .leaf _ _ cells _ =>
    let dup :=
      match cells.get? cursor.cellNum with
      | some (keyAtIndex, _) => keyAtIndex == keyToInsert
      | none => false
    if dup then
      pure (.DuplicateKey, pages)
    else do
      let pages ← leaf_node_insert fuel pages cursor keyToInsert rowToInsert
      pure (.Success, pages)
  | .internal .. => none

/-- `execute_update(statement, table)` (query_processing.c lines 196-211):
search for the id and overwrite the username and email bytes of the row at
the located slot — with no check that the slot holds the id.  The key and
the row's id field are not written.  When the slot is `num_cells` the
`memcpy` lands in the stale region beyond the live cells (`modifyIdx` is the
identity there) and no live cell changes. -/
def execute_update (fuel : Nat) (pages : List Node) (rowToUpdate : Row) :
    DbM (ExecuteResult × List Node) := do
  let keyToUpdate := rowToUpdate.id
  let cursor ← find_table fuel pages keyToUpdate
  let node ← page_lookup pages cursor.pageNum
  match node with
  | .leaf isRoot parent cells nextLeaf =>
    let cells2 := modifyIdx cells cursor.cellNum fun kr =>
      (kr.1, { kr.2 with username := rowToUpdate.username, email := rowToUpdate.email })
    pure (.Success, pages.set cursor.pageNum (.leaf isRoot parent cells2 nextLeaf))
  | .internal .. => none

/-- `execute_delete(statement, table)` (query_processing.c lines 213-243):
search for the id; `NotFound` when the located slot is past the leaf's last
cell; otherwise shift the cells above the slot one place left and decrement
`num_cells` (together: `eraseIdx` at the slot) — with no check that the slot
holds the id. -/
def execute_delete (fuel : Nat) (pages : List Node) (rowKey : Nat) :
    DbM (ExecuteResult × List Node) := do
  let cursor ← find_table fuel pages rowKey
  let node ← page_lookup pages cursor.pageNum
  match node with
  | .leaf isRoot parent cells nextLeaf =>
    if cursor.cellNum ≥ cells.length then
      pure (.NotFound, pages)
    else
      pure (.Success,
        pages.set cursor.pageNum (.leaf isRoot parent (cells.eraseIdx cursor.cellNum) nextLeaf))
  | .internal .. => none

/-- The `while (!(cursor->end_of_table))` loop of `execute_select`
(query_processing.c lines 250-255), yielding the visited rows in order. -/
def select_loop (fuel : Nat) (pages : List Node) (cursor : Cursor) :
    DbM (List Row) :=
  match fuel with
  | 0 => none
  | fuel + 1 =>
    if cursor.endOfTable then pure []
    else do
      let row ← cursor_value pages cursor
      let cursor2 ← cursor_advance pages cursor
      let rest ← select_loop fuel pages cursor2
      pure (row :: rest)

/-- `execute_select(statement, table)` (query_processing.c lines 245-258):
start-of-table cursor, then iterate until `end_of_table`. -/
def execute_select (fuel : Nat) (pages : List Node) : DbM (List Row) := do
  let cursor ← start_table fuel pages
  select_loop fuel pages cursor

/-! ## Session scaffolding (db.c) -/

/-- `db_open` on an empty file: page 0 is initialised as a leaf and marked
root (db.c lines 20-27). -/
def freshTable : List Node := [Node.leaf true 0 [] 0]

/-- Run `execute_insert` for each row in order, requiring every insert to
return `EXECUTE_SUCCESS` (as in claim C1's hypothesis). -/
def run_inserts (fuel : Nat) (pages : List Node) : List Row → DbM (List Node)
  | [] => pure pages
  | r :: rs => do
    let (res, pages) ← execute_insert fuel pages r
    match res with
    | .Success => run_inserts fuel pages rs
    | _ => none

/-- A row whose username and email are derived from the id, for concrete
scenarios. -/
def mkRow (i : Nat) : Row := { id := i, username := "u", email := "e" }

/-- Insert the given ids (as `mkRow`s) into a fresh table. -/
def insert_ids (ids : List Nat) : DbM (List Node) :=
  run_inserts 1000 freshTable (ids.map mkRow)

end CryptoDb

namespace CryptoDb

/-! ## Concrete states for claim C1

`c1_ids` is an insertion order of 99 distinct ids on which every
`execute_insert` returns `EXECUTE_SUCCESS` but the subsequent `select` is
out of ascending order (id 39 is stored in the wrong leaf).  The stores
`c1_ck1` .. `c1_ck99` are the page stores after each successive insert;
each step is verified by evaluation and the steps are chained. -/

def c1_ids : List Nat := [46, 165, 122, 91, 136, 173, 157, 68, 7, 34, 42, 17, 156, 63, 138, 9, 135, 107, 1, 85, 169, 142, 158, 56, 81, 168, 76, 150, 33, 5, 124, 109, 172, 126, 89, 179, 163, 164, 69, 28, 129, 45, 26, 139, 84, 3, 79, 52, 114, 49, 77, 64, 30, 31, 101, 13, 116, 39, 115, 151, 16, 92, 20, 55, 53, 154, 37, 54, 66, 100, 78, 83, 60, 143, 65, 127, 162, 159, 87, 155, 73, 141, 121, 51, 88, 105, 82, 97, 123, 106, 62, 75, 80, 61, 72, 99, 98, 70, 94]
/-- The page store after the first 1 inserts of `c1_ids`. -/
def c1_ck1 : List Node := [.leaf true 0 [(46, mkRow 46)] 0]

/-- The page store after the first 2 inserts of `c1_ids`. -/
def c1_ck2 : List Node := [.leaf true 0 [(46, mkRow 46), (165, mkRow 165)] 0]

/-- The page store after the first 3 inserts of `c1_ids`. -/
def c1_ck3 : List Node := [.leaf true 0 [(46, mkRow 46), (122, mkRow 122), (165, mkRow 165)] 0]

/-- The page store after the first 4 inserts of `c1_ids`. -/
def c1_ck4 : List Node := [.leaf true 0 [(46, mkRow 46), (91, mkRow 91), (122, mkRow 122), (165, mkRow 165)] 0]

/-- The page store after the first 5 inserts of `c1_ids`. -/
def c1_ck5 : List Node := [.leaf true 0 [(46, mkRow 46), (91, mkRow 91), (122, mkRow 122), (136, mkRow 136), (165, mkRow 165)] 0]

/-- The page store after the first 6 inserts of `c1_ids`. -/
def c1_ck6 : List Node := [.leaf true 0 [(46, mkRow 46), (91, mkRow 91), (122, mkRow 122), (136, mkRow 136), (165, mkRow 165), (173, mkRow 173)] 0]

/-- The page store after the first 7 inserts of `c1_ids`. -/
def c1_ck7 : List Node := [.leaf true 0 [(46, mkRow 46), (91, mkRow 91), (122, mkRow 122), (136, mkRow 136), (157, mkRow 157), (165, mkRow 165), (173, mkRow 173)] 0]

/-- The page store after the first 8 inserts of `c1_ids`. -/
def c1_ck8 : List Node := [.leaf true 0 [(46, mkRow 46), (68, mkRow 68), (91, mkRow 91), (122, mkRow 122), (136, mkRow 136), (157, mkRow 157), (165, mkRow 165), (173, mkRow 173)] 0]

/-- The page store after the first 9 inserts of `c1_ids`. -/
def c1_ck9 : List Node := [.leaf true 0 [(7, mkRow 7), (46, mkRow 46), (68, mkRow 68), (91, mkRow 91), (122, mkRow 122), (136, mkRow 136), (157, mkRow 157), (165, mkRow 165), (173, mkRow 173)] 0]

/-- The page store after the first 10 inserts of `c1_ids`. -/
def c1_ck10 : List Node := [.leaf true 0 [(7, mkRow 7), (34, mkRow 34), (46, mkRow 46), (68, mkRow 68), (91, mkRow 91), (122, mkRow 122), (136, mkRow 136), (157, mkRow 157), (165, mkRow 165), (173, mkRow 173)] 0]

/-- The page store after the first 11 inserts of `c1_ids`. -/
def c1_ck11 : List Node := [.leaf true 0 [(7, mkRow 7), (34, mkRow 34), (42, mkRow 42), (46, mkRow 46), (68, mkRow 68), (91, mkRow 91), (122, mkRow 122), (136, mkRow 136), (157, mkRow 157), (165, mkRow 165), (173, mkRow 173)] 0]

/-- The page store after the first 12 inserts of `c1_ids`. -/
def c1_ck12 : List Node := [.leaf true 0 [(7, mkRow 7), (17, mkRow 17), (34, mkRow 34), (42, mkRow 42), (46, mkRow 46), (68, mkRow 68), (91, mkRow 91), (122, mkRow 122), (136, mkRow 136), (157, mkRow 157), (165, mkRow 165), (173, mkRow 173)] 0]

/-- The page store after the first 13 inserts of `c1_ids`. -/
def c1_ck13 : List Node := [.leaf true 0 [(7, mkRow 7), (17, mkRow 17), (34, mkRow 34), (42, mkRow 42), (46, mkRow 46), (68, mkRow 68), (91, mkRow 91), (122, mkRow 122), (136, mkRow 136), (156, mkRow 156), (157, mkRow 157), (165, mkRow 165), (173, mkRow 173)] 0]

/-- The page store after the first 14 inserts of `c1_ids`. -/
def c1_ck14 : List Node := [.internal true 0 [(2, 68)] 1,
   .leaf false 0 [(91, mkRow 91), (122, mkRow 122), (136, mkRow 136), (156, mkRow 156), (157, mkRow 157), (165, mkRow 165), (173, mkRow 173)] 0,
   .leaf false 0 [(7, mkRow 7), (17, mkRow 17), (34, mkRow 34), (42, mkRow 42), (46, mkRow 46), (63, mkRow 63), (68, mkRow 68)] 1]

/-- The page store after the first 15 inserts of `c1_ids`. -/
def c1_ck15 : List Node := [.internal true 0 [(2, 68)] 1,
   .leaf false 0 [(91, mkRow 91), (122, mkRow 122), (136, mkRow 136), (138, mkRow 138), (156, mkRow 156), (157, mkRow 157), (165, mkRow 165), (173, mkRow 173)] 0,
   .leaf false 0 [(7, mkRow 7), (17, mkRow 17), (34, mkRow 34), (42, mkRow 42), (46, mkRow 46), (63, mkRow 63), (68, mkRow 68)] 1]

/-- The page store after the first 16 inserts of `c1_ids`. -/
def c1_ck16 : List Node := [.internal true 0 [(2, 68)] 1,
   .leaf false 0 [(91, mkRow 91), (122, mkRow 122), (136, mkRow 136), (138, mkRow 138), (156, mkRow 156), (157, mkRow 157), (165, mkRow 165), (173, mkRow 173)] 0,
   .leaf false 0 [(7, mkRow 7), (9, mkRow 9), (17, mkRow 17), (34, mkRow 34), (42, mkRow 42), (46, mkRow 46), (63, mkRow 63), (68, mkRow 68)] 1]

/-- The page store after the first 17 inserts of `c1_ids`. -/
def c1_ck17 : List Node := [.internal true 0 [(2, 68)] 1,
   .leaf false 0 [(91, mkRow 91), (122, mkRow 122), (135, mkRow 135), (136, mkRow 136), (138, mkRow 138), (156, mkRow 156), (157, mkRow 157), (165, mkRow 165), (173, mkRow 173)] 0,
   .leaf false 0 [(7, mkRow 7), (9, mkRow 9), (17, mkRow 17), (34, mkRow 34), (42, mkRow 42), (46, mkRow 46), (63, mkRow 63), (68, mkRow 68)] 1]

/-- The page store after the first 18 inserts of `c1_ids`. -/
def c1_ck18 : List Node := [.internal true 0 [(2, 68)] 1,
   .leaf false 0 [(91, mkRow 91), (107, mkRow 107), (122, mkRow 122), (135, mkRow 135), (136, mkRow 136), (138, mkRow 138), (156, mkRow 156), (157, mkRow 157), (165, mkRow 165), (173, mkRow 173)] 0,
   .leaf false 0 [(7, mkRow 7), (9, mkRow 9), (17, mkRow 17), (34, mkRow 34), (42, mkRow 42), (46, mkRow 46), (63, mkRow 63), (68, mkRow 68)] 1]

/-- The page store after the first 19 inserts of `c1_ids`. -/
def c1_ck19 : List Node := [.internal true 0 [(2, 68)] 1,
   .leaf false 0 [(91, mkRow 91), (107, mkRow 107), (122, mkRow 122), (135, mkRow 135), (136, mkRow 136), (138, mkRow 138), (156, mkRow 156), (157, mkRow 157), (165, mkRow 165), (173, mkRow 173)] 0,
   .leaf false 0 [(1, mkRow 1), (7, mkRow 7), (9, mkRow 9), (17, mkRow 17), (34, mkRow 34), (42, mkRow 42), (46, mkRow 46), (63, mkRow 63), (68, mkRow 68)] 1]

/-- The page store after the first 20 inserts of `c1_ids`. -/
def c1_ck20 : List Node := [.internal true 0 [(2, 68)] 1,
   .leaf false 0 [(85, mkRow 85), (91, mkRow 91), (107, mkRow 107), (122, mkRow 122), (135, mkRow 135), (136, mkRow 136), (138, mkRow 138), (156, mkRow 156), (157, mkRow 157), (165, mkRow 165), (173, mkRow 173)] 0,
   .leaf false 0 [(1, mkRow 1), (7, mkRow 7), (9, mkRow 9), (17, mkRow 17), (34, mkRow 34), (42, mkRow 42), (46, mkRow 46), (63, mkRow 63), (68, mkRow 68)] 1]

/-- The page store after the first 21 inserts of `c1_ids`. -/
def c1_ck21 : List Node := [.internal true 0 [(2, 68)] 1,
   .leaf false 0 [(85, mkRow 85), (91, mkRow 91), (107, mkRow 107), (122, mkRow 122), (135, mkRow 135), (136, mkRow 136), (138, mkRow 138), (156, mkRow 156), (157, mkRow 157), (165, mkRow 165), (169, mkRow 169), (173, mkRow 173)] 0,
   .leaf false 0 [(1, mkRow 1), (7, mkRow 7), (9, mkRow 9), (17, mkRow 17), (34, mkRow 34), (42, mkRow 42), (46, mkRow 46), (63, mkRow 63), (68, mkRow 68)] 1]

/-- The page store after the first 22 inserts of `c1_ids`. -/
def c1_ck22 : List Node := [.internal true 0 [(2, 68)] 1,
   .leaf false 0 [(85, mkRow 85), (91, mkRow 91), (107, mkRow 107), (122, mkRow 122), (135, mkRow 135), (136, mkRow 136), (138, mkRow 138), (142, mkRow 142), (156, mkRow 156), (157, mkRow 157), (165, mkRow 165), (169, mkRow 169), (173, mkRow 173)] 0,
   .leaf false 0 [(1, mkRow 1), (7, mkRow 7), (9, mkRow 9), (17, mkRow 17), (34, mkRow 34), (42, mkRow 42), (46, mkRow 46), (63, mkRow 63), (68, mkRow 68)] 1]

/-- The page store after the first 23 inserts of `c1_ids`. -/
def c1_ck23 : List Node := [.internal true 0 [(2, 68), (1, 138)] 3,
   .leaf false 0 [(85, mkRow 85), (91, mkRow 91), (107, mkRow 107), (122, mkRow 122), (135, mkRow 135), (136, mkRow 136), (138, mkRow 138)] 3,
   .leaf false 0 [(1, mkRow 1), (7, mkRow 7), (9, mkRow 9), (17, mkRow 17), (34, mkRow 34), (42, mkRow 42), (46, mkRow 46), (63, mkRow 63), (68, mkRow 68)] 1,
   .leaf false 0 [(142, mkRow 142), (156, mkRow 156), (157, mkRow 157), (158, mkRow 158), (165, mkRow 165), (169, mkRow 169), (173, mkRow 173)] 0]

/-- The page store after the first 24 inserts of `c1_ids`. -/
def c1_ck24 : List Node := [.internal true 0 [(2, 68), (1, 138)] 3,
   .leaf false 0 [(85, mkRow 85), (91, mkRow 91), (107, mkRow 107), (122, mkRow 122), (135, mkRow 135), (136, mkRow 136), (138, mkRow 138)] 3,
   .leaf false 0 [(1, mkRow 1), (7, mkRow 7), (9, mkRow 9), (17, mkRow 17), (34, mkRow 34), (42, mkRow 42), (46, mkRow 46), (56, mkRow 56), (63, mkRow 63), (68, mkRow 68)] 1,
   .leaf false 0 [(142, mkRow 142), (156, mkRow 156), (157, mkRow 157), (158, mkRow 158), (165, mkRow 165), (169, mkRow 169), (173, mkRow 173)] 0]

/-- The page store after the first 25 inserts of `c1_ids`. -/
def c1_ck25 : List Node := [.internal true 0 [(2, 68), (1, 138)] 3,
   .leaf false 0 [(81, mkRow 81), (85, mkRow 85), (91, mkRow 91), (107, mkRow 107), (122, mkRow 122), (135, mkRow 135), (136, mkRow 136), (138, mkRow 138)] 3,
   .leaf false 0 [(1, mkRow 1), (7, mkRow 7), (9, mkRow 9), (17, mkRow 17), (34, mkRow 34), (42, mkRow 42), (46, mkRow 46), (56, mkRow 56), (63, mkRow 63), (68, mkRow 68)] 1,
   .leaf false 0 [(142, mkRow 142), (156, mkRow 156), (157, mkRow 157), (158, mkRow 158), (165, mkRow 165), (169, mkRow 169), (173, mkRow 173)] 0]

/-- The page store after the first 26 inserts of `c1_ids`. -/
def c1_ck26 : List Node := [.internal true 0 [(2, 68), (1, 138)] 3,
   .leaf false 0 [(81, mkRow 81), (85, mkRow 85), (91, mkRow 91), (107, mkRow 107), (122, mkRow 122), (135, mkRow 135), (136, mkRow 136), (138, mkRow 138)] 3,
   .leaf false 0 [(1, mkRow 1), (7, mkRow 7), (9, mkRow 9), (17, mkRow 17), (34, mkRow 34), (42, mkRow 42), (46, mkRow 46), (56, mkRow 56), (63, mkRow 63), (68, mkRow 68)] 1,
   .leaf false 0 [(142, mkRow 142), (156, mkRow 156), (157, mkRow 157), (158, mkRow 158), (165, mkRow 165), (168, mkRow 168), (169, mkRow 169), (173, mkRow 173)] 0]

/-- The page store after the first 27 inserts of `c1_ids`. -/
def c1_ck27 : List Node := [.internal true 0 [(2, 68), (1, 138)] 3,
   .leaf false 0 [(76, mkRow 76), (81, mkRow 81), (85, mkRow 85), (91, mkRow 91), (107, mkRow 107), (122, mkRow 122), (135, mkRow 135), (136, mkRow 136), (138, mkRow 138)] 3,
   .leaf false 0 [(1, mkRow 1), (7, mkRow 7), (9, mkRow 9), (17, mkRow 17), (34, mkRow 34), (42, mkRow 42), (46, mkRow 46), (56, mkRow 56), (63, mkRow 63), (68, mkRow 68)] 1,
   .leaf false 0 [(142, mkRow 142), (156, mkRow 156), (157, mkRow 157), (158, mkRow 158), (165, mkRow 165), (168, mkRow 168), (169, mkRow 169), (173, mkRow 173)] 0]

/-- The page store after the first 28 inserts of `c1_ids`. -/
def c1_ck28 : List Node := [.internal true 0 [(2, 68), (1, 138)] 3,
   .leaf false 0 [(76, mkRow 76), (81, mkRow 81), (85, mkRow 85), (91, mkRow 91), (107, mkRow 107), (122, mkRow 122), (135, mkRow 135), (136, mkRow 136), (138, mkRow 138)] 3,
   .leaf false 0 [(1, mkRow 1), (7, mkRow 7), (9, mkRow 9), (17, mkRow 17), (34, mkRow 34), (42, mkRow 42), (46, mkRow 46), (56, mkRow 56), (63, mkRow 63), (68, mkRow 68)] 1,
   .leaf false 0 [(142, mkRow 142), (150, mkRow 150), (156, mkRow 156), (157, mkRow 157), (158, mkRow 158), (165, mkRow 165), (168, mkRow 168), (169, mkRow 169), (173, mkRow 173)] 0]

/-- The page store after the first 29 inserts of `c1_ids`. -/
def c1_ck29 : List Node := [.internal true 0 [(2, 68), (1, 138)] 3,
   .leaf false 0 [(76, mkRow 76), (81, mkRow 81), (85, mkRow 85), (91, mkRow 91), (107, mkRow 107), (122, mkRow 122), (135, mkRow 135), (136, mkRow 136), (138, mkRow 138)] 3,
   .leaf false 0 [(1, mkRow 1), (7, mkRow 7), (9, mkRow 9), (17, mkRow 17), (33, mkRow 33), (34, mkRow 34), (42, mkRow 42), (46, mkRow 46), (56, mkRow 56), (63, mkRow 63), (68, mkRow 68)] 1,
   .leaf false 0 [(142, mkRow 142), (150, mkRow 150), (156, mkRow 156), (157, mkRow 157), (158, mkRow 158), (165, mkRow 165), (168, mkRow 168), (169, mkRow 169), (173, mkRow 173)] 0]

/-- The page store after the first 30 inserts of `c1_ids`. -/
def c1_ck30 : List Node := [.internal true 0 [(2, 68), (1, 138)] 3,
   .leaf false 0 [(76, mkRow 76), (81, mkRow 81), (85, mkRow 85), (91, mkRow 91), (107, mkRow 107), (122, mkRow 122), (135, mkRow 135), (136, mkRow 136), (138, mkRow 138)] 3,
   .leaf false 0 [(1, mkRow 1), (5, mkRow 5), (7, mkRow 7), (9, mkRow 9), (17, mkRow 17), (33, mkRow 33), (34, mkRow 34), (42, mkRow 42), (46, mkRow 46), (56, mkRow 56), (63, mkRow 63), (68, mkRow 68)] 1,
   .leaf false 0 [(142, mkRow 142), (150, mkRow 150), (156, mkRow 156), (157, mkRow 157), (158, mkRow 158), (165, mkRow 165), (168, mkRow 168), (169, mkRow 169), (173, mkRow 173)] 0]

/-- The page store after the first 31 inserts of `c1_ids`. -/
def c1_ck31 : List Node := [.internal true 0 [(2, 68), (1, 138)] 3,
   .leaf false 0 [(76, mkRow 76), (81, mkRow 81), (85, mkRow 85), (91, mkRow 91), (107, mkRow 107), (122, mkRow 122), (124, mkRow 124), (135, mkRow 135), (136, mkRow 136), (138, mkRow 138)] 3,
   .leaf false 0 [(1, mkRow 1), (5, mkRow 5), (7, mkRow 7), (9, mkRow 9), (17, mkRow 17), (33, mkRow 33), (34, mkRow 34), (42, mkRow 42), (46, mkRow 46), (56, mkRow 56), (63, mkRow 63), (68, mkRow 68)] 1,
   .leaf false 0 [(142, mkRow 142), (150, mkRow 150), (156, mkRow 156), (157, mkRow 157), (158, mkRow 158), (165, mkRow 165), (168, mkRow 168), (169, mkRow 169), (173, mkRow 173)] 0]

/-- The page store after the first 32 inserts of `c1_ids`. -/
def c1_ck32 : List Node := [.internal true 0 [(2, 68), (1, 138)] 3,
   .leaf false 0 [(76, mkRow 76), (81, mkRow 81), (85, mkRow 85), (91, mkRow 91), (107, mkRow 107), (109, mkRow 109), (122, mkRow 122), (124, mkRow 124), (135, mkRow 135), (136, mkRow 136), (138, mkRow 138)] 3,
   .leaf false 0 [(1, mkRow 1), (5, mkRow 5), (7, mkRow 7), (9, mkRow 9), (17, mkRow 17), (33, mkRow 33), (34, mkRow 34), (42, mkRow 42), (46, mkRow 46), (56, mkRow 56), (63, mkRow 63), (68, mkRow 68)] 1,
   .leaf false 0 [(142, mkRow 142), (150, mkRow 150), (156, mkRow 156), (157, mkRow 157), (158, mkRow 158), (165, mkRow 165), (168, mkRow 168), (169, mkRow 169), (173, mkRow 173)] 0]

/-- The page store after the first 33 inserts of `c1_ids`. -/
def c1_ck33 : List Node := [.internal true 0 [(2, 68), (1, 138)] 3,
   .leaf false 0 [(76, mkRow 76), (81, mkRow 81), (85, mkRow 85), (91, mkRow 91), (107, mkRow 107), (109, mkRow 109), (122, mkRow 122), (124, mkRow 124), (135, mkRow 135), (136, mkRow 136), (138, mkRow 138)] 3,
   .leaf false 0 [(1, mkRow 1), (5, mkRow 5), (7, mkRow 7), (9, mkRow 9), (17, mkRow 17), (33, mkRow 33), (34, mkRow 34), (42, mkRow 42), (46, mkRow 46), (56, mkRow 56), (63, mkRow 63), (68, mkRow 68)] 1,
   .leaf false 0 [(142, mkRow 142), (150, mkRow 150), (156, mkRow 156), (157, mkRow 157), (158, mkRow 158), (165, mkRow 165), (168, mkRow 168), (169, mkRow 169), (172, mkRow 172), (173, mkRow 173)] 0]

/-- The page store after the first 34 inserts of `c1_ids`. -/
def c1_ck34 : List Node := [.internal true 0 [(2, 68), (1, 138)] 3,
   .leaf false 0 [(76, mkRow 76), (81, mkRow 81), (85, mkRow 85), (91, mkRow 91), (107, mkRow 107), (109, mkRow 109), (122, mkRow 122), (124, mkRow 124), (126, mkRow 126), (135, mkRow 135), (136, mkRow 136), (138, mkRow 138)] 3,
   .leaf false 0 [(1, mkRow 1), (5, mkRow 5), (7, mkRow 7), (9, mkRow 9), (17, mkRow 17), (33, mkRow 33), (34, mkRow 34), (42, mkRow 42), (46, mkRow 46), (56, mkRow 56), (63, mkRow 63), (68, mkRow 68)] 1,
   .leaf false 0 [(142, mkRow 142), (150, mkRow 150), (156, mkRow 156), (157, mkRow 157), (158, mkRow 158), (165, mkRow 165), (168, mkRow 168), (169, mkRow 169), (172, mkRow 172), (173, mkRow 173)] 0]

/-- The page store after the first 35 inserts of `c1_ids`. -/
def c1_ck35 : List Node := [.internal true 0 [(2, 68), (1, 138)] 3,
   .leaf false 0 [(76, mkRow 76), (81, mkRow 81), (85, mkRow 85), (89, mkRow 89), (91, mkRow 91), (107, mkRow 107), (109, mkRow 109), (122, mkRow 122), (124, mkRow 124), (126, mkRow 126), (135, mkRow 135), (136, mkRow 136), (138, mkRow 138)] 3,
   .leaf false 0 [(1, mkRow 1), (5, mkRow 5), (7, mkRow 7), (9, mkRow 9), (17, mkRow 17), (33, mkRow 33), (34, mkRow 34), (42, mkRow 42), (46, mkRow 46), (56, mkRow 56), (63, mkRow 63), (68, mkRow 68)] 1,
   .leaf false 0 [(142, mkRow 142), (150, mkRow 150), (156, mkRow 156), (157, mkRow 157), (158, mkRow 158), (165, mkRow 165), (168, mkRow 168), (169, mkRow 169), (172, mkRow 172), (173, mkRow 173)] 0]

/-- The page store after the first 36 inserts of `c1_ids`. -/
def c1_ck36 : List Node := [.internal true 0 [(2, 68), (1, 138)] 3,
   .leaf false 0 [(76, mkRow 76), (81, mkRow 81), (85, mkRow 85), (89, mkRow 89), (91, mkRow 91), (107, mkRow 107), (109, mkRow 109), (122, mkRow 122), (124, mkRow 124), (126, mkRow 126), (135, mkRow 135), (136, mkRow 136), (138, mkRow 138)] 3,
   .leaf false 0 [(1, mkRow 1), (5, mkRow 5), (7, mkRow 7), (9, mkRow 9), (17, mkRow 17), (33, mkRow 33), (34, mkRow 34), (42, mkRow 42), (46, mkRow 46), (56, mkRow 56), (63, mkRow 63), (68, mkRow 68)] 1,
   .leaf false 0 [(142, mkRow 142), (150, mkRow 150), (156, mkRow 156), (157, mkRow 157), (158, mkRow 158), (165, mkRow 165), (168, mkRow 168), (169, mkRow 169), (172, mkRow 172), (173, mkRow 173), (179, mkRow 179)] 0]

/-- The page store after the first 37 inserts of `c1_ids`. -/
def c1_ck37 : List Node := [.internal true 0 [(2, 68), (1, 138)] 3,
   .leaf false 0 [(76, mkRow 76), (81, mkRow 81), (85, mkRow 85), (89, mkRow 89), (91, mkRow 91), (107, mkRow 107), (109, mkRow 109), (122, mkRow 122), (124, mkRow 124), (126, mkRow 126), (135, mkRow 135), (136, mkRow 136), (138, mkRow 138)] 3,
   .leaf false 0 [(1, mkRow 1), (5, mkRow 5), (7, mkRow 7), (9, mkRow 9), (17, mkRow 17), (33, mkRow 33), (34, mkRow 34), (42, mkRow 42), (46, mkRow 46), (56, mkRow 56), (63, mkRow 63), (68, mkRow 68)] 1,
   .leaf false 0 [(142, mkRow 142), (150, mkRow 150), (156, mkRow 156), (157, mkRow 157), (158, mkRow 158), (163, mkRow 163), (165, mkRow 165), (168, mkRow 168), (169, mkRow 169), (172, mkRow 172), (173, mkRow 173), (179, mkRow 179)] 0]

/-- The page store after the first 38 inserts of `c1_ids`. -/
def c1_ck38 : List Node := [.internal true 0 [(2, 68), (1, 138)] 3,
   .leaf false 0 [(76, mkRow 76), (81, mkRow 81), (85, mkRow 85), (89, mkRow 89), (91, mkRow 91), (107, mkRow 107), (109, mkRow 109), (122, mkRow 122), (124, mkRow 124), (126, mkRow 126), (135, mkRow 135), (136, mkRow 136), (138, mkRow 138)] 3,
   .leaf false 0 [(1, mkRow 1), (5, mkRow 5), (7, mkRow 7), (9, mkRow 9), (17, mkRow 17), (33, mkRow 33), (34, mkRow 34), (42, mkRow 42), (46, mkRow 46), (56, mkRow 56), (63, mkRow 63), (68, mkRow 68)] 1,
   .leaf false 0 [(142, mkRow 142), (150, mkRow 150), (156, mkRow 156), (157, mkRow 157), (158, mkRow 158), (163, mkRow 163), (164, mkRow 164), (165, mkRow 165), (168, mkRow 168), (169, mkRow 169), (172, mkRow 172), (173, mkRow 173), (179, mkRow 179)] 0]

/-- The page store after the first 39 inserts of `c1_ids`. -/
def c1_ck39 : List Node := [.internal true 0 [(2, 68), (1, 107), (4, 138)] 3,
   .leaf false 0 [(69, mkRow 69), (76, mkRow 76), (81, mkRow 81), (85, mkRow 85), (89, mkRow 89), (91, mkRow 91), (107, mkRow 107)] 4,
   .leaf false 0 [(1, mkRow 1), (5, mkRow 5), (7, mkRow 7), (9, mkRow 9), (17, mkRow 17), (33, mkRow 33), (34, mkRow 34), (42, mkRow 42), (46, mkRow 46), (56, mkRow 56), (63, mkRow 63), (68, mkRow 68)] 1,
   .leaf false 0 [(142, mkRow 142), (150, mkRow 150), (156, mkRow 156), (157, mkRow 157), (158, mkRow 158), (163, mkRow 163), (164, mkRow 164), (165, mkRow 165), (168, mkRow 168), (169, mkRow 169), (172, mkRow 172), (173, mkRow 173), (179, mkRow 179)] 0,
   .leaf false 0 [(109, mkRow 109), (122, mkRow 122), (124, mkRow 124), (126, mkRow 126), (135, mkRow 135), (136, mkRow 136), (138, mkRow 138)] 3]

/-- The page store after the first 40 inserts of `c1_ids`. -/
def c1_ck40 : List Node := [.internal true 0 [(2, 68), (1, 107), (4, 138)] 3,
   .leaf false 0 [(69, mkRow 69), (76, mkRow 76), (81, mkRow 81), (85, mkRow 85), (89, mkRow 89), (91, mkRow 91), (107, mkRow 107)] 4,
   .leaf false 0 [(1, mkRow 1), (5, mkRow 5), (7, mkRow 7), (9, mkRow 9), (17, mkRow 17), (28, mkRow 28), (33, mkRow 33), (34, mkRow 34), (42, mkRow 42), (46, mkRow 46), (56, mkRow 56), (63, mkRow 63), (68, mkRow 68)] 1,
   .leaf false 0 [(142, mkRow 142), (150, mkRow 150), (156, mkRow 156), (157, mkRow 157), (158, mkRow 158), (163, mkRow 163), (164, mkRow 164), (165, mkRow 165), (168, mkRow 168), (169, mkRow 169), (172, mkRow 172), (173, mkRow 173), (179, mkRow 179)] 0,
   .leaf false 0 [(109, mkRow 109), (122, mkRow 122), (124, mkRow 124), (126, mkRow 126), (135, mkRow 135), (136, mkRow 136), (138, mkRow 138)] 3]

/-- The page store after the first 41 inserts of `c1_ids`. -/
def c1_ck41 : List Node := [.internal true 0 [(2, 68), (1, 107), (4, 138)] 3,
   .leaf false 0 [(69, mkRow 69), (76, mkRow 76), (81, mkRow 81), (85, mkRow 85), (89, mkRow 89), (91, mkRow 91), (107, mkRow 107)] 4,
   .leaf false 0 [(1, mkRow 1), (5, mkRow 5), (7, mkRow 7), (9, mkRow 9), (17, mkRow 17), (28, mkRow 28), (33, mkRow 33), (34, mkRow 34), (42, mkRow 42), (46, mkRow 46), (56, mkRow 56), (63, mkRow 63), (68, mkRow 68)] 1,
   .leaf false 0 [(142, mkRow 142), (150, mkRow 150), (156, mkRow 156), (157, mkRow 157), (158, mkRow 158), (163, mkRow 163), (164, mkRow 164), (165, mkRow 165), (168, mkRow 168), (169, mkRow 169), (172, mkRow 172), (173, mkRow 173), (179, mkRow 179)] 0,
   .leaf false 0 [(109, mkRow 109), (122, mkRow 122), (124, mkRow 124), (126, mkRow 126), (129, mkRow 129), (135, mkRow 135), (136, mkRow 136), (138, mkRow 138)] 3]

/-- The page store after the first 42 inserts of `c1_ids`. -/
def c1_ck42 : List Node := [.internal true 0 [(7, 107)] 6,
   .leaf false 7 [(69, mkRow 69), (76, mkRow 76), (81, mkRow 81), (85, mkRow 85), (89, mkRow 89), (91, mkRow 91), (107, mkRow 107)] 4,
   .leaf false 7 [(1, mkRow 1), (5, mkRow 5), (7, mkRow 7), (9, mkRow 9), (17, mkRow 17), (28, mkRow 28), (33, mkRow 33)] 5,
   .leaf false 6 [(142, mkRow 142), (150, mkRow 150), (156, mkRow 156), (157, mkRow 157), (158, mkRow 158), (163, mkRow 163), (164, mkRow 164), (165, mkRow 165), (168, mkRow 168), (169, mkRow 169), (172, mkRow 172), (173, mkRow 173), (179, mkRow 179)] 0,
   .leaf false 6 [(109, mkRow 109), (122, mkRow 122), (124, mkRow 124), (126, mkRow 126), (129, mkRow 129), (135, mkRow 135), (136, mkRow 136), (138, mkRow 138)] 3,
   .leaf false 7 [(34, mkRow 34), (42, mkRow 42), (45, mkRow 45), (46, mkRow 46), (56, mkRow 56), (63, mkRow 63), (68, mkRow 68)] 1,
   .internal false 0 [(4, 138)] 3,
   .internal false 0 [(2, 33), (5, 68)] 1]

/-- The page store after the first 43 inserts of `c1_ids`. -/
def c1_ck43 : List Node := [.internal true 0 [(7, 107)] 6,
   .leaf false 7 [(69, mkRow 69), (76, mkRow 76), (81, mkRow 81), (85, mkRow 85), (89, mkRow 89), (91, mkRow 91), (107, mkRow 107)] 4,
   .leaf false 7 [(1, mkRow 1), (5, mkRow 5), (7, mkRow 7), (9, mkRow 9), (17, mkRow 17), (26, mkRow 26), (28, mkRow 28), (33, mkRow 33)] 5,
   .leaf false 6 [(142, mkRow 142), (150, mkRow 150), (156, mkRow 156), (157, mkRow 157), (158, mkRow 158), (163, mkRow 163), (164, mkRow 164), (165, mkRow 165), (168, mkRow 168), (169, mkRow 169), (172, mkRow 172), (173, mkRow 173), (179, mkRow 179)] 0,
   .leaf false 6 [(109, mkRow 109), (122, mkRow 122), (124, mkRow 124), (126, mkRow 126), (129, mkRow 129), (135, mkRow 135), (136, mkRow 136), (138, mkRow 138)] 3,
   .leaf false 7 [(34, mkRow 34), (42, mkRow 42), (45, mkRow 45), (46, mkRow 46), (56, mkRow 56), (63, mkRow 63), (68, mkRow 68)] 1,
   .internal false 0 [(4, 138)] 3,
   .internal false 0 [(2, 33), (5, 68)] 1]

/-- The page store after the first 44 inserts of `c1_ids`. -/
def c1_ck44 : List Node := [.internal true 0 [(7, 107)] 6,
   .leaf false 7 [(69, mkRow 69), (76, mkRow 76), (81, mkRow 81), (85, mkRow 85), (89, mkRow 89), (91, mkRow 91), (107, mkRow 107)] 4,
   .leaf false 7 [(1, mkRow 1), (5, mkRow 5), (7, mkRow 7), (9, mkRow 9), (17, mkRow 17), (26, mkRow 26), (28, mkRow 28), (33, mkRow 33)] 5,
   .leaf false 6 [(139, mkRow 139), (142, mkRow 142), (150, mkRow 150), (156, mkRow 156), (157, mkRow 157), (158, mkRow 158), (163, mkRow 163)] 8,
   .leaf false 6 [(109, mkRow 109), (122, mkRow 122), (124, mkRow 124), (126, mkRow 126), (129, mkRow 129), (135, mkRow 135), (136, mkRow 136), (138, mkRow 138)] 3,
   .leaf false 7 [(34, mkRow 34), (42, mkRow 42), (45, mkRow 45), (46, mkRow 46), (56, mkRow 56), (63, mkRow 63), (68, mkRow 68)] 1,
   .internal false 0 [(4, 138), (3, 163)] 8,
   .internal false 0 [(2, 33), (5, 68)] 1,
   .leaf false 6 [(164, mkRow 164), (165, mkRow 165), (168, mkRow 168), (169, mkRow 169), (172, mkRow 172), (173, mkRow 173), (179, mkRow 179)] 0]

/-- The page store after the first 45 inserts of `c1_ids`. -/
def c1_ck45 : List Node := [.internal true 0 [(7, 107)] 6,
   .leaf false 7 [(69, mkRow 69), (76, mkRow 76), (81, mkRow 81), (84, mkRow 84), (85, mkRow 85), (89, mkRow 89), (91, mkRow 91), (107, mkRow 107)] 4,
   .leaf false 7 [(1, mkRow 1), (5, mkRow 5), (7, mkRow 7), (9, mkRow 9), (17, mkRow 17), (26, mkRow 26), (28, mkRow 28), (33, mkRow 33)] 5,
   .leaf false 6 [(139, mkRow 139), (142, mkRow 142), (150, mkRow 150), (156, mkRow 156), (157, mkRow 157), (158, mkRow 158), (163, mkRow 163)] 8,
   .leaf false 6 [(109, mkRow 109), (122, mkRow 122), (124, mkRow 124), (126, mkRow 126), (129, mkRow 129), (135, mkRow 135), (136, mkRow 136), (138, mkRow 138)] 3,
   .leaf false 7 [(34, mkRow 34), (42, mkRow 42), (45, mkRow 45), (46, mkRow 46), (56, mkRow 56), (63, mkRow 63), (68, mkRow 68)] 1,
   .internal false 0 [(4, 138), (3, 163)] 8,
   .internal false 0 [(2, 33), (5, 68)] 1,
   .leaf false 6 [(164, mkRow 164), (165, mkRow 165), (168, mkRow 168), (169, mkRow 169), (172, mkRow 172), (173, mkRow 173), (179, mkRow 179)] 0]

/-- The page store after the first 46 inserts of `c1_ids`. -/
def c1_ck46 : List Node := [.internal true 0 [(7, 107)] 6,
   .leaf false 7 [(69, mkRow 69), (76, mkRow 76), (81, mkRow 81), (84, mkRow 84), (85, mkRow 85), (89, mkRow 89), (91, mkRow 91), (107, mkRow 107)] 4,
   .leaf false 7 [(1, mkRow 1), (3, mkRow 3), (5, mkRow 5), (7, mkRow 7), (9, mkRow 9), (17, mkRow 17), (26, mkRow 26), (28, mkRow 28), (33, mkRow 33)] 5,
   .leaf false 6 [(139, mkRow 139), (142, mkRow 142), (150, mkRow 150), (156, mkRow 156), (157, mkRow 157), (158, mkRow 158), (163, mkRow 163)] 8,
   .leaf false 6 [(109, mkRow 109), (122, mkRow 122), (124, mkRow 124), (126, mkRow 126), (129, mkRow 129), (135, mkRow 135), (136, mkRow 136), (138, mkRow 138)] 3,
   .leaf false 7 [(34, mkRow 34), (42, mkRow 42), (45, mkRow 45), (46, mkRow 46), (56, mkRow 56), (63, mkRow 63), (68, mkRow 68)] 1,
   .internal false 0 [(4, 138), (3, 163)] 8,
   .internal false 0 [(2, 33), (5, 68)] 1,
   .leaf false 6 [(164, mkRow 164), (165, mkRow 165), (168, mkRow 168), (169, mkRow 169), (172, mkRow 172), (173, mkRow 173), (179, mkRow 179)] 0]

/-- The page store after the first 47 inserts of `c1_ids`. -/
def c1_ck47 : List Node := [.internal true 0 [(7, 107)] 6,
   .leaf false 7 [(69, mkRow 69), (76, mkRow 76), (79, mkRow 79), (81, mkRow 81), (84, mkRow 84), (85, mkRow 85), (89, mkRow 89), (91, mkRow 91), (107, mkRow 107)] 4,
   .leaf false 7 [(1, mkRow 1), (3, mkRow 3), (5, mkRow 5), (7, mkRow 7), (9, mkRow 9), (17, mkRow 17), (26, mkRow 26), (28, mkRow 28), (33, mkRow 33)] 5,
   .leaf false 6 [(139, mkRow 139), (142, mkRow 142), (150, mkRow 150), (156, mkRow 156), (157, mkRow 157), (158, mkRow 158), (163, mkRow 163)] 8,
   .leaf false 6 [(109, mkRow 109), (122, mkRow 122), (124, mkRow 124), (126, mkRow 126), (129, mkRow 129), (135, mkRow 135), (136, mkRow 136), (138, mkRow 138)] 3,
   .leaf false 7 [(34, mkRow 34), (42, mkRow 42), (45, mkRow 45), (46, mkRow 46), (56, mkRow 56), (63, mkRow 63), (68, mkRow 68)] 1,
   .internal false 0 [(4, 138), (3, 163)] 8,
   .internal false 0 [(2, 33), (5, 68)] 1,
   .leaf false 6 [(164, mkRow 164), (165, mkRow 165), (168, mkRow 168), (169, mkRow 169), (172, mkRow 172), (173, mkRow 173), (179, mkRow 179)] 0]

/-- The page store after the first 48 inserts of `c1_ids`. -/
def c1_ck48 : List Node := [.internal true 0 [(7, 107)] 6,
   .leaf false 7 [(69, mkRow 69), (76, mkRow 76), (79, mkRow 79), (81, mkRow 81), (84, mkRow 84), (85, mkRow 85), (89, mkRow 89), (91, mkRow 91), (107, mkRow 107)] 4,
   .leaf false 7 [(1, mkRow 1), (3, mkRow 3), (5, mkRow 5), (7, mkRow 7), (9, mkRow 9), (17, mkRow 17), (26, mkRow 26), (28, mkRow 28), (33, mkRow 33)] 5,
   .leaf false 6 [(139, mkRow 139), (142, mkRow 142), (150, mkRow 150), (156, mkRow 156), (157, mkRow 157), (158, mkRow 158), (163, mkRow 163)] 8,
   .leaf false 6 [(109, mkRow 109), (122, mkRow 122), (124, mkRow 124), (126, mkRow 126), (129, mkRow 129), (135, mkRow 135), (136, mkRow 136), (138, mkRow 138)] 3,
   .leaf false 7 [(34, mkRow 34), (42, mkRow 42), (45, mkRow 45), (46, mkRow 46), (52, mkRow 52), (56, mkRow 56), (63, mkRow 63), (68, mkRow 68)] 1,
   .internal false 0 [(4, 138), (3, 163)] 8,
   .internal false 0 [(2, 33), (5, 68)] 1,
   .leaf false 6 [(164, mkRow 164), (165, mkRow 165), (168, mkRow 168), (169, mkRow 169), (172, mkRow 172), (173, mkRow 173), (179, mkRow 179)] 0]

/-- The page store after the first 49 inserts of `c1_ids`. -/
def c1_ck49 : List Node := [.internal true 0 [(7, 107)] 6,
   .leaf false 7 [(69, mkRow 69), (76, mkRow 76), (79, mkRow 79), (81, mkRow 81), (84, mkRow 84), (85, mkRow 85), (89, mkRow 89), (91, mkRow 91), (107, mkRow 107)] 4,
   .leaf false 7 [(1, mkRow 1), (3, mkRow 3), (5, mkRow 5), (7, mkRow 7), (9, mkRow 9), (17, mkRow 17), (26, mkRow 26), (28, mkRow 28), (33, mkRow 33)] 5,
   .leaf false 6 [(139, mkRow 139), (142, mkRow 142), (150, mkRow 150), (156, mkRow 156), (157, mkRow 157), (158, mkRow 158), (163, mkRow 163)] 8,
   .leaf false 6 [(109, mkRow 109), (114, mkRow 114), (122, mkRow 122), (124, mkRow 124), (126, mkRow 126), (129, mkRow 129), (135, mkRow 135), (136, mkRow 136), (138, mkRow 138)] 3,
   .leaf false 7 [(34, mkRow 34), (42, mkRow 42), (45, mkRow 45), (46, mkRow 46), (52, mkRow 52), (56, mkRow 56), (63, mkRow 63), (68, mkRow 68)] 1,
   .internal false 0 [(4, 138), (3, 163)] 8,
   .internal false 0 [(2, 33), (5, 68)] 1,
   .leaf false 6 [(164, mkRow 164), (165, mkRow 165), (168, mkRow 168), (169, mkRow 169), (172, mkRow 172), (173, mkRow 173), (179, mkRow 179)] 0]

/-- The page store after the first 50 inserts of `c1_ids`. -/
def c1_ck50 : List Node := [.internal true 0 [(7, 107)] 6,
   .leaf false 7 [(69, mkRow 69), (76, mkRow 76), (79, mkRow 79), (81, mkRow 81), (84, mkRow 84), (85, mkRow 85), (89, mkRow 89), (91, mkRow 91), (107, mkRow 107)] 4,
   .leaf false 7 [(1, mkRow 1), (3, mkRow 3), (5, mkRow 5), (7, mkRow 7), (9, mkRow 9), (17, mkRow 17), (26, mkRow 26), (28, mkRow 28), (33, mkRow 33)] 5,
   .leaf false 6 [(139, mkRow 139), (142, mkRow 142), (150, mkRow 150), (156, mkRow 156), (157, mkRow 157), (158, mkRow 158), (163, mkRow 163)] 8,
   .leaf false 6 [(109, mkRow 109), (114, mkRow 114), (122, mkRow 122), (124, mkRow 124), (126, mkRow 126), (129, mkRow 129), (135, mkRow 135), (136, mkRow 136), (138, mkRow 138)] 3,
   .leaf false 7 [(34, mkRow 34), (42, mkRow 42), (45, mkRow 45), (46, mkRow 46), (49, mkRow 49), (52, mkRow 52), (56, mkRow 56), (63, mkRow 63), (68, mkRow 68)] 1,
   .internal false 0 [(4, 138), (3, 163)] 8,
   .internal false 0 [(2, 33), (5, 68)] 1,
   .leaf false 6 [(164, mkRow 164), (165, mkRow 165), (168, mkRow 168), (169, mkRow 169), (172, mkRow 172), (173, mkRow 173), (179, mkRow 179)] 0]

/-- The page store after the first 51 inserts of `c1_ids`. -/
def c1_ck51 : List Node := [.internal true 0 [(7, 107)] 6,
   .leaf false 7 [(69, mkRow 69), (76, mkRow 76), (77, mkRow 77), (79, mkRow 79), (81, mkRow 81), (84, mkRow 84), (85, mkRow 85), (89, mkRow 89), (91, mkRow 91), (107, mkRow 107)] 4,
   .leaf false 7 [(1, mkRow 1), (3, mkRow 3), (5, mkRow 5), (7, mkRow 7), (9, mkRow 9), (17, mkRow 17), (26, mkRow 26), (28, mkRow 28), (33, mkRow 33)] 5,
   .leaf false 6 [(139, mkRow 139), (142, mkRow 142), (150, mkRow 150), (156, mkRow 156), (157, mkRow 157), (158, mkRow 158), (163, mkRow 163)] 8,
   .leaf false 6 [(109, mkRow 109), (114, mkRow 114), (122, mkRow 122), (124, mkRow 124), (126, mkRow 126), (129, mkRow 129), (135, mkRow 135), (136, mkRow 136), (138, mkRow 138)] 3,
   .leaf false 7 [(34, mkRow 34), (42, mkRow 42), (45, mkRow 45), (46, mkRow 46), (49, mkRow 49), (52, mkRow 52), (56, mkRow 56), (63, mkRow 63), (68, mkRow 68)] 1,
   .internal false 0 [(4, 138), (3, 163)] 8,
   .internal false 0 [(2, 33), (5, 68)] 1,
   .leaf false 6 [(164, mkRow 164), (165, mkRow 165), (168, mkRow 168), (169, mkRow 169), (172, mkRow 172), (173, mkRow 173), (179, mkRow 179)] 0]

/-- The page store after the first 52 inserts of `c1_ids`. -/
def c1_ck52 : List Node := [.internal true 0 [(7, 107)] 6,
   .leaf false 7 [(69, mkRow 69), (76, mkRow 76), (77, mkRow 77), (79, mkRow 79), (81, mkRow 81), (84, mkRow 84), (85, mkRow 85), (89, mkRow 89), (91, mkRow 91), (107, mkRow 107)] 4,
   .leaf false 7 [(1, mkRow 1), (3, mkRow 3), (5, mkRow 5), (7, mkRow 7), (9, mkRow 9), (17, mkRow 17), (26, mkRow 26), (28, mkRow 28), (33, mkRow 33)] 5,
   .leaf false 6 [(139, mkRow 139), (142, mkRow 142), (150, mkRow 150), (156, mkRow 156), (157, mkRow 157), (158, mkRow 158), (163, mkRow 163)] 8,
   .leaf false 6 [(109, mkRow 109), (114, mkRow 114), (122, mkRow 122), (124, mkRow 124), (126, mkRow 126), (129, mkRow 129), (135, mkRow 135), (136, mkRow 136), (138, mkRow 138)] 3,
   .leaf false 7 [(34, mkRow 34), (42, mkRow 42), (45, mkRow 45), (46, mkRow 46), (49, mkRow 49), (52, mkRow 52), (56, mkRow 56), (63, mkRow 63), (64, mkRow 64), (68, mkRow 68)] 1,
   .internal false 0 [(4, 138), (3, 163)] 8,
   .internal false 0 [(2, 33), (5, 68)] 1,
   .leaf false 6 [(164, mkRow 164), (165, mkRow 165), (168, mkRow 168), (169, mkRow 169), (172, mkRow 172), (173, mkRow 173), (179, mkRow 179)] 0]

/-- The page store after the first 53 inserts of `c1_ids`. -/
def c1_ck53 : List Node := [.internal true 0 [(7, 107)] 6,
   .leaf false 7 [(69, mkRow 69), (76, mkRow 76), (77, mkRow 77), (79, mkRow 79), (81, mkRow 81), (84, mkRow 84), (85, mkRow 85), (89, mkRow 89), (91, mkRow 91), (107, mkRow 107)] 4,
   .leaf false 7 [(1, mkRow 1), (3, mkRow 3), (5, mkRow 5), (7, mkRow 7), (9, mkRow 9), (17, mkRow 17), (26, mkRow 26), (28, mkRow 28), (30, mkRow 30), (33, mkRow 33)] 5,
   .leaf false 6 [(139, mkRow 139), (142, mkRow 142), (150, mkRow 150), (156, mkRow 156), (157, mkRow 157), (158, mkRow 158), (163, mkRow 163)] 8,
   .leaf false 6 [(109, mkRow 109), (114, mkRow 114), (122, mkRow 122), (124, mkRow 124), (126, mkRow 126), (129, mkRow 129), (135, mkRow 135), (136, mkRow 136), (138, mkRow 138)] 3,
   .leaf false 7 [(34, mkRow 34), (42, mkRow 42), (45, mkRow 45), (46, mkRow 46), (49, mkRow 49), (52, mkRow 52), (56, mkRow 56), (63, mkRow 63), (64, mkRow 64), (68, mkRow 68)] 1,
   .internal false 0 [(4, 138), (3, 163)] 8,
   .internal false 0 [(2, 33), (5, 68)] 1,
   .leaf false 6 [(164, mkRow 164), (165, mkRow 165), (168, mkRow 168), (169, mkRow 169), (172, mkRow 172), (173, mkRow 173), (179, mkRow 179)] 0]

/-- The page store after the first 54 inserts of `c1_ids`. -/
def c1_ck54 : List Node := [.internal true 0 [(7, 107)] 6,
   .leaf false 7 [(69, mkRow 69), (76, mkRow 76), (77, mkRow 77), (79, mkRow 79), (81, mkRow 81), (84, mkRow 84), (85, mkRow 85), (89, mkRow 89), (91, mkRow 91), (107, mkRow 107)] 4,
   .leaf false 7 [(1, mkRow 1), (3, mkRow 3), (5, mkRow 5), (7, mkRow 7), (9, mkRow 9), (17, mkRow 17), (26, mkRow 26), (28, mkRow 28), (30, mkRow 30), (31, mkRow 31), (33, mkRow 33)] 5,
   .leaf false 6 [(139, mkRow 139), (142, mkRow 142), (150, mkRow 150), (156, mkRow 156), (157, mkRow 157), (158, mkRow 158), (163, mkRow 163)] 8,
   .leaf false 6 [(109, mkRow 109), (114, mkRow 114), (122, mkRow 122), (124, mkRow 124), (126, mkRow 126), (129, mkRow 129), (135, mkRow 135), (136, mkRow 136), (138, mkRow 138)] 3,
   .leaf false 7 [(34, mkRow 34), (42, mkRow 42), (45, mkRow 45), (46, mkRow 46), (49, mkRow 49), (52, mkRow 52), (56, mkRow 56), (63, mkRow 63), (64, mkRow 64), (68, mkRow 68)] 1,
   .internal false 0 [(4, 138), (3, 163)] 8,
   .internal false 0 [(2, 33), (5, 68)] 1,
   .leaf false 6 [(164, mkRow 164), (165, mkRow 165), (168, mkRow 168), (169, mkRow 169), (172, mkRow 172), (173, mkRow 173), (179, mkRow 179)] 0]

/-- The page store after the first 55 inserts of `c1_ids`. -/
def c1_ck55 : List Node := [.internal true 0 [(7, 107)] 6,
   .leaf false 7 [(69, mkRow 69), (76, mkRow 76), (77, mkRow 77), (79, mkRow 79), (81, mkRow 81), (84, mkRow 84), (85, mkRow 85), (89, mkRow 89), (91, mkRow 91), (101, mkRow 101), (107, mkRow 107)] 4,
   .leaf false 7 [(1, mkRow 1), (3, mkRow 3), (5, mkRow 5), (7, mkRow 7), (9, mkRow 9), (17, mkRow 17), (26, mkRow 26), (28, mkRow 28), (30, mkRow 30), (31, mkRow 31), (33, mkRow 33)] 5,
   .leaf false 6 [(139, mkRow 139), (142, mkRow 142), (150, mkRow 150), (156, mkRow 156), (157, mkRow 157), (158, mkRow 158), (163, mkRow 163)] 8,
   .leaf false 6 [(109, mkRow 109), (114, mkRow 114), (122, mkRow 122), (124, mkRow 124), (126, mkRow 126), (129, mkRow 129), (135, mkRow 135), (136, mkRow 136), (138, mkRow 138)] 3,
   .leaf false 7 [(34, mkRow 34), (42, mkRow 42), (45, mkRow 45), (46, mkRow 46), (49, mkRow 49), (52, mkRow 52), (56, mkRow 56), (63, mkRow 63), (64, mkRow 64), (68, mkRow 68)] 1,
   .internal false 0 [(4, 138), (3, 163)] 8,
   .internal false 0 [(2, 33), (5, 68)] 1,
   .leaf false 6 [(164, mkRow 164), (165, mkRow 165), (168, mkRow 168), (169, mkRow 169), (172, mkRow 172), (173, mkRow 173), (179, mkRow 179)] 0]

/-- The page store after the first 56 inserts of `c1_ids`. -/
def c1_ck56 : List Node := [.internal true 0 [(7, 107)] 6,
   .leaf false 7 [(69, mkRow 69), (76, mkRow 76), (77, mkRow 77), (79, mkRow 79), (81, mkRow 81), (84, mkRow 84), (85, mkRow 85), (89, mkRow 89), (91, mkRow 91), (101, mkRow 101), (107, mkRow 107)] 4,
   .leaf false 7 [(1, mkRow 1), (3, mkRow 3), (5, mkRow 5), (7, mkRow 7), (9, mkRow 9), (13, mkRow 13), (17, mkRow 17), (26, mkRow 26), (28, mkRow 28), (30, mkRow 30), (31, mkRow 31), (33, mkRow 33)] 5,
   .leaf false 6 [(139, mkRow 139), (142, mkRow 142), (150, mkRow 150), (156, mkRow 156), (157, mkRow 157), (158, mkRow 158), (163, mkRow 163)] 8,
   .leaf false 6 [(109, mkRow 109), (114, mkRow 114), (122, mkRow 122), (124, mkRow 124), (126, mkRow 126), (129, mkRow 129), (135, mkRow 135), (136, mkRow 136), (138, mkRow 138)] 3,
   .leaf false 7 [(34, mkRow 34), (42, mkRow 42), (45, mkRow 45), (46, mkRow 46), (49, mkRow 49), (52, mkRow 52), (56, mkRow 56), (63, mkRow 63), (64, mkRow 64), (68, mkRow 68)] 1,
   .internal false 0 [(4, 138), (3, 163)] 8,
   .internal false 0 [(2, 33), (5, 68)] 1,
   .leaf false 6 [(164, mkRow 164), (165, mkRow 165), (168, mkRow 168), (169, mkRow 169), (172, mkRow 172), (173, mkRow 173), (179, mkRow 179)] 0]

/-- The page store after the first 57 inserts of `c1_ids`. -/
def c1_ck57 : List Node := [.internal true 0 [(7, 107)] 6,
   .leaf false 7 [(69, mkRow 69), (76, mkRow 76), (77, mkRow 77), (79, mkRow 79), (81, mkRow 81), (84, mkRow 84), (85, mkRow 85), (89, mkRow 89), (91, mkRow 91), (101, mkRow 101), (107, mkRow 107)] 4,
   .leaf false 7 [(1, mkRow 1), (3, mkRow 3), (5, mkRow 5), (7, mkRow 7), (9, mkRow 9), (13, mkRow 13), (17, mkRow 17), (26, mkRow 26), (28, mkRow 28), (30, mkRow 30), (31, mkRow 31), (33, mkRow 33)] 5,
   .leaf false 6 [(139, mkRow 139), (142, mkRow 142), (150, mkRow 150), (156, mkRow 156), (157, mkRow 157), (158, mkRow 158), (163, mkRow 163)] 8,
   .leaf false 6 [(109, mkRow 109), (114, mkRow 114), (116, mkRow 116), (122, mkRow 122), (124, mkRow 124), (126, mkRow 126), (129, mkRow 129), (135, mkRow 135), (136, mkRow 136), (138, mkRow 138)] 3,
   .leaf false 7 [(34, mkRow 34), (42, mkRow 42), (45, mkRow 45), (46, mkRow 46), (49, mkRow 49), (52, mkRow 52), (56, mkRow 56), (63, mkRow 63), (64, mkRow 64), (68, mkRow 68)] 1,
   .internal false 0 [(4, 138), (3, 163)] 8,
   .internal false 0 [(2, 33), (5, 68)] 1,
   .leaf false 6 [(164, mkRow 164), (165, mkRow 165), (168, mkRow 168), (169, mkRow 169), (172, mkRow 172), (173, mkRow 173), (179, mkRow 179)] 0]

/-- The page store after the first 58 inserts of `c1_ids`. -/
def c1_ck58 : List Node := [.internal true 0 [(7, 107)] 6,
   .leaf false 7 [(69, mkRow 69), (76, mkRow 76), (77, mkRow 77), (79, mkRow 79), (81, mkRow 81), (84, mkRow 84), (85, mkRow 85), (89, mkRow 89), (91, mkRow 91), (101, mkRow 101), (107, mkRow 107)] 4,
   .leaf false 7 [(1, mkRow 1), (3, mkRow 3), (5, mkRow 5), (7, mkRow 7), (9, mkRow 9), (13, mkRow 13), (17, mkRow 17), (26, mkRow 26), (28, mkRow 28), (30, mkRow 30), (31, mkRow 31), (33, mkRow 33)] 5,
   .leaf false 6 [(139, mkRow 139), (142, mkRow 142), (150, mkRow 150), (156, mkRow 156), (157, mkRow 157), (158, mkRow 158), (163, mkRow 163)] 8,
   .leaf false 6 [(109, mkRow 109), (114, mkRow 114), (116, mkRow 116), (122, mkRow 122), (124, mkRow 124), (126, mkRow 126), (129, mkRow 129), (135, mkRow 135), (136, mkRow 136), (138, mkRow 138)] 3,
   .leaf false 7 [(34, mkRow 34), (39, mkRow 39), (42, mkRow 42), (45, mkRow 45), (46, mkRow 46), (49, mkRow 49), (52, mkRow 52), (56, mkRow 56), (63, mkRow 63), (64, mkRow 64), (68, mkRow 68)] 1,
   .internal false 0 [(4, 138), (3, 163)] 8,
   .internal false 0 [(2, 33), (5, 68)] 1,
   .leaf false 6 [(164, mkRow 164), (165, mkRow 165), (168, mkRow 168), (169, mkRow 169), (172, mkRow 172), (173, mkRow 173), (179, mkRow 179)] 0]

/-- The page store after the first 59 inserts of `c1_ids`. -/
def c1_ck59 : List Node := [.internal true 0 [(7, 107)] 6,
   .leaf false 7 [(69, mkRow 69), (76, mkRow 76), (77, mkRow 77), (79, mkRow 79), (81, mkRow 81), (84, mkRow 84), (85, mkRow 85), (89, mkRow 89), (91, mkRow 91), (101, mkRow 101), (107, mkRow 107)] 4,
   .leaf false 7 [(1, mkRow 1), (3, mkRow 3), (5, mkRow 5), (7, mkRow 7), (9, mkRow 9), (13, mkRow 13), (17, mkRow 17), (26, mkRow 26), (28, mkRow 28), (30, mkRow 30), (31, mkRow 31), (33, mkRow 33)] 5,
   .leaf false 6 [(139, mkRow 139), (142, mkRow 142), (150, mkRow 150), (156, mkRow 156), (157, mkRow 157), (158, mkRow 158), (163, mkRow 163)] 8,
   .leaf false 6 [(109, mkRow 109), (114, mkRow 114), (115, mkRow 115), (116, mkRow 116), (122, mkRow 122), (124, mkRow 124), (126, mkRow 126), (129, mkRow 129), (135, mkRow 135), (136, mkRow 136), (138, mkRow 138)] 3,
   .leaf false 7 [(34, mkRow 34), (39, mkRow 39), (42, mkRow 42), (45, mkRow 45), (46, mkRow 46), (49, mkRow 49), (52, mkRow 52), (56, mkRow 56), (63, mkRow 63), (64, mkRow 64), (68, mkRow 68)] 1,
   .internal false 0 [(4, 138), (3, 163)] 8,
   .internal false 0 [(2, 33), (5, 68)] 1,
   .leaf false 6 [(164, mkRow 164), (165, mkRow 165), (168, mkRow 168), (169, mkRow 169), (172, mkRow 172), (173, mkRow 173), (179, mkRow 179)] 0]

/-- The page store after the first 60 inserts of `c1_ids`. -/
def c1_ck60 : List Node := [.internal true 0 [(7, 107)] 6,
   .leaf false 7 [(69, mkRow 69), (76, mkRow 76), (77, mkRow 77), (79, mkRow 79), (81, mkRow 81), (84, mkRow 84), (85, mkRow 85), (89, mkRow 89), (91, mkRow 91), (101, mkRow 101), (107, mkRow 107)] 4,
   .leaf false 7 [(1, mkRow 1), (3, mkRow 3), (5, mkRow 5), (7, mkRow 7), (9, mkRow 9), (13, mkRow 13), (17, mkRow 17), (26, mkRow 26), (28, mkRow 28), (30, mkRow 30), (31, mkRow 31), (33, mkRow 33)] 5,
   .leaf false 6 [(139, mkRow 139), (142, mkRow 142), (150, mkRow 150), (151, mkRow 151), (156, mkRow 156), (157, mkRow 157), (158, mkRow 158), (163, mkRow 163)] 8,
   .leaf false 6 [(109, mkRow 109), (114, mkRow 114), (115, mkRow 115), (116, mkRow 116), (122, mkRow 122), (124, mkRow 124), (126, mkRow 126), (129, mkRow 129), (135, mkRow 135), (136, mkRow 136), (138, mkRow 138)] 3,
   .leaf false 7 [(34, mkRow 34), (39, mkRow 39), (42, mkRow 42), (45, mkRow 45), (46, mkRow 46), (49, mkRow 49), (52, mkRow 52), (56, mkRow 56), (63, mkRow 63), (64, mkRow 64), (68, mkRow 68)] 1,
   .internal false 0 [(4, 138), (3, 163)] 8,
   .internal false 0 [(2, 33), (5, 68)] 1,
   .leaf false 6 [(164, mkRow 164), (165, mkRow 165), (168, mkRow 168), (169, mkRow 169), (172, mkRow 172), (173, mkRow 173), (179, mkRow 179)] 0]

/-- The page store after the first 61 inserts of `c1_ids`. -/
def c1_ck61 : List Node := [.internal true 0 [(7, 107)] 6,
   .leaf false 7 [(69, mkRow 69), (76, mkRow 76), (77, mkRow 77), (79, mkRow 79), (81, mkRow 81), (84, mkRow 84), (85, mkRow 85), (89, mkRow 89), (91, mkRow 91), (101, mkRow 101), (107, mkRow 107)] 4,
   .leaf false 7 [(1, mkRow 1), (3, mkRow 3), (5, mkRow 5), (7, mkRow 7), (9, mkRow 9), (13, mkRow 13), (16, mkRow 16), (17, mkRow 17), (26, mkRow 26), (28, mkRow 28), (30, mkRow 30), (31, mkRow 31), (33, mkRow 33)] 5,
   .leaf false 6 [(139, mkRow 139), (142, mkRow 142), (150, mkRow 150), (151, mkRow 151), (156, mkRow 156), (157, mkRow 157), (158, mkRow 158), (163, mkRow 163)] 8,
   .leaf false 6 [(109, mkRow 109), (114, mkRow 114), (115, mkRow 115), (116, mkRow 116), (122, mkRow 122), (124, mkRow 124), (126, mkRow 126), (129, mkRow 129), (135, mkRow 135), (136, mkRow 136), (138, mkRow 138)] 3,
   .leaf false 7 [(34, mkRow 34), (39, mkRow 39), (42, mkRow 42), (45, mkRow 45), (46, mkRow 46), (49, mkRow 49), (52, mkRow 52), (56, mkRow 56), (63, mkRow 63), (64, mkRow 64), (68, mkRow 68)] 1,
   .internal false 0 [(4, 138), (3, 163)] 8,
   .internal false 0 [(2, 33), (5, 68)] 1,
   .leaf false 6 [(164, mkRow 164), (165, mkRow 165), (168, mkRow 168), (169, mkRow 169), (172, mkRow 172), (173, mkRow 173), (179, mkRow 179)] 0]

/-- The page store after the first 62 inserts of `c1_ids`. -/
def c1_ck62 : List Node := [.internal true 0 [(7, 107)] 6,
   .leaf false 7 [(69, mkRow 69), (76, mkRow 76), (77, mkRow 77), (79, mkRow 79), (81, mkRow 81), (84, mkRow 84), (85, mkRow 85), (89, mkRow 89), (91, mkRow 91), (92, mkRow 92), (101, mkRow 101), (107, mkRow 107)] 4,
   .leaf false 7 [(1, mkRow 1), (3, mkRow 3), (5, mkRow 5), (7, mkRow 7), (9, mkRow 9), (13, mkRow 13), (16, mkRow 16), (17, mkRow 17), (26, mkRow 26), (28, mkRow 28), (30, mkRow 30), (31, mkRow 31), (33, mkRow 33)] 5,
   .leaf false 6 [(139, mkRow 139), (142, mkRow 142), (150, mkRow 150), (151, mkRow 151), (156, mkRow 156), (157, mkRow 157), (158, mkRow 158), (163, mkRow 163)] 8,
   .leaf false 6 [(109, mkRow 109), (114, mkRow 114), (115, mkRow 115), (116, mkRow 116), (122, mkRow 122), (124, mkRow 124), (126, mkRow 126), (129, mkRow 129), (135, mkRow 135), (136, mkRow 136), (138, mkRow 138)] 3,
   .leaf false 7 [(34, mkRow 34), (39, mkRow 39), (42, mkRow 42), (45, mkRow 45), (46, mkRow 46), (49, mkRow 49), (52, mkRow 52), (56, mkRow 56), (63, mkRow 63), (64, mkRow 64), (68, mkRow 68)] 1,
   .internal false 0 [(4, 138), (3, 163)] 8,
   .internal false 0 [(2, 33), (5, 68)] 1,
   .leaf false 6 [(164, mkRow 164), (165, mkRow 165), (168, mkRow 168), (169, mkRow 169), (172, mkRow 172), (173, mkRow 173), (179, mkRow 179)] 0]

/-- The page store after the first 63 inserts of `c1_ids`. -/
def c1_ck63 : List Node := [.internal true 0 [(7, 107)] 6,
   .leaf false 7 [(69, mkRow 69), (76, mkRow 76), (77, mkRow 77), (79, mkRow 79), (81, mkRow 81), (84, mkRow 84), (85, mkRow 85), (89, mkRow 89), (91, mkRow 91), (92, mkRow 92), (101, mkRow 101), (107, mkRow 107)] 4,
   .leaf false 7 [(1, mkRow 1), (3, mkRow 3), (5, mkRow 5), (7, mkRow 7), (9, mkRow 9), (13, mkRow 13), (16, mkRow 16)] 9,
   .leaf false 6 [(139, mkRow 139), (142, mkRow 142), (150, mkRow 150), (151, mkRow 151), (156, mkRow 156), (157, mkRow 157), (158, mkRow 158), (163, mkRow 163)] 8,
   .leaf false 6 [(109, mkRow 109), (114, mkRow 114), (115, mkRow 115), (116, mkRow 116), (122, mkRow 122), (124, mkRow 124), (126, mkRow 126), (129, mkRow 129), (135, mkRow 135), (136, mkRow 136), (138, mkRow 138)] 3,
   .leaf false 7 [(34, mkRow 34), (39, mkRow 39), (42, mkRow 42), (45, mkRow 45), (46, mkRow 46), (49, mkRow 49), (52, mkRow 52), (56, mkRow 56), (63, mkRow 63), (64, mkRow 64), (68, mkRow 68)] 1,
   .internal false 0 [(4, 138), (3, 163)] 8,
   .internal false 0 [(2, 16), (9, 33), (5, 68)] 1,
   .leaf false 6 [(164, mkRow 164), (165, mkRow 165), (168, mkRow 168), (169, mkRow 169), (172, mkRow 172), (173, mkRow 173), (179, mkRow 179)] 0,
   .leaf false 7 [(17, mkRow 17), (20, mkRow 20), (26, mkRow 26), (28, mkRow 28), (30, mkRow 30), (31, mkRow 31), (33, mkRow 33)] 5]

/-- The page store after the first 64 inserts of `c1_ids`. -/
def c1_ck64 : List Node := [.internal true 0 [(7, 107)] 6,
   .leaf false 7 [(69, mkRow 69), (76, mkRow 76), (77, mkRow 77), (79, mkRow 79), (81, mkRow 81), (84, mkRow 84), (85, mkRow 85), (89, mkRow 89), (91, mkRow 91), (92, mkRow 92), (101, mkRow 101), (107, mkRow 107)] 4,
   .leaf false 7 [(1, mkRow 1), (3, mkRow 3), (5, mkRow 5), (7, mkRow 7), (9, mkRow 9), (13, mkRow 13), (16, mkRow 16)] 9,
   .leaf false 6 [(139, mkRow 139), (142, mkRow 142), (150, mkRow 150), (151, mkRow 151), (156, mkRow 156), (157, mkRow 157), (158, mkRow 158), (163, mkRow 163)] 8,
   .leaf false 6 [(109, mkRow 109), (114, mkRow 114), (115, mkRow 115), (116, mkRow 116), (122, mkRow 122), (124, mkRow 124), (126, mkRow 126), (129, mkRow 129), (135, mkRow 135), (136, mkRow 136), (138, mkRow 138)] 3,
   .leaf false 7 [(34, mkRow 34), (39, mkRow 39), (42, mkRow 42), (45, mkRow 45), (46, mkRow 46), (49, mkRow 49), (52, mkRow 52), (55, mkRow 55), (56, mkRow 56), (63, mkRow 63), (64, mkRow 64), (68, mkRow 68)] 1,
   .internal false 0 [(4, 138), (3, 163)] 8,
   .internal false 0 [(2, 16), (9, 33), (5, 68)] 1,
   .leaf false 6 [(164, mkRow 164), (165, mkRow 165), (168, mkRow 168), (169, mkRow 169), (172, mkRow 172), (173, mkRow 173), (179, mkRow 179)] 0,
   .leaf false 7 [(17, mkRow 17), (20, mkRow 20), (26, mkRow 26), (28, mkRow 28), (30, mkRow 30), (31, mkRow 31), (33, mkRow 33)] 5]

/-- The page store after the first 65 inserts of `c1_ids`. -/
def c1_ck65 : List Node := [.internal true 0 [(7, 107)] 6,
   .leaf false 7 [(69, mkRow 69), (76, mkRow 76), (77, mkRow 77), (79, mkRow 79), (81, mkRow 81), (84, mkRow 84), (85, mkRow 85), (89, mkRow 89), (91, mkRow 91), (92, mkRow 92), (101, mkRow 101), (107, mkRow 107)] 4,
   .leaf false 7 [(1, mkRow 1), (3, mkRow 3), (5, mkRow 5), (7, mkRow 7), (9, mkRow 9), (13, mkRow 13), (16, mkRow 16)] 9,
   .leaf false 6 [(139, mkRow 139), (142, mkRow 142), (150, mkRow 150), (151, mkRow 151), (156, mkRow 156), (157, mkRow 157), (158, mkRow 158), (163, mkRow 163)] 8,
   .leaf false 6 [(109, mkRow 109), (114, mkRow 114), (115, mkRow 115), (116, mkRow 116), (122, mkRow 122), (124, mkRow 124), (126, mkRow 126), (129, mkRow 129), (135, mkRow 135), (136, mkRow 136), (138, mkRow 138)] 3,
   .leaf false 7 [(34, mkRow 34), (39, mkRow 39), (42, mkRow 42), (45, mkRow 45), (46, mkRow 46), (49, mkRow 49), (52, mkRow 52), (53, mkRow 53), (55, mkRow 55), (56, mkRow 56), (63, mkRow 63), (64, mkRow 64), (68, mkRow 68)] 1,
   .internal false 0 [(4, 138), (3, 163)] 8,
   .internal false 0 [(2, 16), (9, 33), (5, 68)] 1,
   .leaf false 6 [(164, mkRow 164), (165, mkRow 165), (168, mkRow 168), (169, mkRow 169), (172, mkRow 172), (173, mkRow 173), (179, mkRow 179)] 0,
   .leaf false 7 [(17, mkRow 17), (20, mkRow 20), (26, mkRow 26), (28, mkRow 28), (30, mkRow 30), (31, mkRow 31), (33, mkRow 33)] 5]

/-- The page store after the first 66 inserts of `c1_ids`. -/
def c1_ck66 : List Node := [.internal true 0 [(7, 107)] 6,
   .leaf false 7 [(69, mkRow 69), (76, mkRow 76), (77, mkRow 77), (79, mkRow 79), (81, mkRow 81), (84, mkRow 84), (85, mkRow 85), (89, mkRow 89), (91, mkRow 91), (92, mkRow 92), (101, mkRow 101), (107, mkRow 107)] 4,
   .leaf false 7 [(1, mkRow 1), (3, mkRow 3), (5, mkRow 5), (7, mkRow 7), (9, mkRow 9), (13, mkRow 13), (16, mkRow 16)] 9,
   .leaf false 6 [(139, mkRow 139), (142, mkRow 142), (150, mkRow 150), (151, mkRow 151), (154, mkRow 154), (156, mkRow 156), (157, mkRow 157), (158, mkRow 158), (163, mkRow 163)] 8,
   .leaf false 6 [(109, mkRow 109), (114, mkRow 114), (115, mkRow 115), (116, mkRow 116), (122, mkRow 122), (124, mkRow 124), (126, mkRow 126), (129, mkRow 129), (135, mkRow 135), (136, mkRow 136), (138, mkRow 138)] 3,
   .leaf false 7 [(34, mkRow 34), (39, mkRow 39), (42, mkRow 42), (45, mkRow 45), (46, mkRow 46), (49, mkRow 49), (52, mkRow 52), (53, mkRow 53), (55, mkRow 55), (56, mkRow 56), (63, mkRow 63), (64, mkRow 64), (68, mkRow 68)] 1,
   .internal false 0 [(4, 138), (3, 163)] 8,
   .internal false 0 [(2, 16), (9, 33), (5, 68)] 1,
   .leaf false 6 [(164, mkRow 164), (165, mkRow 165), (168, mkRow 168), (169, mkRow 169), (172, mkRow 172), (173, mkRow 173), (179, mkRow 179)] 0,
   .leaf false 7 [(17, mkRow 17), (20, mkRow 20), (26, mkRow 26), (28, mkRow 28), (30, mkRow 30), (31, mkRow 31), (33, mkRow 33)] 5]

/-- The page store after the first 67 inserts of `c1_ids`. -/
def c1_ck67 : List Node := [.internal true 0 [(7, 33), (11, 107)] 6,
   .leaf false 11 [(69, mkRow 69), (76, mkRow 76), (77, mkRow 77), (79, mkRow 79), (81, mkRow 81), (84, mkRow 84), (85, mkRow 85), (89, mkRow 89), (91, mkRow 91), (92, mkRow 92), (101, mkRow 101), (107, mkRow 107)] 4,
   .leaf false 7 [(1, mkRow 1), (3, mkRow 3), (5, mkRow 5), (7, mkRow 7), (9, mkRow 9), (13, mkRow 13), (16, mkRow 16)] 9,
   .leaf false 6 [(139, mkRow 139), (142, mkRow 142), (150, mkRow 150), (151, mkRow 151), (154, mkRow 154), (156, mkRow 156), (157, mkRow 157), (158, mkRow 158), (163, mkRow 163)] 8,
   .leaf false 6 [(109, mkRow 109), (114, mkRow 114), (115, mkRow 115), (116, mkRow 116), (122, mkRow 122), (124, mkRow 124), (126, mkRow 126), (129, mkRow 129), (135, mkRow 135), (136, mkRow 136), (138, mkRow 138)] 3,
   .leaf false 11 [(34, mkRow 34), (37, mkRow 37), (39, mkRow 39), (42, mkRow 42), (45, mkRow 45), (46, mkRow 46), (49, mkRow 49)] 10,
   .internal false 0 [(4, 138), (3, 163)] 8,
   .internal false 0 [(2, 16)] 9,
   .leaf false 6 [(164, mkRow 164), (165, mkRow 165), (168, mkRow 168), (169, mkRow 169), (172, mkRow 172), (173, mkRow 173), (179, mkRow 179)] 0,
   .leaf false 7 [(17, mkRow 17), (20, mkRow 20), (26, mkRow 26), (28, mkRow 28), (30, mkRow 30), (31, mkRow 31), (33, mkRow 33)] 5,
   .leaf false 11 [(52, mkRow 52), (53, mkRow 53), (55, mkRow 55), (56, mkRow 56), (63, mkRow 63), (64, mkRow 64), (68, mkRow 68)] 1,
   .internal false 0 [(5, 49), (10, 68)] 1]

/-- The page store after the first 68 inserts of `c1_ids`. -/
def c1_ck68 : List Node := [.internal true 0 [(7, 33), (11, 107)] 6,
   .leaf false 11 [(69, mkRow 69), (76, mkRow 76), (77, mkRow 77), (79, mkRow 79), (81, mkRow 81), (84, mkRow 84), (85, mkRow 85), (89, mkRow 89), (91, mkRow 91), (92, mkRow 92), (101, mkRow 101), (107, mkRow 107)] 4,
   .leaf false 7 [(1, mkRow 1), (3, mkRow 3), (5, mkRow 5), (7, mkRow 7), (9, mkRow 9), (13, mkRow 13), (16, mkRow 16)] 9,
   .leaf false 6 [(139, mkRow 139), (142, mkRow 142), (150, mkRow 150), (151, mkRow 151), (154, mkRow 154), (156, mkRow 156), (157, mkRow 157), (158, mkRow 158), (163, mkRow 163)] 8,
   .leaf false 6 [(109, mkRow 109), (114, mkRow 114), (115, mkRow 115), (116, mkRow 116), (122, mkRow 122), (124, mkRow 124), (126, mkRow 126), (129, mkRow 129), (135, mkRow 135), (136, mkRow 136), (138, mkRow 138)] 3,
   .leaf false 11 [(34, mkRow 34), (37, mkRow 37), (39, mkRow 39), (42, mkRow 42), (45, mkRow 45), (46, mkRow 46), (49, mkRow 49)] 10,
   .internal false 0 [(4, 138), (3, 163)] 8,
   .internal false 0 [(2, 16)] 9,
   .leaf false 6 [(164, mkRow 164), (165, mkRow 165), (168, mkRow 168), (169, mkRow 169), (172, mkRow 172), (173, mkRow 173), (179, mkRow 179)] 0,
   .leaf false 7 [(17, mkRow 17), (20, mkRow 20), (26, mkRow 26), (28, mkRow 28), (30, mkRow 30), (31, mkRow 31), (33, mkRow 33)] 5,
   .leaf false 11 [(52, mkRow 52), (53, mkRow 53), (54, mkRow 54), (55, mkRow 55), (56, mkRow 56), (63, mkRow 63), (64, mkRow 64), (68, mkRow 68)] 1,
   .internal false 0 [(5, 49), (10, 68)] 1]

/-- The page store after the first 69 inserts of `c1_ids`. -/
def c1_ck69 : List Node := [.internal true 0 [(7, 33), (11, 107)] 6,
   .leaf false 11 [(69, mkRow 69), (76, mkRow 76), (77, mkRow 77), (79, mkRow 79), (81, mkRow 81), (84, mkRow 84), (85, mkRow 85), (89, mkRow 89), (91, mkRow 91), (92, mkRow 92), (101, mkRow 101), (107, mkRow 107)] 4,
   .leaf false 7 [(1, mkRow 1), (3, mkRow 3), (5, mkRow 5), (7, mkRow 7), (9, mkRow 9), (13, mkRow 13), (16, mkRow 16)] 9,
   .leaf false 6 [(139, mkRow 139), (142, mkRow 142), (150, mkRow 150), (151, mkRow 151), (154, mkRow 154), (156, mkRow 156), (157, mkRow 157), (158, mkRow 158), (163, mkRow 163)] 8,
   .leaf false 6 [(109, mkRow 109), (114, mkRow 114), (115, mkRow 115), (116, mkRow 116), (122, mkRow 122), (124, mkRow 124), (126, mkRow 126), (129, mkRow 129), (135, mkRow 135), (136, mkRow 136), (138, mkRow 138)] 3,
   .leaf false 11 [(34, mkRow 34), (37, mkRow 37), (39, mkRow 39), (42, mkRow 42), (45, mkRow 45), (46, mkRow 46), (49, mkRow 49)] 10,
   .internal false 0 [(4, 138), (3, 163)] 8,
   .internal false 0 [(2, 16)] 9,
   .leaf false 6 [(164, mkRow 164), (165, mkRow 165), (168, mkRow 168), (169, mkRow 169), (172, mkRow 172), (173, mkRow 173), (179, mkRow 179)] 0,
   .leaf false 7 [(17, mkRow 17), (20, mkRow 20), (26, mkRow 26), (28, mkRow 28), (30, mkRow 30), (31, mkRow 31), (33, mkRow 33)] 5,
   .leaf false 11 [(52, mkRow 52), (53, mkRow 53), (54, mkRow 54), (55, mkRow 55), (56, mkRow 56), (63, mkRow 63), (64, mkRow 64), (66, mkRow 66), (68, mkRow 68)] 1,
   .internal false 0 [(5, 49), (10, 68)] 1]

/-- The page store after the first 70 inserts of `c1_ids`. -/
def c1_ck70 : List Node := [.internal true 0 [(7, 33), (11, 107)] 6,
   .leaf false 11 [(69, mkRow 69), (76, mkRow 76), (77, mkRow 77), (79, mkRow 79), (81, mkRow 81), (84, mkRow 84), (85, mkRow 85), (89, mkRow 89), (91, mkRow 91), (92, mkRow 92), (100, mkRow 100), (101, mkRow 101), (107, mkRow 107)] 4,
   .leaf false 7 [(1, mkRow 1), (3, mkRow 3), (5, mkRow 5), (7, mkRow 7), (9, mkRow 9), (13, mkRow 13), (16, mkRow 16)] 9,
   .leaf false 6 [(139, mkRow 139), (142, mkRow 142), (150, mkRow 150), (151, mkRow 151), (154, mkRow 154), (156, mkRow 156), (157, mkRow 157), (158, mkRow 158), (163, mkRow 163)] 8,
   .leaf false 6 [(109, mkRow 109), (114, mkRow 114), (115, mkRow 115), (116, mkRow 116), (122, mkRow 122), (124, mkRow 124), (126, mkRow 126), (129, mkRow 129), (135, mkRow 135), (136, mkRow 136), (138, mkRow 138)] 3,
   .leaf false 11 [(34, mkRow 34), (37, mkRow 37), (39, mkRow 39), (42, mkRow 42), (45, mkRow 45), (46, mkRow 46), (49, mkRow 49)] 10,
   .internal false 0 [(4, 138), (3, 163)] 8,
   .internal false 0 [(2, 16)] 9,
   .leaf false 6 [(164, mkRow 164), (165, mkRow 165), (168, mkRow 168), (169, mkRow 169), (172, mkRow 172), (173, mkRow 173), (179, mkRow 179)] 0,
   .leaf false 7 [(17, mkRow 17), (20, mkRow 20), (26, mkRow 26), (28, mkRow 28), (30, mkRow 30), (31, mkRow 31), (33, mkRow 33)] 5,
   .leaf false 11 [(52, mkRow 52), (53, mkRow 53), (54, mkRow 54), (55, mkRow 55), (56, mkRow 56), (63, mkRow 63), (64, mkRow 64), (66, mkRow 66), (68, mkRow 68)] 1,
   .internal false 0 [(5, 49), (10, 68)] 1]

/-- The page store after the first 71 inserts of `c1_ids`. -/
def c1_ck71 : List Node := [.internal true 0 [(7, 33), (11, 107)] 6,
   .leaf false 11 [(69, mkRow 69), (76, mkRow 76), (77, mkRow 77), (78, mkRow 78), (79, mkRow 79), (81, mkRow 81), (84, mkRow 84)] 12,
   .leaf false 7 [(1, mkRow 1), (3, mkRow 3), (5, mkRow 5), (7, mkRow 7), (9, mkRow 9), (13, mkRow 13), (16, mkRow 16)] 9,
   .leaf false 6 [(139, mkRow 139), (142, mkRow 142), (150, mkRow 150), (151, mkRow 151), (154, mkRow 154), (156, mkRow 156), (157, mkRow 157), (158, mkRow 158), (163, mkRow 163)] 8,
   .leaf false 6 [(109, mkRow 109), (114, mkRow 114), (115, mkRow 115), (116, mkRow 116), (122, mkRow 122), (124, mkRow 124), (126, mkRow 126), (129, mkRow 129), (135, mkRow 135), (136, mkRow 136), (138, mkRow 138)] 3,
   .leaf false 11 [(34, mkRow 34), (37, mkRow 37), (39, mkRow 39), (42, mkRow 42), (45, mkRow 45), (46, mkRow 46), (49, mkRow 49)] 10,
   .internal false 0 [(4, 138), (3, 163)] 8,
   .internal false 0 [(2, 16)] 9,
   .leaf false 6 [(164, mkRow 164), (165, mkRow 165), (168, mkRow 168), (169, mkRow 169), (172, mkRow 172), (173, mkRow 173), (179, mkRow 179)] 0,
   .leaf false 7 [(17, mkRow 17), (20, mkRow 20), (26, mkRow 26), (28, mkRow 28), (30, mkRow 30), (31, mkRow 31), (33, mkRow 33)] 5,
   .leaf false 11 [(52, mkRow 52), (53, mkRow 53), (54, mkRow 54), (55, mkRow 55), (56, mkRow 56), (63, mkRow 63), (64, mkRow 64), (66, mkRow 66), (68, mkRow 68)] 1,
   .internal false 0 [(5, 49), (10, 68), (1, 84)] 12,
   .leaf false 11 [(85, mkRow 85), (89, mkRow 89), (91, mkRow 91), (92, mkRow 92), (100, mkRow 100), (101, mkRow 101), (107, mkRow 107)] 4]

/-- The page store after the first 72 inserts of `c1_ids`. -/
def c1_ck72 : List Node := [.internal true 0 [(7, 33), (11, 107)] 6,
   .leaf false 11 [(69, mkRow 69), (76, mkRow 76), (77, mkRow 77), (78, mkRow 78), (79, mkRow 79), (81, mkRow 81), (83, mkRow 83), (84, mkRow 84)] 12,
   .leaf false 7 [(1, mkRow 1), (3, mkRow 3), (5, mkRow 5), (7, mkRow 7), (9, mkRow 9), (13, mkRow 13), (16, mkRow 16)] 9,
   .leaf false 6 [(139, mkRow 139), (142, mkRow 142), (150, mkRow 150), (151, mkRow 151), (154, mkRow 154), (156, mkRow 156), (157, mkRow 157), (158, mkRow 158), (163, mkRow 163)] 8,
   .leaf false 6 [(109, mkRow 109), (114, mkRow 114), (115, mkRow 115), (116, mkRow 116), (122, mkRow 122), (124, mkRow 124), (126, mkRow 126), (129, mkRow 129), (135, mkRow 135), (136, mkRow 136), (138, mkRow 138)] 3,
   .leaf false 11 [(34, mkRow 34), (37, mkRow 37), (39, mkRow 39), (42, mkRow 42), (45, mkRow 45), (46, mkRow 46), (49, mkRow 49)] 10,
   .internal false 0 [(4, 138), (3, 163)] 8,
   .internal false 0 [(2, 16)] 9,
   .leaf false 6 [(164, mkRow 164), (165, mkRow 165), (168, mkRow 168), (169, mkRow 169), (172, mkRow 172), (173, mkRow 173), (179, mkRow 179)] 0,
   .leaf false 7 [(17, mkRow 17), (20, mkRow 20), (26, mkRow 26), (28, mkRow 28), (30, mkRow 30), (31, mkRow 31), (33, mkRow 33)] 5,
   .leaf false 11 [(52, mkRow 52), (53, mkRow 53), (54, mkRow 54), (55, mkRow 55), (56, mkRow 56), (63, mkRow 63), (64, mkRow 64), (66, mkRow 66), (68, mkRow 68)] 1,
   .internal false 0 [(5, 49), (10, 68), (1, 84)] 12,
   .leaf false 11 [(85, mkRow 85), (89, mkRow 89), (91, mkRow 91), (92, mkRow 92), (100, mkRow 100), (101, mkRow 101), (107, mkRow 107)] 4]

/-- The page store after the first 73 inserts of `c1_ids`. -/
def c1_ck73 : List Node := [.internal true 0 [(7, 33), (11, 107)] 6,
   .leaf false 11 [(69, mkRow 69), (76, mkRow 76), (77, mkRow 77), (78, mkRow 78), (79, mkRow 79), (81, mkRow 81), (83, mkRow 83), (84, mkRow 84)] 12,
   .leaf false 7 [(1, mkRow 1), (3, mkRow 3), (5, mkRow 5), (7, mkRow 7), (9, mkRow 9), (13, mkRow 13), (16, mkRow 16)] 9,
   .leaf false 6 [(139, mkRow 139), (142, mkRow 142), (150, mkRow 150), (151, mkRow 151), (154, mkRow 154), (156, mkRow 156), (157, mkRow 157), (158, mkRow 158), (163, mkRow 163)] 8,
   .leaf false 6 [(109, mkRow 109), (114, mkRow 114), (115, mkRow 115), (116, mkRow 116), (122, mkRow 122), (124, mkRow 124), (126, mkRow 126), (129, mkRow 129), (135, mkRow 135), (136, mkRow 136), (138, mkRow 138)] 3,
   .leaf false 11 [(34, mkRow 34), (37, mkRow 37), (39, mkRow 39), (42, mkRow 42), (45, mkRow 45), (46, mkRow 46), (49, mkRow 49)] 10,
   .internal false 0 [(4, 138), (3, 163)] 8,
   .internal false 0 [(2, 16)] 9,
   .leaf false 6 [(164, mkRow 164), (165, mkRow 165), (168, mkRow 168), (169, mkRow 169), (172, mkRow 172), (173, mkRow 173), (179, mkRow 179)] 0,
   .leaf false 7 [(17, mkRow 17), (20, mkRow 20), (26, mkRow 26), (28, mkRow 28), (30, mkRow 30), (31, mkRow 31), (33, mkRow 33)] 5,
   .leaf false 11 [(52, mkRow 52), (53, mkRow 53), (54, mkRow 54), (55, mkRow 55), (56, mkRow 56), (60, mkRow 60), (63, mkRow 63), (64, mkRow 64), (66, mkRow 66), (68, mkRow 68)] 1,
   .internal false 0 [(5, 49), (10, 68), (1, 84)] 12,
   .leaf false 11 [(85, mkRow 85), (89, mkRow 89), (91, mkRow 91), (92, mkRow 92), (100, mkRow 100), (101, mkRow 101), (107, mkRow 107)] 4]

/-- The page store after the first 74 inserts of `c1_ids`. -/
def c1_ck74 : List Node := [.internal true 0 [(7, 33), (11, 107)] 6,
   .leaf false 11 [(69, mkRow 69), (76, mkRow 76), (77, mkRow 77), (78, mkRow 78), (79, mkRow 79), (81, mkRow 81), (83, mkRow 83), (84, mkRow 84)] 12,
   .leaf false 7 [(1, mkRow 1), (3, mkRow 3), (5, mkRow 5), (7, mkRow 7), (9, mkRow 9), (13, mkRow 13), (16, mkRow 16)] 9,
   .leaf false 6 [(139, mkRow 139), (142, mkRow 142), (143, mkRow 143), (150, mkRow 150), (151, mkRow 151), (154, mkRow 154), (156, mkRow 156), (157, mkRow 157), (158, mkRow 158), (163, mkRow 163)] 8,
   .leaf false 6 [(109, mkRow 109), (114, mkRow 114), (115, mkRow 115), (116, mkRow 116), (122, mkRow 122), (124, mkRow 124), (126, mkRow 126), (129, mkRow 129), (135, mkRow 135), (136, mkRow 136), (138, mkRow 138)] 3,
   .leaf false 11 [(34, mkRow 34), (37, mkRow 37), (39, mkRow 39), (42, mkRow 42), (45, mkRow 45), (46, mkRow 46), (49, mkRow 49)] 10,
   .internal false 0 [(4, 138), (3, 163)] 8,
   .internal false 0 [(2, 16)] 9,
   .leaf false 6 [(164, mkRow 164), (165, mkRow 165), (168, mkRow 168), (169, mkRow 169), (172, mkRow 172), (173, mkRow 173), (179, mkRow 179)] 0,
   .leaf false 7 [(17, mkRow 17), (20, mkRow 20), (26, mkRow 26), (28, mkRow 28), (30, mkRow 30), (31, mkRow 31), (33, mkRow 33)] 5,
   .leaf false 11 [(52, mkRow 52), (53, mkRow 53), (54, mkRow 54), (55, mkRow 55), (56, mkRow 56), (60, mkRow 60), (63, mkRow 63), (64, mkRow 64), (66, mkRow 66), (68, mkRow 68)] 1,
   .internal false 0 [(5, 49), (10, 68), (1, 84)] 12,
   .leaf false 11 [(85, mkRow 85), (89, mkRow 89), (91, mkRow 91), (92, mkRow 92), (100, mkRow 100), (101, mkRow 101), (107, mkRow 107)] 4]

/-- The page store after the first 75 inserts of `c1_ids`. -/
def c1_ck75 : List Node := [.internal true 0 [(7, 33), (11, 107)] 6,
   .leaf false 11 [(69, mkRow 69), (76, mkRow 76), (77, mkRow 77), (78, mkRow 78), (79, mkRow 79), (81, mkRow 81), (83, mkRow 83), (84, mkRow 84)] 12,
   .leaf false 7 [(1, mkRow 1), (3, mkRow 3), (5, mkRow 5), (7, mkRow 7), (9, mkRow 9), (13, mkRow 13), (16, mkRow 16)] 9,
   .leaf false 6 [(139, mkRow 139), (142, mkRow 142), (143, mkRow 143), (150, mkRow 150), (151, mkRow 151), (154, mkRow 154), (156, mkRow 156), (157, mkRow 157), (158, mkRow 158), (163, mkRow 163)] 8,
   .leaf false 6 [(109, mkRow 109), (114, mkRow 114), (115, mkRow 115), (116, mkRow 116), (122, mkRow 122), (124, mkRow 124), (126, mkRow 126), (129, mkRow 129), (135, mkRow 135), (136, mkRow 136), (138, mkRow 138)] 3,
   .leaf false 11 [(34, mkRow 34), (37, mkRow 37), (39, mkRow 39), (42, mkRow 42), (45, mkRow 45), (46, mkRow 46), (49, mkRow 49)] 10,
   .internal false 0 [(4, 138), (3, 163)] 8,
   .internal false 0 [(2, 16)] 9,
   .leaf false 6 [(164, mkRow 164), (165, mkRow 165), (168, mkRow 168), (169, mkRow 169), (172, mkRow 172), (173, mkRow 173), (179, mkRow 179)] 0,
   .leaf false 7 [(17, mkRow 17), (20, mkRow 20), (26, mkRow 26), (28, mkRow 28), (30, mkRow 30), (31, mkRow 31), (33, mkRow 33)] 5,
   .leaf false 11 [(52, mkRow 52), (53, mkRow 53), (54, mkRow 54), (55, mkRow 55), (56, mkRow 56), (60, mkRow 60), (63, mkRow 63), (64, mkRow 64), (65, mkRow 65), (66, mkRow 66), (68, mkRow 68)] 1,
   .internal false 0 [(5, 49), (10, 68), (1, 84)] 12,
   .leaf false 11 [(85, mkRow 85), (89, mkRow 89), (91, mkRow 91), (92, mkRow 92), (100, mkRow 100), (101, mkRow 101), (107, mkRow 107)] 4]

/-- The page store after the first 76 inserts of `c1_ids`. -/
def c1_ck76 : List Node := [.internal true 0 [(7, 33), (11, 107)] 6,
   .leaf false 11 [(69, mkRow 69), (76, mkRow 76), (77, mkRow 77), (78, mkRow 78), (79, mkRow 79), (81, mkRow 81), (83, mkRow 83), (84, mkRow 84)] 12,
   .leaf false 7 [(1, mkRow 1), (3, mkRow 3), (5, mkRow 5), (7, mkRow 7), (9, mkRow 9), (13, mkRow 13), (16, mkRow 16)] 9,
   .leaf false 6 [(139, mkRow 139), (142, mkRow 142), (143, mkRow 143), (150, mkRow 150), (151, mkRow 151), (154, mkRow 154), (156, mkRow 156), (157, mkRow 157), (158, mkRow 158), (163, mkRow 163)] 8,
   .leaf false 6 [(109, mkRow 109), (114, mkRow 114), (115, mkRow 115), (116, mkRow 116), (122, mkRow 122), (124, mkRow 124), (126, mkRow 126), (127, mkRow 127), (129, mkRow 129), (135, mkRow 135), (136, mkRow 136), (138, mkRow 138)] 3,
   .leaf false 11 [(34, mkRow 34), (37, mkRow 37), (39, mkRow 39), (42, mkRow 42), (45, mkRow 45), (46, mkRow 46), (49, mkRow 49)] 10,
   .internal false 0 [(4, 138), (3, 163)] 8,
   .internal false 0 [(2, 16)] 9,
   .leaf false 6 [(164, mkRow 164), (165, mkRow 165), (168, mkRow 168), (169, mkRow 169), (172, mkRow 172), (173, mkRow 173), (179, mkRow 179)] 0,
   .leaf false 7 [(17, mkRow 17), (20, mkRow 20), (26, mkRow 26), (28, mkRow 28), (30, mkRow 30), (31, mkRow 31), (33, mkRow 33)] 5,
   .leaf false 11 [(52, mkRow 52), (53, mkRow 53), (54, mkRow 54), (55, mkRow 55), (56, mkRow 56), (60, mkRow 60), (63, mkRow 63), (64, mkRow 64), (65, mkRow 65), (66, mkRow 66), (68, mkRow 68)] 1,
   .internal false 0 [(5, 49), (10, 68), (1, 84)] 12,
   .leaf false 11 [(85, mkRow 85), (89, mkRow 89), (91, mkRow 91), (92, mkRow 92), (100, mkRow 100), (101, mkRow 101), (107, mkRow 107)] 4]

/-- The page store after the first 77 inserts of `c1_ids`. -/
def c1_ck77 : List Node := [.internal true 0 [(7, 33), (11, 107)] 6,
   .leaf false 11 [(69, mkRow 69), (76, mkRow 76), (77, mkRow 77), (78, mkRow 78), (79, mkRow 79), (81, mkRow 81), (83, mkRow 83), (84, mkRow 84)] 12,
   .leaf false 7 [(1, mkRow 1), (3, mkRow 3), (5, mkRow 5), (7, mkRow 7), (9, mkRow 9), (13, mkRow 13), (16, mkRow 16)] 9,
   .leaf false 6 [(139, mkRow 139), (142, mkRow 142), (143, mkRow 143), (150, mkRow 150), (151, mkRow 151), (154, mkRow 154), (156, mkRow 156), (157, mkRow 157), (158, mkRow 158), (162, mkRow 162), (163, mkRow 163)] 8,
   .leaf false 6 [(109, mkRow 109), (114, mkRow 114), (115, mkRow 115), (116, mkRow 116), (122, mkRow 122), (124, mkRow 124), (126, mkRow 126), (127, mkRow 127), (129, mkRow 129), (135, mkRow 135), (136, mkRow 136), (138, mkRow 138)] 3,
   .leaf false 11 [(34, mkRow 34), (37, mkRow 37), (39, mkRow 39), (42, mkRow 42), (45, mkRow 45), (46, mkRow 46), (49, mkRow 49)] 10,
   .internal false 0 [(4, 138), (3, 163)] 8,
   .internal false 0 [(2, 16)] 9,
   .leaf false 6 [(164, mkRow 164), (165, mkRow 165), (168, mkRow 168), (169, mkRow 169), (172, mkRow 172), (173, mkRow 173), (179, mkRow 179)] 0,
   .leaf false 7 [(17, mkRow 17), (20, mkRow 20), (26, mkRow 26), (28, mkRow 28), (30, mkRow 30), (31, mkRow 31), (33, mkRow 33)] 5,
   .leaf false 11 [(52, mkRow 52), (53, mkRow 53), (54, mkRow 54), (55, mkRow 55), (56, mkRow 56), (60, mkRow 60), (63, mkRow 63), (64, mkRow 64), (65, mkRow 65), (66, mkRow 66), (68, mkRow 68)] 1,
   .internal false 0 [(5, 49), (10, 68), (1, 84)] 12,
   .leaf false 11 [(85, mkRow 85), (89, mkRow 89), (91, mkRow 91), (92, mkRow 92), (100, mkRow 100), (101, mkRow 101), (107, mkRow 107)] 4]

/-- The page store after the first 78 inserts of `c1_ids`. -/
def c1_ck78 : List Node := [.internal true 0 [(7, 33), (11, 107)] 6,
   .leaf false 11 [(69, mkRow 69), (76, mkRow 76), (77, mkRow 77), (78, mkRow 78), (79, mkRow 79), (81, mkRow 81), (83, mkRow 83), (84, mkRow 84)] 12,
   .leaf false 7 [(1, mkRow 1), (3, mkRow 3), (5, mkRow 5), (7, mkRow 7), (9, mkRow 9), (13, mkRow 13), (16, mkRow 16)] 9,
   .leaf false 6 [(139, mkRow 139), (142, mkRow 142), (143, mkRow 143), (150, mkRow 150), (151, mkRow 151), (154, mkRow 154), (156, mkRow 156), (157, mkRow 157), (158, mkRow 158), (159, mkRow 159), (162, mkRow 162), (163, mkRow 163)] 8,
   .leaf false 6 [(109, mkRow 109), (114, mkRow 114), (115, mkRow 115), (116, mkRow 116), (122, mkRow 122), (124, mkRow 124), (126, mkRow 126), (127, mkRow 127), (129, mkRow 129), (135, mkRow 135), (136, mkRow 136), (138, mkRow 138)] 3,
   .leaf false 11 [(34, mkRow 34), (37, mkRow 37), (39, mkRow 39), (42, mkRow 42), (45, mkRow 45), (46, mkRow 46), (49, mkRow 49)] 10,
   .internal false 0 [(4, 138), (3, 163)] 8,
   .internal false 0 [(2, 16)] 9,
   .leaf false 6 [(164, mkRow 164), (165, mkRow 165), (168, mkRow 168), (169, mkRow 169), (172, mkRow 172), (173, mkRow 173), (179, mkRow 179)] 0,
   .leaf false 7 [(17, mkRow 17), (20, mkRow 20), (26, mkRow 26), (28, mkRow 28), (30, mkRow 30), (31, mkRow 31), (33, mkRow 33)] 5,
   .leaf false 11 [(52, mkRow 52), (53, mkRow 53), (54, mkRow 54), (55, mkRow 55), (56, mkRow 56), (60, mkRow 60), (63, mkRow 63), (64, mkRow 64), (65, mkRow 65), (66, mkRow 66), (68, mkRow 68)] 1,
   .internal false 0 [(5, 49), (10, 68), (1, 84)] 12,
   .leaf false 11 [(85, mkRow 85), (89, mkRow 89), (91, mkRow 91), (92, mkRow 92), (100, mkRow 100), (101, mkRow 101), (107, mkRow 107)] 4]

/-- The page store after the first 79 inserts of `c1_ids`. -/
def c1_ck79 : List Node := [.internal true 0 [(7, 33), (11, 107)] 6,
   .leaf false 11 [(69, mkRow 69), (76, mkRow 76), (77, mkRow 77), (78, mkRow 78), (79, mkRow 79), (81, mkRow 81), (83, mkRow 83), (84, mkRow 84)] 12,
   .leaf false 7 [(1, mkRow 1), (3, mkRow 3), (5, mkRow 5), (7, mkRow 7), (9, mkRow 9), (13, mkRow 13), (16, mkRow 16)] 9,
   .leaf false 6 [(139, mkRow 139), (142, mkRow 142), (143, mkRow 143), (150, mkRow 150), (151, mkRow 151), (154, mkRow 154), (156, mkRow 156), (157, mkRow 157), (158, mkRow 158), (159, mkRow 159), (162, mkRow 162), (163, mkRow 163)] 8,
   .leaf false 6 [(109, mkRow 109), (114, mkRow 114), (115, mkRow 115), (116, mkRow 116), (122, mkRow 122), (124, mkRow 124), (126, mkRow 126), (127, mkRow 127), (129, mkRow 129), (135, mkRow 135), (136, mkRow 136), (138, mkRow 138)] 3,
   .leaf false 11 [(34, mkRow 34), (37, mkRow 37), (39, mkRow 39), (42, mkRow 42), (45, mkRow 45), (46, mkRow 46), (49, mkRow 49)] 10,
   .internal false 0 [(4, 138), (3, 163)] 8,
   .internal false 0 [(2, 16)] 9,
   .leaf false 6 [(164, mkRow 164), (165, mkRow 165), (168, mkRow 168), (169, mkRow 169), (172, mkRow 172), (173, mkRow 173), (179, mkRow 179)] 0,
   .leaf false 7 [(17, mkRow 17), (20, mkRow 20), (26, mkRow 26), (28, mkRow 28), (30, mkRow 30), (31, mkRow 31), (33, mkRow 33)] 5,
   .leaf false 11 [(52, mkRow 52), (53, mkRow 53), (54, mkRow 54), (55, mkRow 55), (56, mkRow 56), (60, mkRow 60), (63, mkRow 63), (64, mkRow 64), (65, mkRow 65), (66, mkRow 66), (68, mkRow 68)] 1,
   .internal false 0 [(5, 49), (10, 68), (1, 84)] 12,
   .leaf false 11 [(85, mkRow 85), (87, mkRow 87), (89, mkRow 89), (91, mkRow 91), (92, mkRow 92), (100, mkRow 100), (101, mkRow 101), (107, mkRow 107)] 4]

/-- The page store after the first 80 inserts of `c1_ids`. -/
def c1_ck80 : List Node := [.internal true 0 [(7, 33), (11, 107)] 6,
   .leaf false 11 [(69, mkRow 69), (76, mkRow 76), (77, mkRow 77), (78, mkRow 78), (79, mkRow 79), (81, mkRow 81), (83, mkRow 83), (84, mkRow 84)] 12,
   .leaf false 7 [(1, mkRow 1), (3, mkRow 3), (5, mkRow 5), (7, mkRow 7), (9, mkRow 9), (13, mkRow 13), (16, mkRow 16)] 9,
   .leaf false 6 [(139, mkRow 139), (142, mkRow 142), (143, mkRow 143), (150, mkRow 150), (151, mkRow 151), (154, mkRow 154), (155, mkRow 155), (156, mkRow 156), (157, mkRow 157), (158, mkRow 158), (159, mkRow 159), (162, mkRow 162), (163, mkRow 163)] 8,
   .leaf false 6 [(109, mkRow 109), (114, mkRow 114), (115, mkRow 115), (116, mkRow 116), (122, mkRow 122), (124, mkRow 124), (126, mkRow 126), (127, mkRow 127), (129, mkRow 129), (135, mkRow 135), (136, mkRow 136), (138, mkRow 138)] 3,
   .leaf false 11 [(34, mkRow 34), (37, mkRow 37), (39, mkRow 39), (42, mkRow 42), (45, mkRow 45), (46, mkRow 46), (49, mkRow 49)] 10,
   .internal false 0 [(4, 138), (3, 163)] 8,
   .internal false 0 [(2, 16)] 9,
   .leaf false 6 [(164, mkRow 164), (165, mkRow 165), (168, mkRow 168), (169, mkRow 169), (172, mkRow 172), (173, mkRow 173), (179, mkRow 179)] 0,
   .leaf false 7 [(17, mkRow 17), (20, mkRow 20), (26, mkRow 26), (28, mkRow 28), (30, mkRow 30), (31, mkRow 31), (33, mkRow 33)] 5,
   .leaf false 11 [(52, mkRow 52), (53, mkRow 53), (54, mkRow 54), (55, mkRow 55), (56, mkRow 56), (60, mkRow 60), (63, mkRow 63), (64, mkRow 64), (65, mkRow 65), (66, mkRow 66), (68, mkRow 68)] 1,
   .internal false 0 [(5, 49), (10, 68), (1, 84)] 12,
   .leaf false 11 [(85, mkRow 85), (87, mkRow 87), (89, mkRow 89), (91, mkRow 91), (92, mkRow 92), (100, mkRow 100), (101, mkRow 101), (107, mkRow 107)] 4]

/-- The page store after the first 81 inserts of `c1_ids`. -/
def c1_ck81 : List Node := [.internal true 0 [(7, 33), (11, 107)] 6,
   .leaf false 11 [(69, mkRow 69), (73, mkRow 73), (76, mkRow 76), (77, mkRow 77), (78, mkRow 78), (79, mkRow 79), (81, mkRow 81), (83, mkRow 83), (84, mkRow 84)] 12,
   .leaf false 7 [(1, mkRow 1), (3, mkRow 3), (5, mkRow 5), (7, mkRow 7), (9, mkRow 9), (13, mkRow 13), (16, mkRow 16)] 9,
   .leaf false 6 [(139, mkRow 139), (142, mkRow 142), (143, mkRow 143), (150, mkRow 150), (151, mkRow 151), (154, mkRow 154), (155, mkRow 155), (156, mkRow 156), (157, mkRow 157), (158, mkRow 158), (159, mkRow 159), (162, mkRow 162), (163, mkRow 163)] 8,
   .leaf false 6 [(109, mkRow 109), (114, mkRow 114), (115, mkRow 115), (116, mkRow 116), (122, mkRow 122), (124, mkRow 124), (126, mkRow 126), (127, mkRow 127), (129, mkRow 129), (135, mkRow 135), (136, mkRow 136), (138, mkRow 138)] 3,
   .leaf false 11 [(34, mkRow 34), (37, mkRow 37), (39, mkRow 39), (42, mkRow 42), (45, mkRow 45), (46, mkRow 46), (49, mkRow 49)] 10,
   .internal false 0 [(4, 138), (3, 163)] 8,
   .internal false 0 [(2, 16)] 9,
   .leaf false 6 [(164, mkRow 164), (165, mkRow 165), (168, mkRow 168), (169, mkRow 169), (172, mkRow 172), (173, mkRow 173), (179, mkRow 179)] 0,
   .leaf false 7 [(17, mkRow 17), (20, mkRow 20), (26, mkRow 26), (28, mkRow 28), (30, mkRow 30), (31, mkRow 31), (33, mkRow 33)] 5,
   .leaf false 11 [(52, mkRow 52), (53, mkRow 53), (54, mkRow 54), (55, mkRow 55), (56, mkRow 56), (60, mkRow 60), (63, mkRow 63), (64, mkRow 64), (65, mkRow 65), (66, mkRow 66), (68, mkRow 68)] 1,
   .internal false 0 [(5, 49), (10, 68), (1, 84)] 12,
   .leaf false 11 [(85, mkRow 85), (87, mkRow 87), (89, mkRow 89), (91, mkRow 91), (92, mkRow 92), (100, mkRow 100), (101, mkRow 101), (107, mkRow 107)] 4]

/-- The page store after the first 82 inserts of `c1_ids`. -/
def c1_ck82 : List Node := [.internal true 0 [(7, 33), (11, 107)] 6,
   .leaf false 11 [(69, mkRow 69), (73, mkRow 73), (76, mkRow 76), (77, mkRow 77), (78, mkRow 78), (79, mkRow 79), (81, mkRow 81), (83, mkRow 83), (84, mkRow 84)] 12,
   .leaf false 7 [(1, mkRow 1), (3, mkRow 3), (5, mkRow 5), (7, mkRow 7), (9, mkRow 9), (13, mkRow 13), (16, mkRow 16)] 9,
   .leaf false 6 [(139, mkRow 139), (141, mkRow 141), (142, mkRow 142), (143, mkRow 143), (150, mkRow 150), (151, mkRow 151), (154, mkRow 154)] 13,
   .leaf false 6 [(109, mkRow 109), (114, mkRow 114), (115, mkRow 115), (116, mkRow 116), (122, mkRow 122), (124, mkRow 124), (126, mkRow 126), (127, mkRow 127), (129, mkRow 129), (135, mkRow 135), (136, mkRow 136), (138, mkRow 138)] 3,
   .leaf false 11 [(34, mkRow 34), (37, mkRow 37), (39, mkRow 39), (42, mkRow 42), (45, mkRow 45), (46, mkRow 46), (49, mkRow 49)] 10,
   .internal false 0 [(4, 138), (3, 154), (13, 163)] 8,
   .internal false 0 [(2, 16)] 9,
   .leaf false 6 [(164, mkRow 164), (165, mkRow 165), (168, mkRow 168), (169, mkRow 169), (172, mkRow 172), (173, mkRow 173), (179, mkRow 179)] 0,
   .leaf false 7 [(17, mkRow 17), (20, mkRow 20), (26, mkRow 26), (28, mkRow 28), (30, mkRow 30), (31, mkRow 31), (33, mkRow 33)] 5,
   .leaf false 11 [(52, mkRow 52), (53, mkRow 53), (54, mkRow 54), (55, mkRow 55), (56, mkRow 56), (60, mkRow 60), (63, mkRow 63), (64, mkRow 64), (65, mkRow 65), (66, mkRow 66), (68, mkRow 68)] 1,
   .internal false 0 [(5, 49), (10, 68), (1, 84)] 12,
   .leaf false 11 [(85, mkRow 85), (87, mkRow 87), (89, mkRow 89), (91, mkRow 91), (92, mkRow 92), (100, mkRow 100), (101, mkRow 101), (107, mkRow 107)] 4,
   .leaf false 6 [(155, mkRow 155), (156, mkRow 156), (157, mkRow 157), (158, mkRow 158), (159, mkRow 159), (162, mkRow 162), (163, mkRow 163)] 8]

/-- The page store after the first 83 inserts of `c1_ids`. -/
def c1_ck83 : List Node := [.internal true 0 [(7, 33), (11, 107)] 6,
   .leaf false 11 [(69, mkRow 69), (73, mkRow 73), (76, mkRow 76), (77, mkRow 77), (78, mkRow 78), (79, mkRow 79), (81, mkRow 81), (83, mkRow 83), (84, mkRow 84)] 12,
   .leaf false 7 [(1, mkRow 1), (3, mkRow 3), (5, mkRow 5), (7, mkRow 7), (9, mkRow 9), (13, mkRow 13), (16, mkRow 16)] 9,
   .leaf false 6 [(139, mkRow 139), (141, mkRow 141), (142, mkRow 142), (143, mkRow 143), (150, mkRow 150), (151, mkRow 151), (154, mkRow 154)] 13,
   .leaf false 6 [(109, mkRow 109), (114, mkRow 114), (115, mkRow 115), (116, mkRow 116), (121, mkRow 121), (122, mkRow 122), (124, mkRow 124), (126, mkRow 126), (127, mkRow 127), (129, mkRow 129), (135, mkRow 135), (136, mkRow 136), (138, mkRow 138)] 3,
   .leaf false 11 [(34, mkRow 34), (37, mkRow 37), (39, mkRow 39), (42, mkRow 42), (45, mkRow 45), (46, mkRow 46), (49, mkRow 49)] 10,
   .internal false 0 [(4, 138), (3, 154), (13, 163)] 8,
   .internal false 0 [(2, 16)] 9,
   .leaf false 6 [(164, mkRow 164), (165, mkRow 165), (168, mkRow 168), (169, mkRow 169), (172, mkRow 172), (173, mkRow 173), (179, mkRow 179)] 0,
   .leaf false 7 [(17, mkRow 17), (20, mkRow 20), (26, mkRow 26), (28, mkRow 28), (30, mkRow 30), (31, mkRow 31), (33, mkRow 33)] 5,
   .leaf false 11 [(52, mkRow 52), (53, mkRow 53), (54, mkRow 54), (55, mkRow 55), (56, mkRow 56), (60, mkRow 60), (63, mkRow 63), (64, mkRow 64), (65, mkRow 65), (66, mkRow 66), (68, mkRow 68)] 1,
   .internal false 0 [(5, 49), (10, 68), (1, 84)] 12,
   .leaf false 11 [(85, mkRow 85), (87, mkRow 87), (89, mkRow 89), (91, mkRow 91), (92, mkRow 92), (100, mkRow 100), (101, mkRow 101), (107, mkRow 107)] 4,
   .leaf false 6 [(155, mkRow 155), (156, mkRow 156), (157, mkRow 157), (158, mkRow 158), (159, mkRow 159), (162, mkRow 162), (163, mkRow 163)] 8]

/-- The page store after the first 84 inserts of `c1_ids`. -/
def c1_ck84 : List Node := [.internal true 0 [(7, 33), (11, 107)] 6,
   .leaf false 11 [(69, mkRow 69), (73, mkRow 73), (76, mkRow 76), (77, mkRow 77), (78, mkRow 78), (79, mkRow 79), (81, mkRow 81), (83, mkRow 83), (84, mkRow 84)] 12,
   .leaf false 7 [(1, mkRow 1), (3, mkRow 3), (5, mkRow 5), (7, mkRow 7), (9, mkRow 9), (13, mkRow 13), (16, mkRow 16)] 9,
   .leaf false 6 [(139, mkRow 139), (141, mkRow 141), (142, mkRow 142), (143, mkRow 143), (150, mkRow 150), (151, mkRow 151), (154, mkRow 154)] 13,
   .leaf false 6 [(109, mkRow 109), (114, mkRow 114), (115, mkRow 115), (116, mkRow 116), (121, mkRow 121), (122, mkRow 122), (124, mkRow 124), (126, mkRow 126), (127, mkRow 127), (129, mkRow 129), (135, mkRow 135), (136, mkRow 136), (138, mkRow 138)] 3,
   .leaf false 11 [(34, mkRow 34), (37, mkRow 37), (39, mkRow 39), (42, mkRow 42), (45, mkRow 45), (46, mkRow 46), (49, mkRow 49)] 10,
   .internal false 0 [(4, 138), (3, 154), (13, 163)] 8,
   .internal false 0 [(2, 16)] 9,
   .leaf false 6 [(164, mkRow 164), (165, mkRow 165), (168, mkRow 168), (169, mkRow 169), (172, mkRow 172), (173, mkRow 173), (179, mkRow 179)] 0,
   .leaf false 7 [(17, mkRow 17), (20, mkRow 20), (26, mkRow 26), (28, mkRow 28), (30, mkRow 30), (31, mkRow 31), (33, mkRow 33)] 5,
   .leaf false 11 [(51, mkRow 51), (52, mkRow 52), (53, mkRow 53), (54, mkRow 54), (55, mkRow 55), (56, mkRow 56), (60, mkRow 60), (63, mkRow 63), (64, mkRow 64), (65, mkRow 65), (66, mkRow 66), (68, mkRow 68)] 1,
   .internal false 0 [(5, 49), (10, 68), (1, 84)] 12,
   .leaf false 11 [(85, mkRow 85), (87, mkRow 87), (89, mkRow 89), (91, mkRow 91), (92, mkRow 92), (100, mkRow 100), (101, mkRow 101), (107, mkRow 107)] 4,
   .leaf false 6 [(155, mkRow 155), (156, mkRow 156), (157, mkRow 157), (158, mkRow 158), (159, mkRow 159), (162, mkRow 162), (163, mkRow 163)] 8]

/-- The page store after the first 85 inserts of `c1_ids`. -/
def c1_ck85 : List Node := [.internal true 0 [(7, 33), (11, 107)] 6,
   .leaf false 11 [(69, mkRow 69), (73, mkRow 73), (76, mkRow 76), (77, mkRow 77), (78, mkRow 78), (79, mkRow 79), (81, mkRow 81), (83, mkRow 83), (84, mkRow 84)] 12,
   .leaf false 7 [(1, mkRow 1), (3, mkRow 3), (5, mkRow 5), (7, mkRow 7), (9, mkRow 9), (13, mkRow 13), (16, mkRow 16)] 9,
   .leaf false 6 [(139, mkRow 139), (141, mkRow 141), (142, mkRow 142), (143, mkRow 143), (150, mkRow 150), (151, mkRow 151), (154, mkRow 154)] 13,
   .leaf false 6 [(109, mkRow 109), (114, mkRow 114), (115, mkRow 115), (116, mkRow 116), (121, mkRow 121), (122, mkRow 122), (124, mkRow 124), (126, mkRow 126), (127, mkRow 127), (129, mkRow 129), (135, mkRow 135), (136, mkRow 136), (138, mkRow 138)] 3,
   .leaf false 11 [(34, mkRow 34), (37, mkRow 37), (39, mkRow 39), (42, mkRow 42), (45, mkRow 45), (46, mkRow 46), (49, mkRow 49)] 10,
   .internal false 0 [(4, 138), (3, 154), (13, 163)] 8,
   .internal false 0 [(2, 16)] 9,
   .leaf false 6 [(164, mkRow 164), (165, mkRow 165), (168, mkRow 168), (169, mkRow 169), (172, mkRow 172), (173, mkRow 173), (179, mkRow 179)] 0,
   .leaf false 7 [(17, mkRow 17), (20, mkRow 20), (26, mkRow 26), (28, mkRow 28), (30, mkRow 30), (31, mkRow 31), (33, mkRow 33)] 5,
   .leaf false 11 [(51, mkRow 51), (52, mkRow 52), (53, mkRow 53), (54, mkRow 54), (55, mkRow 55), (56, mkRow 56), (60, mkRow 60), (63, mkRow 63), (64, mkRow 64), (65, mkRow 65), (66, mkRow 66), (68, mkRow 68)] 1,
   .internal false 0 [(5, 49), (10, 68), (1, 84)] 12,
   .leaf false 11 [(85, mkRow 85), (87, mkRow 87), (88, mkRow 88), (89, mkRow 89), (91, mkRow 91), (92, mkRow 92), (100, mkRow 100), (101, mkRow 101), (107, mkRow 107)] 4,
   .leaf false 6 [(155, mkRow 155), (156, mkRow 156), (157, mkRow 157), (158, mkRow 158), (159, mkRow 159), (162, mkRow 162), (163, mkRow 163)] 8]

/-- The page store after the first 86 inserts of `c1_ids`. -/
def c1_ck86 : List Node := [.internal true 0 [(7, 33), (11, 107)] 6,
   .leaf false 11 [(69, mkRow 69), (73, mkRow 73), (76, mkRow 76), (77, mkRow 77), (78, mkRow 78), (79, mkRow 79), (81, mkRow 81), (83, mkRow 83), (84, mkRow 84)] 12,
   .leaf false 7 [(1, mkRow 1), (3, mkRow 3), (5, mkRow 5), (7, mkRow 7), (9, mkRow 9), (13, mkRow 13), (16, mkRow 16)] 9,
   .leaf false 6 [(139, mkRow 139), (141, mkRow 141), (142, mkRow 142), (143, mkRow 143), (150, mkRow 150), (151, mkRow 151), (154, mkRow 154)] 13,
   .leaf false 6 [(109, mkRow 109), (114, mkRow 114), (115, mkRow 115), (116, mkRow 116), (121, mkRow 121), (122, mkRow 122), (124, mkRow 124), (126, mkRow 126), (127, mkRow 127), (129, mkRow 129), (135, mkRow 135), (136, mkRow 136), (138, mkRow 138)] 3,
   .leaf false 11 [(34, mkRow 34), (37, mkRow 37), (39, mkRow 39), (42, mkRow 42), (45, mkRow 45), (46, mkRow 46), (49, mkRow 49)] 10,
   .internal false 0 [(4, 138), (3, 154), (13, 163)] 8,
   .internal false 0 [(2, 16)] 9,
   .leaf false 6 [(164, mkRow 164), (165, mkRow 165), (168, mkRow 168), (169, mkRow 169), (172, mkRow 172), (173, mkRow 173), (179, mkRow 179)] 0,
   .leaf false 7 [(17, mkRow 17), (20, mkRow 20), (26, mkRow 26), (28, mkRow 28), (30, mkRow 30), (31, mkRow 31), (33, mkRow 33)] 5,
   .leaf false 11 [(51, mkRow 51), (52, mkRow 52), (53, mkRow 53), (54, mkRow 54), (55, mkRow 55), (56, mkRow 56), (60, mkRow 60), (63, mkRow 63), (64, mkRow 64), (65, mkRow 65), (66, mkRow 66), (68, mkRow 68)] 1,
   .internal false 0 [(5, 49), (10, 68), (1, 84)] 12,
   .leaf false 11 [(85, mkRow 85), (87, mkRow 87), (88, mkRow 88), (89, mkRow 89), (91, mkRow 91), (92, mkRow 92), (100, mkRow 100), (101, mkRow 101), (105, mkRow 105), (107, mkRow 107)] 4,
   .leaf false 6 [(155, mkRow 155), (156, mkRow 156), (157, mkRow 157), (158, mkRow 158), (159, mkRow 159), (162, mkRow 162), (163, mkRow 163)] 8]

/-- The page store after the first 87 inserts of `c1_ids`. -/
def c1_ck87 : List Node := [.internal true 0 [(7, 33), (11, 107)] 6,
   .leaf false 11 [(69, mkRow 69), (73, mkRow 73), (76, mkRow 76), (77, mkRow 77), (78, mkRow 78), (79, mkRow 79), (81, mkRow 81), (82, mkRow 82), (83, mkRow 83), (84, mkRow 84)] 12,
   .leaf false 7 [(1, mkRow 1), (3, mkRow 3), (5, mkRow 5), (7, mkRow 7), (9, mkRow 9), (13, mkRow 13), (16, mkRow 16)] 9,
   .leaf false 6 [(139, mkRow 139), (141, mkRow 141), (142, mkRow 142), (143, mkRow 143), (150, mkRow 150), (151, mkRow 151), (154, mkRow 154)] 13,
   .leaf false 6 [(109, mkRow 109), (114, mkRow 114), (115, mkRow 115), (116, mkRow 116), (121, mkRow 121), (122, mkRow 122), (124, mkRow 124), (126, mkRow 126), (127, mkRow 127), (129, mkRow 129), (135, mkRow 135), (136, mkRow 136), (138, mkRow 138)] 3,
   .leaf false 11 [(34, mkRow 34), (37, mkRow 37), (39, mkRow 39), (42, mkRow 42), (45, mkRow 45), (46, mkRow 46), (49, mkRow 49)] 10,
   .internal false 0 [(4, 138), (3, 154), (13, 163)] 8,
   .internal false 0 [(2, 16)] 9,
   .leaf false 6 [(164, mkRow 164), (165, mkRow 165), (168, mkRow 168), (169, mkRow 169), (172, mkRow 172), (173, mkRow 173), (179, mkRow 179)] 0,
   .leaf false 7 [(17, mkRow 17), (20, mkRow 20), (26, mkRow 26), (28, mkRow 28), (30, mkRow 30), (31, mkRow 31), (33, mkRow 33)] 5,
   .leaf false 11 [(51, mkRow 51), (52, mkRow 52), (53, mkRow 53), (54, mkRow 54), (55, mkRow 55), (56, mkRow 56), (60, mkRow 60), (63, mkRow 63), (64, mkRow 64), (65, mkRow 65), (66, mkRow 66), (68, mkRow 68)] 1,
   .internal false 0 [(5, 49), (10, 68), (1, 84)] 12,
   .leaf false 11 [(85, mkRow 85), (87, mkRow 87), (88, mkRow 88), (89, mkRow 89), (91, mkRow 91), (92, mkRow 92), (100, mkRow 100), (101, mkRow 101), (105, mkRow 105), (107, mkRow 107)] 4,
   .leaf false 6 [(155, mkRow 155), (156, mkRow 156), (157, mkRow 157), (158, mkRow 158), (159, mkRow 159), (162, mkRow 162), (163, mkRow 163)] 8]

/-- The page store after the first 88 inserts of `c1_ids`. -/
def c1_ck88 : List Node := [.internal true 0 [(7, 33), (11, 107)] 6,
   .leaf false 11 [(69, mkRow 69), (73, mkRow 73), (76, mkRow 76), (77, mkRow 77), (78, mkRow 78), (79, mkRow 79), (81, mkRow 81), (82, mkRow 82), (83, mkRow 83), (84, mkRow 84)] 12,
   .leaf false 7 [(1, mkRow 1), (3, mkRow 3), (5, mkRow 5), (7, mkRow 7), (9, mkRow 9), (13, mkRow 13), (16, mkRow 16)] 9,
   .leaf false 6 [(139, mkRow 139), (141, mkRow 141), (142, mkRow 142), (143, mkRow 143), (150, mkRow 150), (151, mkRow 151), (154, mkRow 154)] 13,
   .leaf false 6 [(109, mkRow 109), (114, mkRow 114), (115, mkRow 115), (116, mkRow 116), (121, mkRow 121), (122, mkRow 122), (124, mkRow 124), (126, mkRow 126), (127, mkRow 127), (129, mkRow 129), (135, mkRow 135), (136, mkRow 136), (138, mkRow 138)] 3,
   .leaf false 11 [(34, mkRow 34), (37, mkRow 37), (39, mkRow 39), (42, mkRow 42), (45, mkRow 45), (46, mkRow 46), (49, mkRow 49)] 10,
   .internal false 0 [(4, 138), (3, 154), (13, 163)] 8,
   .internal false 0 [(2, 16)] 9,
   .leaf false 6 [(164, mkRow 164), (165, mkRow 165), (168, mkRow 168), (169, mkRow 169), (172, mkRow 172), (173, mkRow 173), (179, mkRow 179)] 0,
   .leaf false 7 [(17, mkRow 17), (20, mkRow 20), (26, mkRow 26), (28, mkRow 28), (30, mkRow 30), (31, mkRow 31), (33, mkRow 33)] 5,
   .leaf false 11 [(51, mkRow 51), (52, mkRow 52), (53, mkRow 53), (54, mkRow 54), (55, mkRow 55), (56, mkRow 56), (60, mkRow 60), (63, mkRow 63), (64, mkRow 64), (65, mkRow 65), (66, mkRow 66), (68, mkRow 68)] 1,
   .internal false 0 [(5, 49), (10, 68), (1, 84)] 12,
   .leaf false 11 [(85, mkRow 85), (87, mkRow 87), (88, mkRow 88), (89, mkRow 89), (91, mkRow 91), (92, mkRow 92), (97, mkRow 97), (100, mkRow 100), (101, mkRow 101), (105, mkRow 105), (107, mkRow 107)] 4,
   .leaf false 6 [(155, mkRow 155), (156, mkRow 156), (157, mkRow 157), (158, mkRow 158), (159, mkRow 159), (162, mkRow 162), (163, mkRow 163)] 8]

/-- The page store after the first 89 inserts of `c1_ids`. -/
def c1_ck89 : List Node := [.internal true 0 [(7, 33), (11, 107), (6, 154)] 15,
   .leaf false 11 [(69, mkRow 69), (73, mkRow 73), (76, mkRow 76), (77, mkRow 77), (78, mkRow 78), (79, mkRow 79), (81, mkRow 81), (82, mkRow 82), (83, mkRow 83), (84, mkRow 84)] 12,
   .leaf false 7 [(1, mkRow 1), (3, mkRow 3), (5, mkRow 5), (7, mkRow 7), (9, mkRow 9), (13, mkRow 13), (16, mkRow 16)] 9,
   .leaf false 6 [(139, mkRow 139), (141, mkRow 141), (142, mkRow 142), (143, mkRow 143), (150, mkRow 150), (151, mkRow 151), (154, mkRow 154)] 13,
   .leaf false 6 [(109, mkRow 109), (114, mkRow 114), (115, mkRow 115), (116, mkRow 116), (121, mkRow 121), (122, mkRow 122), (123, mkRow 123)] 14,
   .leaf false 11 [(34, mkRow 34), (37, mkRow 37), (39, mkRow 39), (42, mkRow 42), (45, mkRow 45), (46, mkRow 46), (49, mkRow 49)] 10,
   .internal false 0 [(4, 123), (14, 138)] 3,
   .internal false 0 [(2, 16)] 9,
   .leaf false 15 [(164, mkRow 164), (165, mkRow 165), (168, mkRow 168), (169, mkRow 169), (172, mkRow 172), (173, mkRow 173), (179, mkRow 179)] 0,
   .leaf false 7 [(17, mkRow 17), (20, mkRow 20), (26, mkRow 26), (28, mkRow 28), (30, mkRow 30), (31, mkRow 31), (33, mkRow 33)] 5,
   .leaf false 11 [(51, mkRow 51), (52, mkRow 52), (53, mkRow 53), (54, mkRow 54), (55, mkRow 55), (56, mkRow 56), (60, mkRow 60), (63, mkRow 63), (64, mkRow 64), (65, mkRow 65), (66, mkRow 66), (68, mkRow 68)] 1,
   .internal false 0 [(5, 49), (10, 68), (1, 84)] 12,
   .leaf false 11 [(85, mkRow 85), (87, mkRow 87), (88, mkRow 88), (89, mkRow 89), (91, mkRow 91), (92, mkRow 92), (97, mkRow 97), (100, mkRow 100), (101, mkRow 101), (105, mkRow 105), (107, mkRow 107)] 4,
   .leaf false 15 [(155, mkRow 155), (156, mkRow 156), (157, mkRow 157), (158, mkRow 158), (159, mkRow 159), (162, mkRow 162), (163, mkRow 163)] 8,
   .leaf false 6 [(124, mkRow 124), (126, mkRow 126), (127, mkRow 127), (129, mkRow 129), (135, mkRow 135), (136, mkRow 136), (138, mkRow 138)] 3,
   .internal false 0 [(13, 163)] 8]

/-- The page store after the first 90 inserts of `c1_ids`. -/
def c1_ck90 : List Node := [.internal true 0 [(7, 33), (11, 107), (6, 154)] 15,
   .leaf false 11 [(69, mkRow 69), (73, mkRow 73), (76, mkRow 76), (77, mkRow 77), (78, mkRow 78), (79, mkRow 79), (81, mkRow 81), (82, mkRow 82), (83, mkRow 83), (84, mkRow 84)] 12,
   .leaf false 7 [(1, mkRow 1), (3, mkRow 3), (5, mkRow 5), (7, mkRow 7), (9, mkRow 9), (13, mkRow 13), (16, mkRow 16)] 9,
   .leaf false 6 [(139, mkRow 139), (141, mkRow 141), (142, mkRow 142), (143, mkRow 143), (150, mkRow 150), (151, mkRow 151), (154, mkRow 154)] 13,
   .leaf false 6 [(109, mkRow 109), (114, mkRow 114), (115, mkRow 115), (116, mkRow 116), (121, mkRow 121), (122, mkRow 122), (123, mkRow 123)] 14,
   .leaf false 11 [(34, mkRow 34), (37, mkRow 37), (39, mkRow 39), (42, mkRow 42), (45, mkRow 45), (46, mkRow 46), (49, mkRow 49)] 10,
   .internal false 0 [(4, 123), (14, 138)] 3,
   .internal false 0 [(2, 16)] 9,
   .leaf false 15 [(164, mkRow 164), (165, mkRow 165), (168, mkRow 168), (169, mkRow 169), (172, mkRow 172), (173, mkRow 173), (179, mkRow 179)] 0,
   .leaf false 7 [(17, mkRow 17), (20, mkRow 20), (26, mkRow 26), (28, mkRow 28), (30, mkRow 30), (31, mkRow 31), (33, mkRow 33)] 5,
   .leaf false 11 [(51, mkRow 51), (52, mkRow 52), (53, mkRow 53), (54, mkRow 54), (55, mkRow 55), (56, mkRow 56), (60, mkRow 60), (63, mkRow 63), (64, mkRow 64), (65, mkRow 65), (66, mkRow 66), (68, mkRow 68)] 1,
   .internal false 0 [(5, 49), (10, 68), (1, 84)] 12,
   .leaf false 11 [(85, mkRow 85), (87, mkRow 87), (88, mkRow 88), (89, mkRow 89), (91, mkRow 91), (92, mkRow 92), (97, mkRow 97), (100, mkRow 100), (101, mkRow 101), (105, mkRow 105), (106, mkRow 106), (107, mkRow 107)] 4,
   .leaf false 15 [(155, mkRow 155), (156, mkRow 156), (157, mkRow 157), (158, mkRow 158), (159, mkRow 159), (162, mkRow 162), (163, mkRow 163)] 8,
   .leaf false 6 [(124, mkRow 124), (126, mkRow 126), (127, mkRow 127), (129, mkRow 129), (135, mkRow 135), (136, mkRow 136), (138, mkRow 138)] 3,
   .internal false 0 [(13, 163)] 8]

/-- The page store after the first 91 inserts of `c1_ids`. -/
def c1_ck91 : List Node := [.internal true 0 [(7, 33), (11, 107), (6, 154)] 15,
   .leaf false 11 [(69, mkRow 69), (73, mkRow 73), (76, mkRow 76), (77, mkRow 77), (78, mkRow 78), (79, mkRow 79), (81, mkRow 81), (82, mkRow 82), (83, mkRow 83), (84, mkRow 84)] 12,
   .leaf false 7 [(1, mkRow 1), (3, mkRow 3), (5, mkRow 5), (7, mkRow 7), (9, mkRow 9), (13, mkRow 13), (16, mkRow 16)] 9,
   .leaf false 6 [(139, mkRow 139), (141, mkRow 141), (142, mkRow 142), (143, mkRow 143), (150, mkRow 150), (151, mkRow 151), (154, mkRow 154)] 13,
   .leaf false 6 [(109, mkRow 109), (114, mkRow 114), (115, mkRow 115), (116, mkRow 116), (121, mkRow 121), (122, mkRow 122), (123, mkRow 123)] 14,
   .leaf false 11 [(34, mkRow 34), (37, mkRow 37), (39, mkRow 39), (42, mkRow 42), (45, mkRow 45), (46, mkRow 46), (49, mkRow 49)] 10,
   .internal false 0 [(4, 123), (14, 138)] 3,
   .internal false 0 [(2, 16)] 9,
   .leaf false 15 [(164, mkRow 164), (165, mkRow 165), (168, mkRow 168), (169, mkRow 169), (172, mkRow 172), (173, mkRow 173), (179, mkRow 179)] 0,
   .leaf false 7 [(17, mkRow 17), (20, mkRow 20), (26, mkRow 26), (28, mkRow 28), (30, mkRow 30), (31, mkRow 31), (33, mkRow 33)] 5,
   .leaf false 11 [(51, mkRow 51), (52, mkRow 52), (53, mkRow 53), (54, mkRow 54), (55, mkRow 55), (56, mkRow 56), (60, mkRow 60), (62, mkRow 62), (63, mkRow 63), (64, mkRow 64), (65, mkRow 65), (66, mkRow 66), (68, mkRow 68)] 1,
   .internal false 0 [(5, 49), (10, 68), (1, 84)] 12,
   .leaf false 11 [(85, mkRow 85), (87, mkRow 87), (88, mkRow 88), (89, mkRow 89), (91, mkRow 91), (92, mkRow 92), (97, mkRow 97), (100, mkRow 100), (101, mkRow 101), (105, mkRow 105), (106, mkRow 106), (107, mkRow 107)] 4,
   .leaf false 15 [(155, mkRow 155), (156, mkRow 156), (157, mkRow 157), (158, mkRow 158), (159, mkRow 159), (162, mkRow 162), (163, mkRow 163)] 8,
   .leaf false 6 [(124, mkRow 124), (126, mkRow 126), (127, mkRow 127), (129, mkRow 129), (135, mkRow 135), (136, mkRow 136), (138, mkRow 138)] 3,
   .internal false 0 [(13, 163)] 8]

/-- The page store after the first 92 inserts of `c1_ids`. -/
def c1_ck92 : List Node := [.internal true 0 [(7, 33), (11, 107), (6, 154)] 15,
   .leaf false 11 [(69, mkRow 69), (73, mkRow 73), (75, mkRow 75), (76, mkRow 76), (77, mkRow 77), (78, mkRow 78), (79, mkRow 79), (81, mkRow 81), (82, mkRow 82), (83, mkRow 83), (84, mkRow 84)] 12,
   .leaf false 7 [(1, mkRow 1), (3, mkRow 3), (5, mkRow 5), (7, mkRow 7), (9, mkRow 9), (13, mkRow 13), (16, mkRow 16)] 9,
   .leaf false 6 [(139, mkRow 139), (141, mkRow 141), (142, mkRow 142), (143, mkRow 143), (150, mkRow 150), (151, mkRow 151), (154, mkRow 154)] 13,
   .leaf false 6 [(109, mkRow 109), (114, mkRow 114), (115, mkRow 115), (116, mkRow 116), (121, mkRow 121), (122, mkRow 122), (123, mkRow 123)] 14,
   .leaf false 11 [(34, mkRow 34), (37, mkRow 37), (39, mkRow 39), (42, mkRow 42), (45, mkRow 45), (46, mkRow 46), (49, mkRow 49)] 10,
   .internal false 0 [(4, 123), (14, 138)] 3,
   .internal false 0 [(2, 16)] 9,
   .leaf false 15 [(164, mkRow 164), (165, mkRow 165), (168, mkRow 168), (169, mkRow 169), (172, mkRow 172), (173, mkRow 173), (179, mkRow 179)] 0,
   .leaf false 7 [(17, mkRow 17), (20, mkRow 20), (26, mkRow 26), (28, mkRow 28), (30, mkRow 30), (31, mkRow 31), (33, mkRow 33)] 5,
   .leaf false 11 [(51, mkRow 51), (52, mkRow 52), (53, mkRow 53), (54, mkRow 54), (55, mkRow 55), (56, mkRow 56), (60, mkRow 60), (62, mkRow 62), (63, mkRow 63), (64, mkRow 64), (65, mkRow 65), (66, mkRow 66), (68, mkRow 68)] 1,
   .internal false 0 [(5, 49), (10, 68), (1, 84)] 12,
   .leaf false 11 [(85, mkRow 85), (87, mkRow 87), (88, mkRow 88), (89, mkRow 89), (91, mkRow 91), (92, mkRow 92), (97, mkRow 97), (100, mkRow 100), (101, mkRow 101), (105, mkRow 105), (106, mkRow 106), (107, mkRow 107)] 4,
   .leaf false 15 [(155, mkRow 155), (156, mkRow 156), (157, mkRow 157), (158, mkRow 158), (159, mkRow 159), (162, mkRow 162), (163, mkRow 163)] 8,
   .leaf false 6 [(124, mkRow 124), (126, mkRow 126), (127, mkRow 127), (129, mkRow 129), (135, mkRow 135), (136, mkRow 136), (138, mkRow 138)] 3,
   .internal false 0 [(13, 163)] 8]

/-- The page store after the first 93 inserts of `c1_ids`. -/
def c1_ck93 : List Node := [.internal true 0 [(7, 33), (11, 107), (6, 154)] 15,
   .leaf false 11 [(69, mkRow 69), (73, mkRow 73), (75, mkRow 75), (76, mkRow 76), (77, mkRow 77), (78, mkRow 78), (79, mkRow 79), (80, mkRow 80), (81, mkRow 81), (82, mkRow 82), (83, mkRow 83), (84, mkRow 84)] 12,
   .leaf false 7 [(1, mkRow 1), (3, mkRow 3), (5, mkRow 5), (7, mkRow 7), (9, mkRow 9), (13, mkRow 13), (16, mkRow 16)] 9,
   .leaf false 6 [(139, mkRow 139), (141, mkRow 141), (142, mkRow 142), (143, mkRow 143), (150, mkRow 150), (151, mkRow 151), (154, mkRow 154)] 13,
   .leaf false 6 [(109, mkRow 109), (114, mkRow 114), (115, mkRow 115), (116, mkRow 116), (121, mkRow 121), (122, mkRow 122), (123, mkRow 123)] 14,
   .leaf false 11 [(34, mkRow 34), (37, mkRow 37), (39, mkRow 39), (42, mkRow 42), (45, mkRow 45), (46, mkRow 46), (49, mkRow 49)] 10,
   .internal false 0 [(4, 123), (14, 138)] 3,
   .internal false 0 [(2, 16)] 9,
   .leaf false 15 [(164, mkRow 164), (165, mkRow 165), (168, mkRow 168), (169, mkRow 169), (172, mkRow 172), (173, mkRow 173), (179, mkRow 179)] 0,
   .leaf false 7 [(17, mkRow 17), (20, mkRow 20), (26, mkRow 26), (28, mkRow 28), (30, mkRow 30), (31, mkRow 31), (33, mkRow 33)] 5,
   .leaf false 11 [(51, mkRow 51), (52, mkRow 52), (53, mkRow 53), (54, mkRow 54), (55, mkRow 55), (56, mkRow 56), (60, mkRow 60), (62, mkRow 62), (63, mkRow 63), (64, mkRow 64), (65, mkRow 65), (66, mkRow 66), (68, mkRow 68)] 1,
   .internal false 0 [(5, 49), (10, 68), (1, 84)] 12,
   .leaf false 11 [(85, mkRow 85), (87, mkRow 87), (88, mkRow 88), (89, mkRow 89), (91, mkRow 91), (92, mkRow 92), (97, mkRow 97), (100, mkRow 100), (101, mkRow 101), (105, mkRow 105), (106, mkRow 106), (107, mkRow 107)] 4,
   .leaf false 15 [(155, mkRow 155), (156, mkRow 156), (157, mkRow 157), (158, mkRow 158), (159, mkRow 159), (162, mkRow 162), (163, mkRow 163)] 8,
   .leaf false 6 [(124, mkRow 124), (126, mkRow 126), (127, mkRow 127), (129, mkRow 129), (135, mkRow 135), (136, mkRow 136), (138, mkRow 138)] 3,
   .internal false 0 [(13, 163)] 8]

/-- The page store after the first 94 inserts of `c1_ids`. -/
def c1_ck94 : List Node := [.internal true 0 [(19, 60)] 18,
   .leaf false 17 [(69, mkRow 69), (73, mkRow 73), (75, mkRow 75), (76, mkRow 76), (77, mkRow 77), (78, mkRow 78), (79, mkRow 79), (80, mkRow 80), (81, mkRow 81), (82, mkRow 82), (83, mkRow 83), (84, mkRow 84)] 12,
   .leaf false 7 [(1, mkRow 1), (3, mkRow 3), (5, mkRow 5), (7, mkRow 7), (9, mkRow 9), (13, mkRow 13), (16, mkRow 16)] 9,
   .leaf false 6 [(139, mkRow 139), (141, mkRow 141), (142, mkRow 142), (143, mkRow 143), (150, mkRow 150), (151, mkRow 151), (154, mkRow 154)] 13,
   .leaf false 6 [(109, mkRow 109), (114, mkRow 114), (115, mkRow 115), (116, mkRow 116), (121, mkRow 121), (122, mkRow 122), (123, mkRow 123)] 14,
   .leaf false 11 [(34, mkRow 34), (37, mkRow 37), (39, mkRow 39), (42, mkRow 42), (45, mkRow 45), (46, mkRow 46), (49, mkRow 49)] 10,
   .internal false 18 [(4, 123), (14, 138)] 3,
   .internal false 19 [(2, 16)] 9,
   .leaf false 15 [(164, mkRow 164), (165, mkRow 165), (168, mkRow 168), (169, mkRow 169), (172, mkRow 172), (173, mkRow 173), (179, mkRow 179)] 0,
   .leaf false 7 [(17, mkRow 17), (20, mkRow 20), (26, mkRow 26), (28, mkRow 28), (30, mkRow 30), (31, mkRow 31), (33, mkRow 33)] 5,
   .leaf false 11 [(51, mkRow 51), (52, mkRow 52), (53, mkRow 53), (54, mkRow 54), (55, mkRow 55), (56, mkRow 56), (60, mkRow 60)] 16,
   .internal false 19 [(5, 49)] 10,
   .leaf false 17 [(85, mkRow 85), (87, mkRow 87), (88, mkRow 88), (89, mkRow 89), (91, mkRow 91), (92, mkRow 92), (97, mkRow 97), (100, mkRow 100), (101, mkRow 101), (105, mkRow 105), (106, mkRow 106), (107, mkRow 107)] 4,
   .leaf false 15 [(155, mkRow 155), (156, mkRow 156), (157, mkRow 157), (158, mkRow 158), (159, mkRow 159), (162, mkRow 162), (163, mkRow 163)] 8,
   .leaf false 6 [(124, mkRow 124), (126, mkRow 126), (127, mkRow 127), (129, mkRow 129), (135, mkRow 135), (136, mkRow 136), (138, mkRow 138)] 3,
   .internal false 18 [(13, 163)] 8,
   .leaf false 17 [(61, mkRow 61), (62, mkRow 62), (63, mkRow 63), (64, mkRow 64), (65, mkRow 65), (66, mkRow 66), (68, mkRow 68)] 1,
   .internal false 19 [(16, 68), (1, 84)] 12,
   .internal false 0 [(17, 107), (6, 154)] 15,
   .internal false 0 [(7, 33)] 11]

/-- The page store after the first 95 inserts of `c1_ids`. -/
def c1_ck95 : List Node := [.internal true 0 [(19, 60)] 18,
   .leaf false 17 [(69, mkRow 69), (72, mkRow 72), (73, mkRow 73), (75, mkRow 75), (76, mkRow 76), (77, mkRow 77), (78, mkRow 78), (79, mkRow 79), (80, mkRow 80), (81, mkRow 81), (82, mkRow 82), (83, mkRow 83), (84, mkRow 84)] 12,
   .leaf false 7 [(1, mkRow 1), (3, mkRow 3), (5, mkRow 5), (7, mkRow 7), (9, mkRow 9), (13, mkRow 13), (16, mkRow 16)] 9,
   .leaf false 6 [(139, mkRow 139), (141, mkRow 141), (142, mkRow 142), (143, mkRow 143), (150, mkRow 150), (151, mkRow 151), (154, mkRow 154)] 13,
   .leaf false 6 [(109, mkRow 109), (114, mkRow 114), (115, mkRow 115), (116, mkRow 116), (121, mkRow 121), (122, mkRow 122), (123, mkRow 123)] 14,
   .leaf false 11 [(34, mkRow 34), (37, mkRow 37), (39, mkRow 39), (42, mkRow 42), (45, mkRow 45), (46, mkRow 46), (49, mkRow 49)] 10,
   .internal false 18 [(4, 123), (14, 138)] 3,
   .internal false 19 [(2, 16)] 9,
   .leaf false 15 [(164, mkRow 164), (165, mkRow 165), (168, mkRow 168), (169, mkRow 169), (172, mkRow 172), (173, mkRow 173), (179, mkRow 179)] 0,
   .leaf false 7 [(17, mkRow 17), (20, mkRow 20), (26, mkRow 26), (28, mkRow 28), (30, mkRow 30), (31, mkRow 31), (33, mkRow 33)] 5,
   .leaf false 11 [(51, mkRow 51), (52, mkRow 52), (53, mkRow 53), (54, mkRow 54), (55, mkRow 55), (56, mkRow 56), (60, mkRow 60)] 16,
   .internal false 19 [(5, 49)] 10,
   .leaf false 17 [(85, mkRow 85), (87, mkRow 87), (88, mkRow 88), (89, mkRow 89), (91, mkRow 91), (92, mkRow 92), (97, mkRow 97), (100, mkRow 100), (101, mkRow 101), (105, mkRow 105), (106, mkRow 106), (107, mkRow 107)] 4,
   .leaf false 15 [(155, mkRow 155), (156, mkRow 156), (157, mkRow 157), (158, mkRow 158), (159, mkRow 159), (162, mkRow 162), (163, mkRow 163)] 8,
   .leaf false 6 [(124, mkRow 124), (126, mkRow 126), (127, mkRow 127), (129, mkRow 129), (135, mkRow 135), (136, mkRow 136), (138, mkRow 138)] 3,
   .internal false 18 [(13, 163)] 8,
   .leaf false 17 [(61, mkRow 61), (62, mkRow 62), (63, mkRow 63), (64, mkRow 64), (65, mkRow 65), (66, mkRow 66), (68, mkRow 68)] 1,
   .internal false 19 [(16, 68), (1, 84)] 12,
   .internal false 0 [(17, 107), (6, 154)] 15,
   .internal false 0 [(7, 33)] 11]

/-- The page store after the first 96 inserts of `c1_ids`. -/
def c1_ck96 : List Node := [.internal true 0 [(19, 60)] 18,
   .leaf false 17 [(69, mkRow 69), (72, mkRow 72), (73, mkRow 73), (75, mkRow 75), (76, mkRow 76), (77, mkRow 77), (78, mkRow 78), (79, mkRow 79), (80, mkRow 80), (81, mkRow 81), (82, mkRow 82), (83, mkRow 83), (84, mkRow 84)] 12,
   .leaf false 7 [(1, mkRow 1), (3, mkRow 3), (5, mkRow 5), (7, mkRow 7), (9, mkRow 9), (13, mkRow 13), (16, mkRow 16)] 9,
   .leaf false 6 [(139, mkRow 139), (141, mkRow 141), (142, mkRow 142), (143, mkRow 143), (150, mkRow 150), (151, mkRow 151), (154, mkRow 154)] 13,
   .leaf false 6 [(109, mkRow 109), (114, mkRow 114), (115, mkRow 115), (116, mkRow 116), (121, mkRow 121), (122, mkRow 122), (123, mkRow 123)] 14,
   .leaf false 11 [(34, mkRow 34), (37, mkRow 37), (39, mkRow 39), (42, mkRow 42), (45, mkRow 45), (46, mkRow 46), (49, mkRow 49)] 10,
   .internal false 18 [(4, 123), (14, 138)] 3,
   .internal false 19 [(2, 16)] 9,
   .leaf false 15 [(164, mkRow 164), (165, mkRow 165), (168, mkRow 168), (169, mkRow 169), (172, mkRow 172), (173, mkRow 173), (179, mkRow 179)] 0,
   .leaf false 7 [(17, mkRow 17), (20, mkRow 20), (26, mkRow 26), (28, mkRow 28), (30, mkRow 30), (31, mkRow 31), (33, mkRow 33)] 5,
   .leaf false 11 [(51, mkRow 51), (52, mkRow 52), (53, mkRow 53), (54, mkRow 54), (55, mkRow 55), (56, mkRow 56), (60, mkRow 60)] 16,
   .internal false 19 [(5, 49)] 10,
   .leaf false 17 [(85, mkRow 85), (87, mkRow 87), (88, mkRow 88), (89, mkRow 89), (91, mkRow 91), (92, mkRow 92), (97, mkRow 97), (99, mkRow 99), (100, mkRow 100), (101, mkRow 101), (105, mkRow 105), (106, mkRow 106), (107, mkRow 107)] 4,
   .leaf false 15 [(155, mkRow 155), (156, mkRow 156), (157, mkRow 157), (158, mkRow 158), (159, mkRow 159), (162, mkRow 162), (163, mkRow 163)] 8,
   .leaf false 6 [(124, mkRow 124), (126, mkRow 126), (127, mkRow 127), (129, mkRow 129), (135, mkRow 135), (136, mkRow 136), (138, mkRow 138)] 3,
   .internal false 18 [(13, 163)] 8,
   .leaf false 17 [(61, mkRow 61), (62, mkRow 62), (63, mkRow 63), (64, mkRow 64), (65, mkRow 65), (66, mkRow 66), (68, mkRow 68)] 1,
   .internal false 19 [(16, 68), (1, 84)] 12,
   .internal false 0 [(17, 107), (6, 154)] 15,
   .internal false 0 [(7, 33)] 11]

/-- The page store after the first 97 inserts of `c1_ids`. -/
def c1_ck97 : List Node := [.internal true 0 [(19, 60)] 18,
   .leaf false 17 [(69, mkRow 69), (72, mkRow 72), (73, mkRow 73), (75, mkRow 75), (76, mkRow 76), (77, mkRow 77), (78, mkRow 78), (79, mkRow 79), (80, mkRow 80), (81, mkRow 81), (82, mkRow 82), (83, mkRow 83), (84, mkRow 84)] 12,
   .leaf false 7 [(1, mkRow 1), (3, mkRow 3), (5, mkRow 5), (7, mkRow 7), (9, mkRow 9), (13, mkRow 13), (16, mkRow 16)] 9,
   .leaf false 6 [(139, mkRow 139), (141, mkRow 141), (142, mkRow 142), (143, mkRow 143), (150, mkRow 150), (151, mkRow 151), (154, mkRow 154)] 13,
   .leaf false 6 [(109, mkRow 109), (114, mkRow 114), (115, mkRow 115), (116, mkRow 116), (121, mkRow 121), (122, mkRow 122), (123, mkRow 123)] 14,
   .leaf false 11 [(34, mkRow 34), (37, mkRow 37), (39, mkRow 39), (42, mkRow 42), (45, mkRow 45), (46, mkRow 46), (49, mkRow 49)] 10,
   .internal false 18 [(4, 123), (14, 138)] 3,
   .internal false 19 [(2, 16)] 9,
   .leaf false 15 [(164, mkRow 164), (165, mkRow 165), (168, mkRow 168), (169, mkRow 169), (172, mkRow 172), (173, mkRow 173), (179, mkRow 179)] 0,
   .leaf false 7 [(17, mkRow 17), (20, mkRow 20), (26, mkRow 26), (28, mkRow 28), (30, mkRow 30), (31, mkRow 31), (33, mkRow 33)] 5,
   .leaf false 11 [(51, mkRow 51), (52, mkRow 52), (53, mkRow 53), (54, mkRow 54), (55, mkRow 55), (56, mkRow 56), (60, mkRow 60)] 16,
   .internal false 19 [(5, 49)] 10,
   .leaf false 17 [(85, mkRow 85), (87, mkRow 87), (88, mkRow 88), (89, mkRow 89), (91, mkRow 91), (92, mkRow 92), (97, mkRow 97)] 20,
   .leaf false 15 [(155, mkRow 155), (156, mkRow 156), (157, mkRow 157), (158, mkRow 158), (159, mkRow 159), (162, mkRow 162), (163, mkRow 163)] 8,
   .leaf false 6 [(124, mkRow 124), (126, mkRow 126), (127, mkRow 127), (129, mkRow 129), (135, mkRow 135), (136, mkRow 136), (138, mkRow 138)] 3,
   .internal false 18 [(13, 163)] 8,
   .leaf false 17 [(61, mkRow 61), (62, mkRow 62), (63, mkRow 63), (64, mkRow 64), (65, mkRow 65), (66, mkRow 66), (68, mkRow 68)] 1,
   .internal false 19 [(16, 68), (1, 84), (12, 97)] 20,
   .internal false 0 [(17, 107), (6, 154)] 15,
   .internal false 0 [(7, 33)] 11,
   .leaf false 17 [(98, mkRow 98), (99, mkRow 99), (100, mkRow 100), (101, mkRow 101), (105, mkRow 105), (106, mkRow 106), (107, mkRow 107)] 4]

/-- The page store after the first 98 inserts of `c1_ids`. -/
def c1_ck98 : List Node := [.internal true 0 [(19, 60)] 18,
   .leaf false 17 [(69, mkRow 69), (70, mkRow 70), (72, mkRow 72), (73, mkRow 73), (75, mkRow 75), (76, mkRow 76), (77, mkRow 77)] 21,
   .leaf false 7 [(1, mkRow 1), (3, mkRow 3), (5, mkRow 5), (7, mkRow 7), (9, mkRow 9), (13, mkRow 13), (16, mkRow 16)] 9,
   .leaf false 6 [(139, mkRow 139), (141, mkRow 141), (142, mkRow 142), (143, mkRow 143), (150, mkRow 150), (151, mkRow 151), (154, mkRow 154)] 13,
   .leaf false 6 [(109, mkRow 109), (114, mkRow 114), (115, mkRow 115), (116, mkRow 116), (121, mkRow 121), (122, mkRow 122), (123, mkRow 123)] 14,
   .leaf false 11 [(34, mkRow 34), (37, mkRow 37), (39, mkRow 39), (42, mkRow 42), (45, mkRow 45), (46, mkRow 46), (49, mkRow 49)] 10,
   .internal false 18 [(4, 123), (14, 138)] 3,
   .internal false 19 [(2, 16)] 9,
   .leaf false 15 [(164, mkRow 164), (165, mkRow 165), (168, mkRow 168), (169, mkRow 169), (172, mkRow 172), (173, mkRow 173), (179, mkRow 179)] 0,
   .leaf false 7 [(17, mkRow 17), (20, mkRow 20), (26, mkRow 26), (28, mkRow 28), (30, mkRow 30), (31, mkRow 31), (33, mkRow 33)] 5,
   .leaf false 11 [(51, mkRow 51), (52, mkRow 52), (53, mkRow 53), (54, mkRow 54), (55, mkRow 55), (56, mkRow 56), (60, mkRow 60)] 16,
   .internal false 19 [(5, 49)] 10,
   .leaf false 22 [(85, mkRow 85), (87, mkRow 87), (88, mkRow 88), (89, mkRow 89), (91, mkRow 91), (92, mkRow 92), (97, mkRow 97)] 20,
   .leaf false 15 [(155, mkRow 155), (156, mkRow 156), (157, mkRow 157), (158, mkRow 158), (159, mkRow 159), (162, mkRow 162), (163, mkRow 163)] 8,
   .leaf false 6 [(124, mkRow 124), (126, mkRow 126), (127, mkRow 127), (129, mkRow 129), (135, mkRow 135), (136, mkRow 136), (138, mkRow 138)] 3,
   .internal false 18 [(13, 163)] 8,
   .leaf false 17 [(61, mkRow 61), (62, mkRow 62), (63, mkRow 63), (64, mkRow 64), (65, mkRow 65), (66, mkRow 66), (68, mkRow 68)] 1,
   .internal false 19 [(16, 68)] 1,
   .internal false 0 [(17, 107), (6, 154)] 15,
   .internal false 0 [(7, 33), (11, 60)] 22,
   .leaf false 22 [(98, mkRow 98), (99, mkRow 99), (100, mkRow 100), (101, mkRow 101), (105, mkRow 105), (106, mkRow 106), (107, mkRow 107)] 4,
   .leaf false 22 [(78, mkRow 78), (79, mkRow 79), (80, mkRow 80), (81, mkRow 81), (82, mkRow 82), (83, mkRow 83), (84, mkRow 84)] 12,
   .internal false 19 [(21, 84), (12, 97)] 20]

/-- The page store after the first 99 inserts of `c1_ids`. -/
def c1_ck99 : List Node := [.internal true 0 [(19, 60)] 18,
   .leaf false 17 [(69, mkRow 69), (70, mkRow 70), (72, mkRow 72), (73, mkRow 73), (75, mkRow 75), (76, mkRow 76), (77, mkRow 77), (94, mkRow 94)] 21,
   .leaf false 7 [(1, mkRow 1), (3, mkRow 3), (5, mkRow 5), (7, mkRow 7), (9, mkRow 9), (13, mkRow 13), (16, mkRow 16)] 9,
   .leaf false 6 [(139, mkRow 139), (141, mkRow 141), (142, mkRow 142), (143, mkRow 143), (150, mkRow 150), (151, mkRow 151), (154, mkRow 154)] 13,
   .leaf false 6 [(109, mkRow 109), (114, mkRow 114), (115, mkRow 115), (116, mkRow 116), (121, mkRow 121), (122, mkRow 122), (123, mkRow 123)] 14,
   .leaf false 11 [(34, mkRow 34), (37, mkRow 37), (39, mkRow 39), (42, mkRow 42), (45, mkRow 45), (46, mkRow 46), (49, mkRow 49)] 10,
   .internal false 18 [(4, 123), (14, 138)] 3,
   .internal false 19 [(2, 16)] 9,
   .leaf false 15 [(164, mkRow 164), (165, mkRow 165), (168, mkRow 168), (169, mkRow 169), (172, mkRow 172), (173, mkRow 173), (179, mkRow 179)] 0,
   .leaf false 7 [(17, mkRow 17), (20, mkRow 20), (26, mkRow 26), (28, mkRow 28), (30, mkRow 30), (31, mkRow 31), (33, mkRow 33)] 5,
   .leaf false 11 [(51, mkRow 51), (52, mkRow 52), (53, mkRow 53), (54, mkRow 54), (55, mkRow 55), (56, mkRow 56), (60, mkRow 60)] 16,
   .internal false 19 [(5, 49)] 10,
   .leaf false 22 [(85, mkRow 85), (87, mkRow 87), (88, mkRow 88), (89, mkRow 89), (91, mkRow 91), (92, mkRow 92), (97, mkRow 97)] 20,
   .leaf false 15 [(155, mkRow 155), (156, mkRow 156), (157, mkRow 157), (158, mkRow 158), (159, mkRow 159), (162, mkRow 162), (163, mkRow 163)] 8,
   .leaf false 6 [(124, mkRow 124), (126, mkRow 126), (127, mkRow 127), (129, mkRow 129), (135, mkRow 135), (136, mkRow 136), (138, mkRow 138)] 3,
   .internal false 18 [(13, 163)] 8,
   .leaf false 17 [(61, mkRow 61), (62, mkRow 62), (63, mkRow 63), (64, mkRow 64), (65, mkRow 65), (66, mkRow 66), (68, mkRow 68)] 1,
   .internal false 19 [(16, 68)] 1,
   .internal false 0 [(17, 107), (6, 154)] 15,
   .internal false 0 [(7, 33), (11, 60)] 22,
   .leaf false 22 [(98, mkRow 98), (99, mkRow 99), (100, mkRow 100), (101, mkRow 101), (105, mkRow 105), (106, mkRow 106), (107, mkRow 107)] 4,
   .leaf false 22 [(78, mkRow 78), (79, mkRow 79), (80, mkRow 80), (81, mkRow 81), (82, mkRow 82), (83, mkRow 83), (84, mkRow 84)] 12,
   .internal false 19 [(21, 84), (12, 97)] 20]

/-- The id column of the rows `select` emits on `c1_ck99`: id 94 appears
between 77 and 78, so the listing is not in ascending id order. -/
def c1_observed : List Nat := [1, 3, 5, 7, 9, 13, 16, 17, 20, 26, 28, 30, 31, 33, 34, 37, 39, 42, 45, 46, 49, 51, 52, 53, 54, 55, 56, 60, 61, 62, 63, 64, 65, 66, 68, 69, 70, 72, 73, 75, 76, 77, 94, 78, 79, 80, 81, 82, 83, 84, 85, 87, 88, 89, 91, 92, 97, 98, 99, 100, 101, 105, 106, 107, 109, 114, 115, 116, 121, 122, 123, 124, 126, 127, 129, 135, 136, 138, 139, 141, 142, 143, 150, 151, 154, 155, 156, 157, 158, 159, 162, 163, 164, 165, 168, 169, 172, 173, 179]

end CryptoDb

namespace CryptoDb

/-! ## Mutation sequences and the leaf-order predicate -/

/-- A mutation as consumed by the executor: insert, update-by-id, or
delete-by-id (`Statement` with `STATEMENT_INSERT` / `STATEMENT_UPDATE` /
`STATEMENT_DELETE`). -/
inductive Mutation where
  | ins (r : Row)
  | upd (r : Row)
  | del (k : Nat)
deriving Repr, DecidableEq

/-- Dispatch a mutation to the executor (`execute_statement`,
query_processing.c lines 260-273, restricted to the mutating statements). -/
def apply_mutation (fuel : Nat) (pages : List Node) :
    Mutation → DbM (ExecuteResult × List Node)
  | .ins r => execute_insert fuel pages r
  | .upd r => execute_update fuel pages r
  | .del k => execute_delete fuel pages k

/-- Run a sequence of mutations, threading the page store (logical errors
such as `DuplicateKey` and `NotFound` return the store unchanged, so the
session continues with it). -/
def run_mutations (fuel : Nat) (pages : List Node) : List Mutation → DbM (List Node)
  | [] => pure pages
  | m :: ms => do
    let (_, pages) ← apply_mutation fuel pages m
    run_mutations fuel pages ms

/-- Run `execute_delete` for each key in order, requiring every delete to
return `EXECUTE_SUCCESS`. -/
def run_deletes (fuel : Nat) (pages : List Node) : List Nat → DbM (List Node)
  | [] => pure pages
  | k :: ks => do
    let (res, pages) ← execute_delete fuel pages k
    match res with
    | .Success => run_deletes fuel pages ks
    | _ => none

/-- The keys of a leaf page are strictly ascending; internal pages are
unconstrained by this predicate. -/
def leafSortedNode : Node → Prop
  | .leaf _ _ cells _ => List.Pairwise (· < ·) (cells.map Prod.fst)
  | .internal .. => True

/-- Every leaf page of the store has strictly ascending keys. -/
def leavesSorted (pages : List Node) : Prop :=
  ∀ n ∈ pages, leafSortedNode n

/-! ## Concrete states for claims C2, C3, C4, C5, C6, C7, C8, C9 -/

/-- The ids 1..14 in ascending order (claim C2's scenario). -/
def c2_ids : List Nat := (List.range 14).map (fun i => i + 1)

/-- The three-page store after inserting ids 1..14 into a fresh table:
page 0 the new internal root, page 1 the new right leaf (ids 8..14),
page 2 the copy of the original leaf (ids 1..7, next_leaf 1). -/
def c2_pages : List Node :=
  [.internal true 0 [(2, 7)] 1,
   .leaf false 0 ((List.range 7).map (fun i => (i + 8, mkRow (i + 8)))) 0,
   .leaf false 0 ((List.range 7).map (fun i => (i + 1, mkRow (i + 1)))) 1]

/-- `c2_pages` after `delete where id=7`: the left leaf loses its maximum
key while the root still carries key 7 for it (claim C3's counterexample
state). -/
def c3_del_pages : List Node :=
  [.internal true 0 [(2, 7)] 1,
   .leaf false 0 ((List.range 7).map (fun i => (i + 8, mkRow (i + 8)))) 0,
   .leaf false 0 ((List.range 6).map (fun i => (i + 1, mkRow (i + 1)))) 1]

/-- `c2_pages` after deleting ids 1..7: the leftmost leaf is empty but still
linked before the non-empty right leaf (claim C9's scenario). -/
def c9_pages : List Node :=
  [.internal true 0 [(2, 7)] 1,
   .leaf false 0 ((List.range 7).map (fun i => (i + 8, mkRow (i + 8)))) 0,
   .leaf false 0 [] 1]

/-- A single-leaf table holding only id 1 (claim C4's witness). -/
def c4w_pages : List Node := [.leaf true 0 [(1, mkRow 1)] 0]

/-- A single-leaf table holding ids 1 and 3 (claims C5 and C8). -/
def c5_pages : List Node := [.leaf true 0 [(1, mkRow 1), (3, mkRow 3)] 0]

/-- A pager whose 100 cache slots (pages 0..99) are all in use (claim C6). -/
def c6_pages : List Node := List.replicate 100 init_leaf_node

/-- A single-leaf table holding ids 1, 3, 5 (claim C7's witness). -/
def c7w_pages : List Node :=
  [.leaf true 0 [(1, mkRow 1), (3, mkRow 3), (5, mkRow 5)] 0]

end CryptoDb
namespace CryptoDb

/-! # Theorems -/

/-- `DbM`'s bind, exposed for rewriting. -/
theorem DbM_bind_def {α β : Type} (x : DbM α) (k : α → DbM β) :
    (x >>= k) = match x with | none => none | some a => k a := rfl

/-- Splitting a run of inserts at a successful step. -/
theorem run_inserts_cons_success (fuel : Nat) (pages p2 : List Node) (r : Row)
    (rs : List Row)
    (h : execute_insert fuel pages r = some (.Success, p2)) :
    run_inserts fuel pages (r :: rs) = run_inserts fuel p2 rs := by
  rw [run_inserts, h]
  rfl

set_option maxHeartbeats 16000000 in
set_option maxRecDepth 100000 in
theorem c1_step1 (rs : List Row) :
    run_inserts 1000 freshTable (mkRow 46 :: rs) =
    run_inserts 1000 c1_ck1 rs :=
  run_inserts_cons_success _ _ _ _ _ (by decide)

set_option maxHeartbeats 16000000 in
set_option maxRecDepth 100000 in
theorem c1_step2 (rs : List Row) :
    run_inserts 1000 c1_ck1 (mkRow 165 :: rs) =
    run_inserts 1000 c1_ck2 rs :=
  run_inserts_cons_success _ _ _ _ _ (by decide)

set_option maxHeartbeats 16000000 in
set_option maxRecDepth 100000 in
theorem c1_step3 (rs : List Row) :
    run_inserts 1000 c1_ck2 (mkRow 122 :: rs) =
    run_inserts 1000 c1_ck3 rs :=
  run_inserts_cons_success _ _ _ _ _ (by decide)

set_option maxHeartbeats 16000000 in
set_option maxRecDepth 100000 in
theorem c1_step4 (rs : List Row) :
    run_inserts 1000 c1_ck3 (mkRow 91 :: rs) =
    run_inserts 1000 c1_ck4 rs :=
  run_inserts_cons_success _ _ _ _ _ (by decide)

set_option maxHeartbeats 16000000 in
set_option maxRecDepth 100000 in
theorem c1_step5 (rs : List Row) :
    run_inserts 1000 c1_ck4 (mkRow 136 :: rs) =
    run_inserts 1000 c1_ck5 rs :=
  run_inserts_cons_success _ _ _ _ _ (by decide)

set_option maxHeartbeats 16000000 in
set_option maxRecDepth 100000 in
theorem c1_step6 (rs : List Row) :
    run_inserts 1000 c1_ck5 (mkRow 173 :: rs) =
    run_inserts 1000 c1_ck6 rs :=
  run_inserts_cons_success _ _ _ _ _ (by decide)

set_option maxHeartbeats 16000000 in
set_option maxRecDepth 100000 in
theorem c1_step7 (rs : List Row) :
    run_inserts 1000 c1_ck6 (mkRow 157 :: rs) =
    run_inserts 1000 c1_ck7 rs :=
  run_inserts_cons_success _ _ _ _ _ (by decide)

set_option maxHeartbeats 16000000 in
set_option maxRecDepth 100000 in
theorem c1_step8 (rs : List Row) :
    run_inserts 1000 c1_ck7 (mkRow 68 :: rs) =
    run_inserts 1000 c1_ck8 rs :=
  run_inserts_cons_success _ _ _ _ _ (by decide)

set_option maxHeartbeats 16000000 in
set_option maxRecDepth 100000 in
theorem c1_step9 (rs : List Row) :
    run_inserts 1000 c1_ck8 (mkRow 7 :: rs) =
    run_inserts 1000 c1_ck9 rs :=
  run_inserts_cons_success _ _ _ _ _ (by decide)

set_option maxHeartbeats 16000000 in
set_option maxRecDepth 100000 in
theorem c1_step10 (rs : List Row) :
    run_inserts 1000 c1_ck9 (mkRow 34 :: rs) =
    run_inserts 1000 c1_ck10 rs :=
  run_inserts_cons_success _ _ _ _ _ (by decide)

set_option maxHeartbeats 16000000 in
set_option maxRecDepth 100000 in
theorem c1_step11 (rs : List Row) :
    run_inserts 1000 c1_ck10 (mkRow 42 :: rs) =
    run_inserts 1000 c1_ck11 rs :=
  run_inserts_cons_success _ _ _ _ _ (by decide)

set_option maxHeartbeats 16000000 in
set_option maxRecDepth 100000 in
theorem c1_step12 (rs : List Row) :
    run_inserts 1000 c1_ck11 (mkRow 17 :: rs) =
    run_inserts 1000 c1_ck12 rs :=
  run_inserts_cons_success _ _ _ _ _ (by decide)

set_option maxHeartbeats 16000000 in
set_option maxRecDepth 100000 in
theorem c1_step13 (rs : List Row) :
    run_inserts 1000 c1_ck12 (mkRow 156 :: rs) =
    run_inserts 1000 c1_ck13 rs :=
  run_inserts_cons_success _ _ _ _ _ (by decide)

set_option maxHeartbeats 16000000 in
set_option maxRecDepth 100000 in
theorem c1_step14 (rs : List Row) :
    run_inserts 1000 c1_ck13 (mkRow 63 :: rs) =
    run_inserts 1000 c1_ck14 rs :=
  run_inserts_cons_success _ _ _ _ _ (by decide)

set_option maxHeartbeats 16000000 in
set_option maxRecDepth 100000 in
theorem c1_step15 (rs : List Row) :
    run_inserts 1000 c1_ck14 (mkRow 138 :: rs) =
    run_inserts 1000 c1_ck15 rs :=
  run_inserts_cons_success _ _ _ _ _ (by decide)

set_option maxHeartbeats 16000000 in
set_option maxRecDepth 100000 in
theorem c1_step16 (rs : List Row) :
    run_inserts 1000 c1_ck15 (mkRow 9 :: rs) =
    run_inserts 1000 c1_ck16 rs :=
  run_inserts_cons_success _ _ _ _ _ (by decide)

set_option maxHeartbeats 16000000 in
set_option maxRecDepth 100000 in
theorem c1_step17 (rs : List Row) :
    run_inserts 1000 c1_ck16 (mkRow 135 :: rs) =
    run_inserts 1000 c1_ck17 rs :=
  run_inserts_cons_success _ _ _ _ _ (by decide)

set_option maxHeartbeats 16000000 in
set_option maxRecDepth 100000 in
theorem c1_step18 (rs : List Row) :
    run_inserts 1000 c1_ck17 (mkRow 107 :: rs) =
    run_inserts 1000 c1_ck18 rs :=
  run_inserts_cons_success _ _ _ _ _ (by decide)

set_option maxHeartbeats 16000000 in
set_option maxRecDepth 100000 in
theorem c1_step19 (rs : List Row) :
    run_inserts 1000 c1_ck18 (mkRow 1 :: rs) =
    run_inserts 1000 c1_ck19 rs :=
  run_inserts_cons_success _ _ _ _ _ (by decide)

set_option maxHeartbeats 16000000 in
set_option maxRecDepth 100000 in
theorem c1_step20 (rs : List Row) :
    run_inserts 1000 c1_ck19 (mkRow 85 :: rs) =
    run_inserts 1000 c1_ck20 rs :=
  run_inserts_cons_success _ _ _ _ _ (by decide)

set_option maxHeartbeats 16000000 in
set_option maxRecDepth 100000 in
theorem c1_step21 (rs : List Row) :
    run_inserts 1000 c1_ck20 (mkRow 169 :: rs) =
    run_inserts 1000 c1_ck21 rs :=
  run_inserts_cons_success _ _ _ _ _ (by decide)

set_option maxHeartbeats 16000000 in
set_option maxRecDepth 100000 in
theorem c1_step22 (rs : List Row) :
    run_inserts 1000 c1_ck21 (mkRow 142 :: rs) =
    run_inserts 1000 c1_ck22 rs :=
  run_inserts_cons_success _ _ _ _ _ (by decide)

set_option maxHeartbeats 16000000 in
set_option maxRecDepth 100000 in
theorem c1_step23 (rs : List Row) :
    run_inserts 1000 c1_ck22 (mkRow 158 :: rs) =
    run_inserts 1000 c1_ck23 rs :=
  run_inserts_cons_success _ _ _ _ _ (by decide)

set_option maxHeartbeats 16000000 in
set_option maxRecDepth 100000 in
theorem c1_step24 (rs : List Row) :
    run_inserts 1000 c1_ck23 (mkRow 56 :: rs) =
    run_inserts 1000 c1_ck24 rs :=
  run_inserts_cons_success _ _ _ _ _ (by decide)

set_option maxHeartbeats 16000000 in
set_option maxRecDepth 100000 in
theorem c1_step25 (rs : List Row) :
    run_inserts 1000 c1_ck24 (mkRow 81 :: rs) =
    run_inserts 1000 c1_ck25 rs :=
  run_inserts_cons_success _ _ _ _ _ (by decide)

set_option maxHeartbeats 16000000 in
set_option maxRecDepth 100000 in
theorem c1_step26 (rs : List Row) :
    run_inserts 1000 c1_ck25 (mkRow 168 :: rs) =
    run_inserts 1000 c1_ck26 rs :=
  run_inserts_cons_success _ _ _ _ _ (by decide)

set_option maxHeartbeats 16000000 in
set_option maxRecDepth 100000 in
theorem c1_step27 (rs : List Row) :
    run_inserts 1000 c1_ck26 (mkRow 76 :: rs) =
    run_inserts 1000 c1_ck27 rs :=
  run_inserts_cons_success _ _ _ _ _ (by decide)

set_option maxHeartbeats 16000000 in
set_option maxRecDepth 100000 in
theorem c1_step28 (rs : List Row) :
    run_inserts 1000 c1_ck27 (mkRow 150 :: rs) =
    run_inserts 1000 c1_ck28 rs :=
  run_inserts_cons_success _ _ _ _ _ (by decide)

set_option maxHeartbeats 16000000 in
set_option maxRecDepth 100000 in
theorem c1_step29 (rs : List Row) :
    run_inserts 1000 c1_ck28 (mkRow 33 :: rs) =
    run_inserts 1000 c1_ck29 rs :=
  run_inserts_cons_success _ _ _ _ _ (by decide)

set_option maxHeartbeats 16000000 in
set_option maxRecDepth 100000 in
theorem c1_step30 (rs : List Row) :
    run_inserts 1000 c1_ck29 (mkRow 5 :: rs) =
    run_inserts 1000 c1_ck30 rs :=
  run_inserts_cons_success _ _ _ _ _ (by decide)

set_option maxHeartbeats 16000000 in
set_option maxRecDepth 100000 in
theorem c1_step31 (rs : List Row) :
    run_inserts 1000 c1_ck30 (mkRow 124 :: rs) =
    run_inserts 1000 c1_ck31 rs :=
  run_inserts_cons_success _ _ _ _ _ (by decide)

set_option maxHeartbeats 16000000 in
set_option maxRecDepth 100000 in
theorem c1_step32 (rs : List Row) :
    run_inserts 1000 c1_ck31 (mkRow 109 :: rs) =
    run_inserts 1000 c1_ck32 rs :=
  run_inserts_cons_success _ _ _ _ _ (by decide)

set_option maxHeartbeats 16000000 in
set_option maxRecDepth 100000 in
theorem c1_step33 (rs : List Row) :
    run_inserts 1000 c1_ck32 (mkRow 172 :: rs) =
    run_inserts 1000 c1_ck33 rs :=
  run_inserts_cons_success _ _ _ _ _ (by decide)

set_option maxHeartbeats 16000000 in
set_option maxRecDepth 100000 in
theorem c1_step34 (rs : List Row) :
    run_inserts 1000 c1_ck33 (mkRow 126 :: rs) =
    run_inserts 1000 c1_ck34 rs :=
  run_inserts_cons_success _ _ _ _ _ (by decide)

set_option maxHeartbeats 16000000 in
set_option maxRecDepth 100000 in
theorem c1_step35 (rs : List Row) :
    run_inserts 1000 c1_ck34 (mkRow 89 :: rs) =
    run_inserts 1000 c1_ck35 rs :=
  run_inserts_cons_success _ _ _ _ _ (by decide)

set_option maxHeartbeats 16000000 in
set_option maxRecDepth 100000 in
theorem c1_step36 (rs : List Row) :
    run_inserts 1000 c1_ck35 (mkRow 179 :: rs) =
    run_inserts 1000 c1_ck36 rs :=
  run_inserts_cons_success _ _ _ _ _ (by decide)

set_option maxHeartbeats 16000000 in
set_option maxRecDepth 100000 in
theorem c1_step37 (rs : List Row) :
    run_inserts 1000 c1_ck36 (mkRow 163 :: rs) =
    run_inserts 1000 c1_ck37 rs :=
  run_inserts_cons_success _ _ _ _ _ (by decide)

set_option maxHeartbeats 16000000 in
set_option maxRecDepth 100000 in
theorem c1_step38 (rs : List Row) :
    run_inserts 1000 c1_ck37 (mkRow 164 :: rs) =
    run_inserts 1000 c1_ck38 rs :=
  run_inserts_cons_success _ _ _ _ _ (by decide)

set_option maxHeartbeats 16000000 in
set_option maxRecDepth 100000 in
theorem c1_step39 (rs : List Row) :
    run_inserts 1000 c1_ck38 (mkRow 69 :: rs) =
    run_inserts 1000 c1_ck39 rs :=
  run_inserts_cons_success _ _ _ _ _ (by decide)

set_option maxHeartbeats 16000000 in
set_option maxRecDepth 100000 in
theorem c1_step40 (rs : List Row) :
    run_inserts 1000 c1_ck39 (mkRow 28 :: rs) =
    run_inserts 1000 c1_ck40 rs :=
  run_inserts_cons_success _ _ _ _ _ (by decide)

set_option maxHeartbeats 16000000 in
set_option maxRecDepth 100000 in
theorem c1_step41 (rs : List Row) :
    run_inserts 1000 c1_ck40 (mkRow 129 :: rs) =
    run_inserts 1000 c1_ck41 rs :=
  run_inserts_cons_success _ _ _ _ _ (by decide)

set_option maxHeartbeats 16000000 in
set_option maxRecDepth 100000 in
theorem c1_step42 (rs : List Row) :
    run_inserts 1000 c1_ck41 (mkRow 45 :: rs) =
    run_inserts 1000 c1_ck42 rs :=
  run_inserts_cons_success _ _ _ _ _ (by decide)

set_option maxHeartbeats 16000000 in
set_option maxRecDepth 100000 in
theorem c1_step43 (rs : List Row) :
    run_inserts 1000 c1_ck42 (mkRow 26 :: rs) =
    run_inserts 1000 c1_ck43 rs :=
  run_inserts_cons_success _ _ _ _ _ (by decide)

set_option maxHeartbeats 16000000 in
set_option maxRecDepth 100000 in
theorem c1_step44 (rs : List Row) :
    run_inserts 1000 c1_ck43 (mkRow 139 :: rs) =
    run_inserts 1000 c1_ck44 rs :=
  run_inserts_cons_success _ _ _ _ _ (by decide)

set_option maxHeartbeats 16000000 in
set_option maxRecDepth 100000 in
theorem c1_step45 (rs : List Row) :
    run_inserts 1000 c1_ck44 (mkRow 84 :: rs) =
    run_inserts 1000 c1_ck45 rs :=
  run_inserts_cons_success _ _ _ _ _ (by decide)

set_option maxHeartbeats 16000000 in
set_option maxRecDepth 100000 in
theorem c1_step46 (rs : List Row) :
    run_inserts 1000 c1_ck45 (mkRow 3 :: rs) =
    run_inserts 1000 c1_ck46 rs :=
  run_inserts_cons_success _ _ _ _ _ (by decide)

set_option maxHeartbeats 16000000 in
set_option maxRecDepth 100000 in
theorem c1_step47 (rs : List Row) :
    run_inserts 1000 c1_ck46 (mkRow 79 :: rs) =
    run_inserts 1000 c1_ck47 rs :=
  run_inserts_cons_success _ _ _ _ _ (by decide)

set_option maxHeartbeats 16000000 in
set_option maxRecDepth 100000 in
theorem c1_step48 (rs : List Row) :
    run_inserts 1000 c1_ck47 (mkRow 52 :: rs) =
    run_inserts 1000 c1_ck48 rs :=
  run_inserts_cons_success _ _ _ _ _ (by decide)

set_option maxHeartbeats 16000000 in
set_option maxRecDepth 100000 in
theorem c1_step49 (rs : List Row) :
    run_inserts 1000 c1_ck48 (mkRow 114 :: rs) =
    run_inserts 1000 c1_ck49 rs :=
  run_inserts_cons_success _ _ _ _ _ (by decide)

set_option maxHeartbeats 16000000 in
set_option maxRecDepth 100000 in
theorem c1_step50 (rs : List Row) :
    run_inserts 1000 c1_ck49 (mkRow 49 :: rs) =
    run_inserts 1000 c1_ck50 rs :=
  run_inserts_cons_success _ _ _ _ _ (by decide)

set_option maxHeartbeats 16000000 in
set_option maxRecDepth 100000 in
theorem c1_step51 (rs : List Row) :
    run_inserts 1000 c1_ck50 (mkRow 77 :: rs) =
    run_inserts 1000 c1_ck51 rs :=
  run_inserts_cons_success _ _ _ _ _ (by decide)

set_option maxHeartbeats 16000000 in
set_option maxRecDepth 100000 in
theorem c1_step52 (rs : List Row) :
    run_inserts 1000 c1_ck51 (mkRow 64 :: rs) =
    run_inserts 1000 c1_ck52 rs :=
  run_inserts_cons_success _ _ _ _ _ (by decide)

set_option maxHeartbeats 16000000 in
set_option maxRecDepth 100000 in
theorem c1_step53 (rs : List Row) :
    run_inserts 1000 c1_ck52 (mkRow 30 :: rs) =
    run_inserts 1000 c1_ck53 rs :=
  run_inserts_cons_success _ _ _ _ _ (by decide)

set_option maxHeartbeats 16000000 in
set_option maxRecDepth 100000 in
theorem c1_step54 (rs : List Row) :
    run_inserts 1000 c1_ck53 (mkRow 31 :: rs) =
    run_inserts 1000 c1_ck54 rs :=
  run_inserts_cons_success _ _ _ _ _ (by decide)

set_option maxHeartbeats 16000000 in
set_option maxRecDepth 100000 in
theorem c1_step55 (rs : List Row) :
    run_inserts 1000 c1_ck54 (mkRow 101 :: rs) =
    run_inserts 1000 c1_ck55 rs :=
  run_inserts_cons_success _ _ _ _ _ (by decide)

set_option maxHeartbeats 16000000 in
set_option maxRecDepth 100000 in
theorem c1_step56 (rs : List Row) :
    run_inserts 1000 c1_ck55 (mkRow 13 :: rs) =
    run_inserts 1000 c1_ck56 rs :=
  run_inserts_cons_success _ _ _ _ _ (by decide)

set_option maxHeartbeats 16000000 in
set_option maxRecDepth 100000 in
theorem c1_step57 (rs : List Row) :
    run_inserts 1000 c1_ck56 (mkRow 116 :: rs) =
    run_inserts 1000 c1_ck57 rs :=
  run_inserts_cons_success _ _ _ _ _ (by decide)

set_option maxHeartbeats 16000000 in
set_option maxRecDepth 100000 in
theorem c1_step58 (rs : List Row) :
    run_inserts 1000 c1_ck57 (mkRow 39 :: rs) =
    run_inserts 1000 c1_ck58 rs :=
  run_inserts_cons_success _ _ _ _ _ (by decide)

set_option maxHeartbeats 16000000 in
set_option maxRecDepth 100000 in
theorem c1_step59 (rs : List Row) :
    run_inserts 1000 c1_ck58 (mkRow 115 :: rs) =
    run_inserts 1000 c1_ck59 rs :=
  run_inserts_cons_success _ _ _ _ _ (by decide)

set_option maxHeartbeats 16000000 in
set_option maxRecDepth 100000 in
theorem c1_step60 (rs : List Row) :
    run_inserts 1000 c1_ck59 (mkRow 151 :: rs) =
    run_inserts 1000 c1_ck60 rs :=
  run_inserts_cons_success _ _ _ _ _ (by decide)

set_option maxHeartbeats 16000000 in
set_option maxRecDepth 100000 in
theorem c1_step61 (rs : List Row) :
    run_inserts 1000 c1_ck60 (mkRow 16 :: rs) =
    run_inserts 1000 c1_ck61 rs :=
  run_inserts_cons_success _ _ _ _ _ (by decide)

set_option maxHeartbeats 16000000 in
set_option maxRecDepth 100000 in
theorem c1_step62 (rs : List Row) :
    run_inserts 1000 c1_ck61 (mkRow 92 :: rs) =
    run_inserts 1000 c1_ck62 rs :=
  run_inserts_cons_success _ _ _ _ _ (by decide)

set_option maxHeartbeats 16000000 in
set_option maxRecDepth 100000 in
theorem c1_step63 (rs : List Row) :
    run_inserts 1000 c1_ck62 (mkRow 20 :: rs) =
    run_inserts 1000 c1_ck63 rs :=
  run_inserts_cons_success _ _ _ _ _ (by decide)

set_option maxHeartbeats 16000000 in
set_option maxRecDepth 100000 in
theorem c1_step64 (rs : List Row) :
    run_inserts 1000 c1_ck63 (mkRow 55 :: rs) =
    run_inserts 1000 c1_ck64 rs :=
  run_inserts_cons_success _ _ _ _ _ (by decide)

set_option maxHeartbeats 16000000 in
set_option maxRecDepth 100000 in
theorem c1_step65 (rs : List Row) :
    run_inserts 1000 c1_ck64 (mkRow 53 :: rs) =
    run_inserts 1000 c1_ck65 rs :=
  run_inserts_cons_success _ _ _ _ _ (by decide)

set_option maxHeartbeats 16000000 in
set_option maxRecDepth 100000 in
theorem c1_step66 (rs : List Row) :
    run_inserts 1000 c1_ck65 (mkRow 154 :: rs) =
    run_inserts 1000 c1_ck66 rs :=
  run_inserts_cons_success _ _ _ _ _ (by decide)

set_option maxHeartbeats 16000000 in
set_option maxRecDepth 100000 in
theorem c1_step67 (rs : List Row) :
    run_inserts 1000 c1_ck66 (mkRow 37 :: rs) =
    run_inserts 1000 c1_ck67 rs :=
  run_inserts_cons_success _ _ _ _ _ (by decide)

set_option maxHeartbeats 16000000 in
set_option maxRecDepth 100000 in
theorem c1_step68 (rs : List Row) :
    run_inserts 1000 c1_ck67 (mkRow 54 :: rs) =
    run_inserts 1000 c1_ck68 rs :=
  run_inserts_cons_success _ _ _ _ _ (by decide)

set_option maxHeartbeats 16000000 in
set_option maxRecDepth 100000 in
theorem c1_step69 (rs : List Row) :
    run_inserts 1000 c1_ck68 (mkRow 66 :: rs) =
    run_inserts 1000 c1_ck69 rs :=
  run_inserts_cons_success _ _ _ _ _ (by decide)

set_option maxHeartbeats 16000000 in
set_option maxRecDepth 100000 in
theorem c1_step70 (rs : List Row) :
    run_inserts 1000 c1_ck69 (mkRow 100 :: rs) =
    run_inserts 1000 c1_ck70 rs :=
  run_inserts_cons_success _ _ _ _ _ (by decide)

set_option maxHeartbeats 16000000 in
set_option maxRecDepth 100000 in
theorem c1_step71 (rs : List Row) :
    run_inserts 1000 c1_ck70 (mkRow 78 :: rs) =
    run_inserts 1000 c1_ck71 rs :=
  run_inserts_cons_success _ _ _ _ _ (by decide)

set_option maxHeartbeats 16000000 in
set_option maxRecDepth 100000 in
theorem c1_step72 (rs : List Row) :
    run_inserts 1000 c1_ck71 (mkRow 83 :: rs) =
    run_inserts 1000 c1_ck72 rs :=
  run_inserts_cons_success _ _ _ _ _ (by decide)

set_option maxHeartbeats 16000000 in
set_option maxRecDepth 100000 in
theorem c1_step73 (rs : List Row) :
    run_inserts 1000 c1_ck72 (mkRow 60 :: rs) =
    run_inserts 1000 c1_ck73 rs :=
  run_inserts_cons_success _ _ _ _ _ (by decide)

set_option maxHeartbeats 16000000 in
set_option maxRecDepth 100000 in
theorem c1_step74 (rs : List Row) :
    run_inserts 1000 c1_ck73 (mkRow 143 :: rs) =
    run_inserts 1000 c1_ck74 rs :=
  run_inserts_cons_success _ _ _ _ _ (by decide)

set_option maxHeartbeats 16000000 in
set_option maxRecDepth 100000 in
theorem c1_step75 (rs : List Row) :
    run_inserts 1000 c1_ck74 (mkRow 65 :: rs) =
    run_inserts 1000 c1_ck75 rs :=
  run_inserts_cons_success _ _ _ _ _ (by decide)

set_option maxHeartbeats 16000000 in
set_option maxRecDepth 100000 in
theorem c1_step76 (rs : List Row) :
    run_inserts 1000 c1_ck75 (mkRow 127 :: rs) =
    run_inserts 1000 c1_ck76 rs :=
  run_inserts_cons_success _ _ _ _ _ (by decide)

set_option maxHeartbeats 16000000 in
set_option maxRecDepth 100000 in
theorem c1_step77 (rs : List Row) :
    run_inserts 1000 c1_ck76 (mkRow 162 :: rs) =
    run_inserts 1000 c1_ck77 rs :=
  run_inserts_cons_success _ _ _ _ _ (by decide)

set_option maxHeartbeats 16000000 in
set_option maxRecDepth 100000 in
theorem c1_step78 (rs : List Row) :
    run_inserts 1000 c1_ck77 (mkRow 159 :: rs) =
    run_inserts 1000 c1_ck78 rs :=
  run_inserts_cons_success _ _ _ _ _ (by decide)

set_option maxHeartbeats 16000000 in
set_option maxRecDepth 100000 in
theorem c1_step79 (rs : List Row) :
    run_inserts 1000 c1_ck78 (mkRow 87 :: rs) =
    run_inserts 1000 c1_ck79 rs :=
  run_inserts_cons_success _ _ _ _ _ (by decide)

set_option maxHeartbeats 16000000 in
set_option maxRecDepth 100000 in
theorem c1_step80 (rs : List Row) :
    run_inserts 1000 c1_ck79 (mkRow 155 :: rs) =
    run_inserts 1000 c1_ck80 rs :=
  run_inserts_cons_success _ _ _ _ _ (by decide)

set_option maxHeartbeats 16000000 in
set_option maxRecDepth 100000 in
theorem c1_step81 (rs : List Row) :
    run_inserts 1000 c1_ck80 (mkRow 73 :: rs) =
    run_inserts 1000 c1_ck81 rs :=
  run_inserts_cons_success _ _ _ _ _ (by decide)

set_option maxHeartbeats 16000000 in
set_option maxRecDepth 100000 in
theorem c1_step82 (rs : List Row) :
    run_inserts 1000 c1_ck81 (mkRow 141 :: rs) =
    run_inserts 1000 c1_ck82 rs :=
  run_inserts_cons_success _ _ _ _ _ (by decide)

set_option maxHeartbeats 16000000 in
set_option maxRecDepth 100000 in
theorem c1_step83 (rs : List Row) :
    run_inserts 1000 c1_ck82 (mkRow 121 :: rs) =
    run_inserts 1000 c1_ck83 rs :=
  run_inserts_cons_success _ _ _ _ _ (by decide)

set_option maxHeartbeats 16000000 in
set_option maxRecDepth 100000 in
theorem c1_step84 (rs : List Row) :
    run_inserts 1000 c1_ck83 (mkRow 51 :: rs) =
    run_inserts 1000 c1_ck84 rs :=
  run_inserts_cons_success _ _ _ _ _ (by decide)

set_option maxHeartbeats 16000000 in
set_option maxRecDepth 100000 in
theorem c1_step85 (rs : List Row) :
    run_inserts 1000 c1_ck84 (mkRow 88 :: rs) =
    run_inserts 1000 c1_ck85 rs :=
  run_inserts_cons_success _ _ _ _ _ (by decide)

set_option maxHeartbeats 16000000 in
set_option maxRecDepth 100000 in
theorem c1_step86 (rs : List Row) :
    run_inserts 1000 c1_ck85 (mkRow 105 :: rs) =
    run_inserts 1000 c1_ck86 rs :=
  run_inserts_cons_success _ _ _ _ _ (by decide)

set_option maxHeartbeats 16000000 in
set_option maxRecDepth 100000 in
theorem c1_step87 (rs : List Row) :
    run_inserts 1000 c1_ck86 (mkRow 82 :: rs) =
    run_inserts 1000 c1_ck87 rs :=
  run_inserts_cons_success _ _ _ _ _ (by decide)

set_option maxHeartbeats 16000000 in
set_option maxRecDepth 100000 in
theorem c1_step88 (rs : List Row) :
    run_inserts 1000 c1_ck87 (mkRow 97 :: rs) =
    run_inserts 1000 c1_ck88 rs :=
  run_inserts_cons_success _ _ _ _ _ (by decide)

set_option maxHeartbeats 16000000 in
set_option maxRecDepth 100000 in
theorem c1_step89 (rs : List Row) :
    run_inserts 1000 c1_ck88 (mkRow 123 :: rs) =
    run_inserts 1000 c1_ck89 rs :=
  run_inserts_cons_success _ _ _ _ _ (by decide)

set_option maxHeartbeats 16000000 in
set_option maxRecDepth 100000 in
theorem c1_step90 (rs : List Row) :
    run_inserts 1000 c1_ck89 (mkRow 106 :: rs) =
    run_inserts 1000 c1_ck90 rs :=
  run_inserts_cons_success _ _ _ _ _ (by decide)

set_option maxHeartbeats 16000000 in
set_option maxRecDepth 100000 in
theorem c1_step91 (rs : List Row) :
    run_inserts 1000 c1_ck90 (mkRow 62 :: rs) =
    run_inserts 1000 c1_ck91 rs :=
  run_inserts_cons_success _ _ _ _ _ (by decide)

set_option maxHeartbeats 16000000 in
set_option maxRecDepth 100000 in
theorem c1_step92 (rs : List Row) :
    run_inserts 1000 c1_ck91 (mkRow 75 :: rs) =
    run_inserts 1000 c1_ck92 rs :=
  run_inserts_cons_success _ _ _ _ _ (by decide)

set_option maxHeartbeats 16000000 in
set_option maxRecDepth 100000 in
theorem c1_step93 (rs : List Row) :
    run_inserts 1000 c1_ck92 (mkRow 80 :: rs) =
    run_inserts 1000 c1_ck93 rs :=
  run_inserts_cons_success _ _ _ _ _ (by decide)

set_option maxHeartbeats 16000000 in
set_option maxRecDepth 100000 in
theorem c1_step94 (rs : List Row) :
    run_inserts 1000 c1_ck93 (mkRow 61 :: rs) =
    run_inserts 1000 c1_ck94 rs :=
  run_inserts_cons_success _ _ _ _ _ (by decide)

set_option maxHeartbeats 16000000 in
set_option maxRecDepth 100000 in
theorem c1_step95 (rs : List Row) :
    run_inserts 1000 c1_ck94 (mkRow 72 :: rs) =
    run_inserts 1000 c1_ck95 rs :=
  run_inserts_cons_success _ _ _ _ _ (by decide)

set_option maxHeartbeats 16000000 in
set_option maxRecDepth 100000 in
theorem c1_step96 (rs : List Row) :
    run_inserts 1000 c1_ck95 (mkRow 99 :: rs) =
    run_inserts 1000 c1_ck96 rs :=
  run_inserts_cons_success _ _ _ _ _ (by decide)

set_option maxHeartbeats 16000000 in
set_option maxRecDepth 100000 in
theorem c1_step97 (rs : List Row) :
    run_inserts 1000 c1_ck96 (mkRow 98 :: rs) =
    run_inserts 1000 c1_ck97 rs :=
  run_inserts_cons_success _ _ _ _ _ (by decide)

set_option maxHeartbeats 16000000 in
set_option maxRecDepth 100000 in
theorem c1_step98 (rs : List Row) :
    run_inserts 1000 c1_ck97 (mkRow 70 :: rs) =
    run_inserts 1000 c1_ck98 rs :=
  run_inserts_cons_success _ _ _ _ _ (by decide)

set_option maxHeartbeats 16000000 in
set_option maxRecDepth 100000 in
theorem c1_step99 (rs : List Row) :
    run_inserts 1000 c1_ck98 (mkRow 94 :: rs) =
    run_inserts 1000 c1_ck99 rs :=
  run_inserts_cons_success _ _ _ _ _ (by decide)

set_option maxHeartbeats 16000000 in
set_option maxRecDepth 100000 in
/-- Running the 99 `c1_ids` inserts from a fresh table succeeds at every step
and produces the page store `c1_ck99`. -/
theorem c1_run : insert_ids c1_ids = some c1_ck99 := by
  show run_inserts 1000 freshTable (c1_ids.map mkRow) = some c1_ck99
  simp only [c1_ids, List.map_cons, List.map_nil, c1_step1, c1_step2, c1_step3, c1_step4, c1_step5, c1_step6, c1_step7, c1_step8, c1_step9, c1_step10, c1_step11, c1_step12, c1_step13, c1_step14, c1_step15, c1_step16, c1_step17, c1_step18, c1_step19, c1_step20, c1_step21, c1_step22, c1_step23, c1_step24, c1_step25, c1_step26, c1_step27, c1_step28, c1_step29, c1_step30, c1_step31, c1_step32, c1_step33, c1_step34, c1_step35, c1_step36, c1_step37, c1_step38, c1_step39, c1_step40, c1_step41, c1_step42, c1_step43, c1_step44, c1_step45, c1_step46, c1_step47, c1_step48, c1_step49, c1_step50, c1_step51, c1_step52, c1_step53, c1_step54, c1_step55, c1_step56, c1_step57, c1_step58, c1_step59, c1_step60, c1_step61, c1_step62, c1_step63, c1_step64, c1_step65, c1_step66, c1_step67, c1_step68, c1_step69, c1_step70, c1_step71, c1_step72, c1_step73, c1_step74, c1_step75, c1_step76, c1_step77, c1_step78, c1_step79, c1_step80, c1_step81, c1_step82, c1_step83, c1_step84, c1_step85, c1_step86, c1_step87, c1_step88, c1_step89, c1_step90, c1_step91, c1_step92, c1_step93, c1_step94, c1_step95, c1_step96, c1_step97, c1_step98, c1_step99]
  rfl

set_option maxHeartbeats 16000000 in
set_option maxRecDepth 100000 in
/-- `select` on the store produced by the `c1_ids` inserts yields
`c1_observed`. -/
theorem c1_select : ((execute_select 1000 c1_ck99 : Option (List Row)).map
    (fun rows => rows.map Row.id)) = some c1_observed := by decide

theorem c1_distinct : c1_ids.Nodup := by decide

set_option maxHeartbeats 16000000 in
theorem c1_perm : c1_observed.Perm c1_ids := by decide

theorem c1_not_ascending : ¬ List.Pairwise (· < ·) c1_observed := by decide

/-- Claim C1 (refuted by the code): `c1_ids` is a set of 99 distinct ids
inserted into a freshly opened table with every insert returning Ok, yet the
subsequent `select` emits the inserted rows with id order `c1_observed` —
a permutation of the inserted ids that is not strictly ascending (id 94
comes between 77 and 78).  The cause is internal_node.c line 315: after a
split's final `internal_node_insert` has itself split the grandparent and
re-homed the nodes, the line overwrites the new sibling's parent pointer
with the old node's parent, which is not the sibling's parent whenever the
two halves land under different parents. -/
theorem C1_select_out_of_order :
    c1_ids.Nodup ∧
    insert_ids c1_ids = some c1_ck99 ∧
    ((execute_select 1000 c1_ck99 : Option (List Row)).map
      (fun rows => rows.map Row.id)) = some c1_observed ∧
    c1_observed.Perm c1_ids ∧
    ¬ List.Pairwise (· < ·) c1_observed :=
  ⟨c1_distinct, c1_run, c1_select, c1_perm, c1_not_ascending⟩

end CryptoDb
namespace CryptoDb

/-- C2: inserting the 14 ascending ids 1..14 into a fresh table overflows the
root leaf on the 14th insert and splits it: the store ends with 3 pages, the
root is an internal page with num_keys 1, key 0 = 7 and right child page 1,
page 2 (the copied left half) holds the 7 cells 1..7 with max key 7 and
next_leaf pointing at page 1, and page 1 (the right half) holds the 7 cells
8..14; the constants are LEAF_NODE_MAX_CELL = 13 with 7/7 split counts. -/
theorem C2_leaf_root_split :
    insert_ids c2_ids = some c2_pages ∧
    c2_pages.length = 3 ∧
    page_lookup c2_pages rootPageNum = some (.internal true 0 [(2, 7)] 1) ∧
    (page_lookup c2_pages 2).bind
      (fun n => (get_node_max_key 10 c2_pages n : Option Nat)) = some 7 ∧
    (page_lookup c2_pages 2).map (fun n => n.isLeafNode) = some true ∧
    (page_lookup c2_pages 1).map (fun n => n.isLeafNode) = some true ∧
    (page_lookup c2_pages 2).map internal_num_keys = some LEAF_NODE_LEFT_SPLIT_COUNT ∧
    (page_lookup c2_pages 1).map internal_num_keys = some LEAF_NODE_RIGHT_SPLIT_COUNT ∧
    page_lookup c2_pages 2 =
      some (.leaf false 0 ((List.range 7).map (fun i => (i + 1, mkRow (i + 1)))) 1) ∧
    LEAF_NODE_MAX_CELL = 13 ∧ LEAF_NODE_LEFT_SPLIT_COUNT = 7 ∧
    LEAF_NODE_RIGHT_SPLIT_COUNT = 7 := by
  decide

/-- C3 (counterexample to the claimed internal-key invariant): after
inserting 1..14 and deleting id 7, the root still stores key 7 for child 0
while the maximum key of the subtree rooted at child 0 is 6, so
`I.key(i) = max_key(I.child(i))` fails after a delete. -/
theorem C3_delete_breaks_key_invariant :
    insert_ids c2_ids = some c2_pages ∧
    execute_delete 1000 c2_pages 7 = some (.Success, c3_del_pages) ∧
    page_lookup c3_del_pages rootPageNum = some (.internal true 0 [(2, 7)] 1) ∧
    (page_lookup c3_del_pages 2).bind
      (fun n => (get_node_max_key 10 c3_del_pages n : Option Nat)) = some 6 ∧
    (6 : Nat) ≠ 7 := by
  decide

/-- C5 (refuted by the code): on a table holding only ids 1 and 3, `update`
for the absent id 2 does not return `NotFound`: `execute_update` has no
slot check, returns `Success`, and overwrites the username and email of the
row with id 3 (the row at the insertion slot for key 2). -/
theorem C5_update_missing_id :
    (execute_select 10 c5_pages : Option (List Row)).map (fun rows => rows.map Row.id)
      = some [1, 3] ∧
    (2 : Nat) ∉ [1, 3] ∧
    execute_update 10 c5_pages { id := 2, username := "x", email := "y" } =
      some (.Success,
        [.leaf true 0 [(1, mkRow 1), (3, { id := 3, username := "x", email := "y" })] 0]) ∧
    ExecuteResult.Success ≠ ExecuteResult.NotFound := by
  decide

/-- C6 (refuted by the code): the `page_num > TABLE_MAX_PAGES` guard of
`get_page` uses a strict comparison, so with TABLE_MAX_PAGES = 100 the
out-of-bounds page number 100 (one past the last valid index 99 of the
100-slot page array) is admitted rather than rejected; only 101 and above
are rejected. -/
theorem C6_page_100_admitted :
    TABLE_MAX_PAGES = 100 ∧
    (get_page c6_pages 100).isSome = true ∧
    get_page c6_pages 100 = some (c6_pages ++ [zeroPage], zeroPage) ∧
    get_page c6_pages 101 = none := by
  decide

/-- C9: `start_table` decides `end_of_table` from the one leaf reached by
searching for key 0: whenever that leaf has no cells, `execute_select`
returns the empty row list — regardless of the contents of the other leaves
in the sibling chain. -/
theorem C9_select_empty_first_leaf (fuel : Nat) (pages : List Node) (c : Cursor)
    (isR : Bool) (par nl : Nat)
    (hc : find_table (fuel + 1) pages 0 = some c)
    (hn : page_lookup pages c.pageNum = some (.leaf isR par [] nl)) :
    execute_select (fuel + 1) pages = some [] := by
  show (do let cursor ← start_table (fuel + 1) pages
           select_loop (fuel + 1) pages cursor : DbM (List Row)) = some []
  rw [start_table, hc]
  show (do let node ← page_lookup pages c.pageNum
           match node with
           | .leaf _ _ cells _ => pure { c with endOfTable := cells.length = 0 }
           | .internal .. => none : DbM Cursor) >>= select_loop (fuel + 1) pages = some []
  rw [hn]
  rfl

/-- C10: `get_node_max_key` on a leaf reads key `num_cells - 1` in u32
arithmetic: for a non-empty leaf (num_cells < 2^32) the index is the last
live cell and the result is defined, while on an empty leaf the index wraps
to 2^32 - 1 and the read is out of range (`none` in the model). -/
theorem C10_max_key_u32_wrap (pages : List Node) (fuel : Nat) (isR : Bool)
    (par nl : Nat) (cells : List (Nat × Row)) :
    (1 ≤ cells.length → cells.length < 2 ^ 32 →
      leaf_max_key_index cells.length = cells.length - 1 ∧
      cells.length - 1 < cells.length ∧
      get_node_max_key (fuel + 1) pages (.leaf isR par cells nl) =
        (cells.map Prod.fst).get? (cells.length - 1) ∧
      (get_node_max_key (fuel + 1) pages (.leaf isR par cells nl)).isSome = true) ∧
    (leaf_max_key_index 0 = 2 ^ 32 - 1 ∧
      get_node_max_key (fuel + 1) pages (.leaf isR par [] nl) = none) := by
  constructor
  · intro h1 h2
    have hidx : leaf_max_key_index cells.length = cells.length - 1 := by
      rw [leaf_max_key_index]
      have h3 : cells.length + UINT32_MAX = (cells.length - 1) + 2 ^ 32 := by
        rw [UINT32_MAX]
        omega
      rw [h3, Nat.add_mod_right, Nat.mod_eq_of_lt (by omega)]
    have hget : get_node_max_key (fuel + 1) pages (.leaf isR par cells nl) =
        (cells.map Prod.fst).get? (leaf_max_key_index cells.length) := rfl
    refine ⟨hidx, by omega, by rw [hget, hidx], ?_⟩
    rw [hget, hidx]
    have hlt : cells.length - 1 < (cells.map Prod.fst).length := by
      rw [List.length_map]
      omega
    rw [List.get?_eq_getElem?]
    simp [List.getElem?_eq_getElem hlt]
  · constructor
    · rw [leaf_max_key_index, UINT32_MAX]
      omega
    · show (([] : List (Nat × Row)).map Prod.fst).get? (leaf_max_key_index 0) = none
      rw [List.get?_eq_getElem?]
      simp

/-- C4: `execute_insert` returns `DuplicateKey` exactly when the cell at the
located slot exists and already stores the inserted id; in that case the
page store is returned untouched and a subsequent `select` is unchanged. -/
theorem C4_duplicate_key_iff (fuel : Nat) (pages : List Node) (r : Row) (c : Cursor)
    (isR : Bool) (par nl : Nat) (cells : List (Nat × Row))
    (hc : find_table fuel pages r.id = some c)
    (hn : page_lookup pages c.pageNum = some (.leaf isR par cells nl)) :
    ((∃ row, cells.get? c.cellNum = some (r.id, row)) →
      execute_insert fuel pages r = some (.DuplicateKey, pages)) ∧
    (∀ pages2, execute_insert fuel pages r = some (.DuplicateKey, pages2) →
      pages2 = pages ∧ (∃ row, cells.get? c.cellNum = some (r.id, row)) ∧
      execute_select fuel pages2 = execute_select fuel pages) := by
  have hunfold : execute_insert fuel pages r =
      (if (match cells.get? c.cellNum with
           | some (keyAtIndex, _) => keyAtIndex == r.id
           | none => false) = true
       then pure (.DuplicateKey, pages)
       else do
         let pages ← leaf_node_insert fuel pages c r.id r
         pure (ExecuteResult.Success, pages)) := by
    rw [execute_insert, hc]
    show (do let node ← page_lookup pages c.pageNum
             match node with
             | .leaf _ _ cells _ => _
             | .internal .. => none : DbM (ExecuteResult × List Node)) = _
    rw [hn]
    rfl
  constructor
  · rintro ⟨row, hrow⟩
    rw [hunfold, hrow]
    simp
  · intro pages2 h
    rw [hunfold] at h
    rcases hget : cells.get? c.cellNum with _ | ⟨kk, row⟩ <;> rw [hget] at h
    · have hcond : ¬ (match (none : Option (Nat × Row)) with
          | some (keyAtIndex, _) => keyAtIndex == r.id
          | none => false) = true := by simp
      rw [if_neg hcond] at h
      exfalso
      rcases hins : (leaf_node_insert fuel pages c r.id r : Option (List Node)) with _ | p <;>
        rw [hins] at h
      · exact Option.noConfusion h
      · have h2 : (some (ExecuteResult.Success, p) : Option (ExecuteResult × List Node)) =
            some (ExecuteResult.DuplicateKey, pages2) := h
        exact ExecuteResult.noConfusion (congrArg Prod.fst ((Option.some.injEq _ _).mp h2))
    · by_cases hkk : kk = r.id
      · have hcond : (match (some (kk, row) : Option (Nat × Row)) with
            | some (keyAtIndex, _) => keyAtIndex == r.id
            | none => false) = true := by simp [hkk]
        rw [if_pos hcond] at h
        have h3 := (Option.some.injEq _ _).mp
          (show (some (ExecuteResult.DuplicateKey, pages) : Option (ExecuteResult × List Node)) =
            some (ExecuteResult.DuplicateKey, pages2) from h)
        have hp : pages2 = pages := (congrArg Prod.snd h3).symm
        refine ⟨hp, ⟨row, ?_⟩, by rw [hp]⟩
        subst hkk
        rfl
      · have hcond : ¬ (match (some (kk, row) : Option (Nat × Row)) with
            | some (keyAtIndex, _) => keyAtIndex == r.id
            | none => false) = true := by simp [hkk]
        rw [if_neg hcond] at h
        exfalso
        rcases hins : (leaf_node_insert fuel pages c r.id r : Option (List Node)) with _ | p <;>
          rw [hins] at h
        · exact Option.noConfusion h
        · have h2 : (some (ExecuteResult.Success, p) : Option (ExecuteResult × List Node)) =
              some (ExecuteResult.DuplicateKey, pages2) := h
          exact ExecuteResult.noConfusion (congrArg Prod.fst ((Option.some.injEq _ _).mp h2))

theorem getD_eq_get_of_lt (keys : List Nat) (i : Nat) (h : i < keys.length) :
    keys.getD i 0 = keys.get ⟨i, h⟩ := by
  rw [List.getD_eq_get?, List.get?_eq_get h]
  rfl

theorem sorted_getD_lt (keys : List Nat) (hs : List.Pairwise (· < ·) keys)
    (i j : Nat) (hij : i < j) (hj : j < keys.length) :
    keys.getD i 0 < keys.getD j 0 := by
  have hi : i < keys.length := lt_trans hij hj
  rw [getD_eq_get_of_lt keys i hi, getD_eq_get_of_lt keys j hj]
  exact List.pairwise_iff_get.mp hs ⟨i, hi⟩ ⟨j, hj⟩ hij

/-- Correctness of the binary-search iterations of `find_leaf_node`: under
the bracketing invariants, the result is either an exact hit or the
insertion slot with all smaller keys strictly below it and all larger keys
at or above it. -/
theorem find_leaf_go_spec (keys : List Nat) (key : Nat) :
    ∀ (span lo hi : Nat), hi - lo ≤ span → lo ≤ hi → hi ≤ keys.length →
    List.Pairwise (· < ·) keys →
    (∀ i, i < lo → keys.getD i 0 < key) →
    (∀ i, hi ≤ i → i < keys.length → key < keys.getD i 0) →
    ((find_leaf_go keys key span lo hi < keys.length ∧
        keys.getD (find_leaf_go keys key span lo hi) 0 = key) ∨
      (lo ≤ find_leaf_go keys key span lo hi ∧
        find_leaf_go keys key span lo hi ≤ hi ∧
        (∀ i, i < find_leaf_go keys key span lo hi → keys.getD i 0 < key) ∧
        (∀ i, find_leaf_go keys key span lo hi ≤ i → i < keys.length →
          key < keys.getD i 0))) := by
  intro span
  induction span with
  | zero =>
    intro lo hi hspan hlohi hhilen _hsort hlow hhigh
    have hlh : lo = hi := by omega
    right
    refine ⟨le_refl _, ?_, hlow, ?_⟩
    · show lo ≤ hi
      omega
    · intro i hi1 hi2
      exact hhigh i (by rw [← hlh]; exact hi1) hi2
  | succ span ih =>
    intro lo hi hspan hlohi hhilen hsort hlow hhigh
    by_cases hlh : lo < hi
    · rw [show find_leaf_go keys key (span + 1) lo hi =
          (if keys.getD ((lo + hi) / 2) 0 = key then (lo + hi) / 2
           else if key < keys.getD ((lo + hi) / 2) 0 then
             find_leaf_go keys key span lo ((lo + hi) / 2)
           else find_leaf_go keys key span ((lo + hi) / 2 + 1) hi) from by
        rw [find_leaf_go]
        rw [if_pos hlh]]
      have hmidlt : (lo + hi) / 2 < hi := by omega
      have hmidge : lo ≤ (lo + hi) / 2 := by omega
      by_cases heq : keys.getD ((lo + hi) / 2) 0 = key
      · rw [if_pos heq]
        exact Or.inl ⟨lt_of_lt_of_le hmidlt hhilen, heq⟩
      · rw [if_neg heq]
        by_cases hlt : key < keys.getD ((lo + hi) / 2) 0
        · rw [if_pos hlt]
          have hres := ih lo ((lo + hi) / 2) (by omega) (by omega)
            (le_trans (le_of_lt hmidlt) hhilen) hsort hlow ?_
          · rcases hres with h | ⟨h1, h2, h3, h4⟩
            · exact Or.inl h
            · exact Or.inr ⟨h1, le_trans h2 (le_of_lt hmidlt), h3, h4⟩
          · intro i hi1 hi2
            rcases Nat.eq_or_lt_of_le hi1 with h | h
            · rw [← h]
              exact hlt
            · exact lt_trans hlt (sorted_getD_lt keys hsort _ i h hi2)
        · rw [if_neg hlt]
          have hgt : keys.getD ((lo + hi) / 2) 0 < key := by omega
          have hres := ih ((lo + hi) / 2 + 1) hi (by omega) (by omega) hhilen hsort ?_ hhigh
          · rcases hres with h | ⟨h1, h2, h3, h4⟩
            · exact Or.inl h
            · exact Or.inr ⟨le_trans (by omega) h1, h2, h3, h4⟩
          · intro i hi1
            rcases Nat.lt_succ_iff_lt_or_eq.mp hi1 with h | h
            · exact lt_trans (sorted_getD_lt keys hsort i _ h
                (lt_of_lt_of_le hmidlt hhilen)) hgt
            · rw [h]
              exact hgt
    · rw [show find_leaf_go keys key (span + 1) lo hi = lo from by
        rw [find_leaf_go]
        rw [if_neg hlh]]
      have hlheq : lo = hi := by omega
      right
      refine ⟨le_refl _, hlohi, hlow, ?_⟩
      intro i hi1 hi2
      exact hhigh i (by omega) hi2

theorem getD_eq_getElem_of_lt (keys : List Nat) (i : Nat) (h : i < keys.length) :
    keys.getD i 0 = keys[i] := by
  rw [List.getD_eq_getElem?_getD, List.getElem?_eq_getElem h]
  rfl

/-- A slot with all smaller keys strictly below it and all larger keys at or
above it is the count of keys smaller than the probe. -/
theorem slot_eq_countP (keys : List Nat) (key r : Nat)
    (hr : r ≤ keys.length)
    (h1 : ∀ i, i < r → keys.getD i 0 < key)
    (h2 : ∀ i, r ≤ i → i < keys.length → key < keys.getD i 0) :
    r = keys.countP (fun k => k < key) := by
  conv_rhs => rw [← List.take_append_drop r keys]
  rw [List.countP_append]
  have htake : (keys.take r).countP (fun k => k < key) = (keys.take r).length := by
    rw [List.countP_eq_length]
    intro a ha
    rcases List.mem_iff_getElem.mp ha with ⟨i, hilen, hget⟩
    have hlt : i < r := by
      have := hilen
      rw [List.length_take] at this
      omega
    have hikeys : i < keys.length := by
      have := hilen
      rw [List.length_take] at this
      omega
    have hgv : (keys.take r)[i] = keys[i] := List.getElem_take keys
    rw [hgv] at hget
    have := h1 i hlt
    rw [getD_eq_getElem_of_lt keys i hikeys, hget] at this
    exact decide_eq_true this
  have hdrop : (keys.drop r).countP (fun k => k < key) = 0 := by
    rw [List.countP_eq_zero]
    intro a ha
    rcases List.mem_iff_getElem.mp ha with ⟨i, hilen, hget⟩
    have hikeys : r + i < keys.length := by
      have := hilen
      rw [List.length_drop] at this
      omega
    have hgv : (keys.drop r)[i] = keys[r + i] := List.getElem_drop keys
    rw [hgv] at hget
    have := h2 (r + i) (by omega) hikeys
    rw [getD_eq_getElem_of_lt keys _ hikeys, hget] at this
    simp only [decide_eq_true_eq]
    omega
  rw [htake, hdrop, List.length_take]
  omega

theorem C7_dev (pages : List Node) (pageNum key : Nat) (isR : Bool) (par nl : Nat)
    (cells : List (Nat × Row))
    (hn : page_lookup pages pageNum = some (.leaf isR par cells nl))
    (hsorted : List.Pairwise (· < ·) (cells.map Prod.fst)) :
    find_leaf_node pages pageNum key =
      some { pageNum := pageNum,
             cellNum := find_leaf_loop (cells.map Prod.fst) key 0 cells.length,
             endOfTable := false } ∧
    find_leaf_loop (cells.map Prod.fst) key 0 cells.length ≤ cells.length ∧
    (key ∈ cells.map Prod.fst →
      (cells.map Prod.fst).getD (find_leaf_loop (cells.map Prod.fst) key 0 cells.length) 0
        = key ∧
      find_leaf_loop (cells.map Prod.fst) key 0 cells.length < cells.length) ∧
    (key ∉ cells.map Prod.fst →
      find_leaf_loop (cells.map Prod.fst) key 0 cells.length =
        (cells.map Prod.fst).countP (fun k => k < key) ∧
      (∀ i, i < find_leaf_loop (cells.map Prod.fst) key 0 cells.length →
        (cells.map Prod.fst).getD i 0 < key) ∧
      (∀ i, find_leaf_loop (cells.map Prod.fst) key 0 cells.length ≤ i →
        i < cells.length → key < (cells.map Prod.fst).getD i 0)) := by
  have hlen : (cells.map Prod.fst).length = cells.length := List.length_map _ _
  have hfind : find_leaf_node pages pageNum key =
      some { pageNum := pageNum,
             cellNum := find_leaf_loop (cells.map Prod.fst) key 0 cells.length,
             endOfTable := false } := by
    rw [find_leaf_node, hn]
    rfl
  have hspec := find_leaf_go_spec (cells.map Prod.fst) key
    ((cells.map Prod.fst).length - 0) 0 (cells.map Prod.fst).length
    (le_refl _) (Nat.zero_le _) (le_refl _) hsorted
    (fun i hi => absurd hi (Nat.not_lt_zero i))
    (fun i hi1 hi2 => absurd (lt_of_le_of_lt hi1 hi2) (lt_irrefl _))
  rw [show find_leaf_go (cells.map Prod.fst) key ((cells.map Prod.fst).length - 0) 0
      (cells.map Prod.fst).length =
      find_leaf_loop (cells.map Prod.fst) key 0 cells.length from by
    rw [find_leaf_loop, hlen]] at hspec
  refine ⟨hfind, ?_, ?_, ?_⟩
  · rcases hspec with ⟨h1, _⟩ | ⟨_, h2, _, _⟩
    · omega
    · omega
  · intro hmem
    rcases hspec with ⟨h1, h2⟩ | ⟨_h1, _h2, h3, h4⟩
    · exact ⟨h2, by omega⟩
    · exfalso
      rcases List.mem_iff_getElem.mp hmem with ⟨j, hj, hgj⟩
      by_cases hcmp : j < find_leaf_loop (cells.map Prod.fst) key 0 cells.length
      · have := h3 j hcmp
        rw [getD_eq_getElem_of_lt _ j hj, hgj] at this
        omega
      · have := h4 j (by omega) hj
        rw [getD_eq_getElem_of_lt _ j hj, hgj] at this
        omega
  · intro hnotmem
    rcases hspec with ⟨h1, h2⟩ | ⟨_h1, h2, h3, h4⟩
    · exfalso
      apply hnotmem
      rw [getD_eq_getElem_of_lt _ _ h1] at h2
      rw [← h2]
      exact List.getElem_mem h1
    · refine ⟨?_, h3, fun i hi1 hi2 => h4 i hi1 (by omega)⟩
      exact slot_eq_countP (cells.map Prod.fst) key _ (by omega) h3
        (fun i hi1 hi2 => h4 i hi1 hi2)

theorem DbM_bind_some2 (a : α) (k : α → DbM β) : ((some a : DbM α) >>= k) = k a := rfl

theorem DbM_bind_none2 (k : α → DbM β) : ((none : DbM α) >>= k) = none := rfl

theorem DbM_bind_def2 {α β : Type} (x : DbM α) (k : α → DbM β) :
    (x >>= k) = match x with | none => none | some a => k a := rfl

theorem find_leaf_node_pageNum (pages : List Node) (p key : Nat) (c : Cursor)
    (h : find_leaf_node pages p key = some c) : c.pageNum = p := by
  rw [find_leaf_node] at h
  rcases hl : page_lookup pages p with _ | node <;> rw [hl] at h
  · exact Option.noConfusion h
  · cases node with
    | leaf isR par cells nl =>
      have h2 : (some { pageNum := p,
                        cellNum := find_leaf_loop (cells.map Prod.fst) key 0 cells.length,
                        endOfTable := false } : Option Cursor) = some c := h
      rw [← (Option.some.injEq _ _).mp h2]
    | internal isR par cells rc => exact Option.noConfusion h

/-- Every cursor produced by `find_table` is the cursor `find_leaf_node`
produces on the cursor's own page: the tree search always terminates with
the leaf-level binary search on the located page. -/
theorem find_table_to_leaf (fuel : Nat) (pages : List Node) (key : Nat) (c : Cursor)
    (h : find_table fuel pages key = some c) :
    find_leaf_node pages c.pageNum key = some c := by
  have hint : ∀ (fuel2 : Nat) (p : Nat) (c2 : Cursor),
      find_internal_node fuel2 pages p key = some c2 →
      find_leaf_node pages c2.pageNum key = some c2 := by
    intro fuel2
    induction fuel2 with
    | zero =>
      intro p c2 h2
      exact Option.noConfusion h2
    | succ fuel2 ih =>
      intro p c2 h2
      rw [find_internal_node] at h2
      rcases hl : page_lookup pages p with _ | node <;> rw [hl] at h2
      · exact Option.noConfusion h2
      · cases node with
        | leaf isR par cells nl => exact Option.noConfusion h2
        | internal isR par cells rc =>
          simp only [DbM_bind_some2] at h2
          rcases hcp : internal_node_child (Node.internal isR par cells rc)
              (internal_node_find_child cells key) with _ | childPage <;> rw [hcp] at h2
          · exact Option.noConfusion h2
          · rw [DbM_bind_some2] at h2
            rcases hcl : page_lookup pages childPage with _ | child <;> rw [hcl] at h2
            · exact Option.noConfusion h2
            · rw [DbM_bind_some2] at h2
              cases child with
              | leaf a b cs d =>
                have hp := find_leaf_node_pageNum pages childPage key c2 h2
                rw [hp]
                exact h2
              | internal a b cs d => exact ih childPage c2 h2
  rw [find_table] at h
  rcases hl : page_lookup pages rootPageNum with _ | node <;> rw [hl] at h
  · exact Option.noConfusion h
  · cases node with
    | leaf a b cs d =>
      have hp := find_leaf_node_pageNum pages rootPageNum key c h
      rw [hp]
      exact h
    | internal a b cs d => exact hint fuel rootPageNum c h

/-- C8: `execute_delete(k)` returns `NotFound` exactly when the located slot
is at or past the leaf's last cell — not when k is absent: at an interior
slot it returns `Success` and erases the row at the slot, shrinking the leaf
by one cell; when k is absent and the leaf is sorted, that erased row is the
one with the smallest id greater than k. -/
theorem C8_delete_slot_semantics (fuel : Nat) (pages : List Node) (k : Nat) (c : Cursor)
    (isR : Bool) (par nl : Nat) (cells : List (Nat × Row))
    (hc : find_table fuel pages k = some c)
    (hn : page_lookup pages c.pageNum = some (.leaf isR par cells nl)) :
    (cells.length ≤ c.cellNum ↔
      execute_delete fuel pages k = some (.NotFound, pages)) ∧
    (c.cellNum < cells.length →
      execute_delete fuel pages k =
        some (.Success,
          pages.set c.pageNum (.leaf isR par (cells.eraseIdx c.cellNum) nl)) ∧
      (cells.eraseIdx c.cellNum).length + 1 = cells.length) ∧
    (List.Pairwise (· < ·) (cells.map Prod.fst) →
      k ∉ cells.map Prod.fst → c.cellNum < cells.length →
      k < (cells.map Prod.fst).getD c.cellNum 0 ∧
      ∀ k2 ∈ cells.map Prod.fst, k < k2 →
        (cells.map Prod.fst).getD c.cellNum 0 ≤ k2) := by
  have hunfold : execute_delete fuel pages k =
      (if cells.length ≤ c.cellNum then
        some (ExecuteResult.NotFound, pages)
      else
        some (ExecuteResult.Success,
          pages.set c.pageNum
            (Node.leaf isR par (cells.eraseIdx c.cellNum) nl))) := by
    rw [execute_delete, hc]
    simp only [DbM_bind_def2]
    rw [hn]
    simp only [DbM_bind_def2]
    rfl
  refine ⟨⟨?_, ?_⟩, ?_, ?_⟩
  · intro h
    rw [hunfold, if_pos h]
  · intro h
    by_cases hge : cells.length ≤ c.cellNum
    · exact hge
    · rw [hunfold, if_neg hge] at h
      have h2 := (Option.some.injEq _ _).mp h
      exact ExecuteResult.noConfusion (congrArg Prod.fst h2)
  · intro hlt
    refine ⟨?_, ?_⟩
    · rw [hunfold, if_neg (by omega)]
    · rw [List.length_eraseIdx_of_lt hlt]
      omega
  · intro hsorted habs hlt
    have hklen : (cells.map Prod.fst).length = cells.length := List.length_map _ _
    have hleaf := find_table_to_leaf fuel pages k c hc
    obtain ⟨heq, _hle, _hhit, hmiss⟩ :=
      C7_dev pages c.pageNum k isR par nl cells hn hsorted
    rw [heq] at hleaf
    have hcell : c.cellNum =
        find_leaf_loop (cells.map Prod.fst) k 0 cells.length := by
      have h3 := (Option.some.injEq _ _).mp hleaf
      rw [← h3]
    obtain ⟨_, hbelow, habove⟩ := hmiss habs
    rw [← hcell] at hbelow habove
    refine ⟨habove c.cellNum (le_refl _) (by omega), ?_⟩
    intro k2 hk2 hkk2
    rcases List.mem_iff_getElem.mp hk2 with ⟨j, hj, hget⟩
    by_cases hjs : j < c.cellNum
    · exfalso
      have h4 := hbelow j hjs
      rw [getD_eq_getElem_of_lt _ j hj, hget] at h4
      omega
    · rcases Nat.eq_or_lt_of_le (Nat.le_of_not_lt hjs) with heqj | hltj
      · subst heqj
        rw [getD_eq_getElem_of_lt _ _ hj, hget]
      · have h5 := sorted_getD_lt (cells.map Prod.fst) hsorted c.cellNum j hltj hj
        rw [getD_eq_getElem_of_lt _ j hj, hget] at h5
        exact le_of_lt h5

theorem DbM_bind_eq_some {α β : Type} {x : DbM α} {k : α → DbM β} {b : β}
    (h : (x >>= k) = some b) : ∃ a, x = some a ∧ k a = some b := by
  rw [DbM_bind_def2] at h
  rcases hx : x with _ | a
  · rw [hx] at h
    exact Option.noConfusion h
  · rw [hx] at h
    exact ⟨a, rfl, h⟩

theorem leafSortedNode_withParent (n : Node) (p : Nat) (h : leafSortedNode n) :
    leafSortedNode (n.withParent p) := by
  cases n <;> exact h

theorem leafSortedNode_withRoot (n : Node) (b : Bool) (h : leafSortedNode n) :
    leafSortedNode (n.withRoot b) := by
  cases n <;> exact h

theorem leafSortedNode_internal (r : Bool) (p : Nat) (cells : List (Nat × Nat))
    (rc : Nat) : leafSortedNode (.internal r p cells rc) := trivial

theorem leafSortedNode_with_right_child (n : Node) (v : Nat) (h : leafSortedNode n) :
    leafSortedNode (internal_with_right_child n v) := by
  cases n
  · exact h
  · exact trivial

theorem leafSortedNode_dec_num_keys (n : Node) (h : leafSortedNode n) :
    leafSortedNode (internal_dec_num_keys n) := by
  cases n
  · exact h
  · exact trivial

theorem leafSortedNode_update_key (n : Node) (a b : Nat) (h : leafSortedNode n) :
    leafSortedNode (update_internal_node_key n a b) := by
  cases n
  · exact h
  · exact trivial

theorem leavesSorted_set (pages : List Node) (i : Nat) (n : Node)
    (hp : leavesSorted pages) (hn : leafSortedNode n) :
    leavesSorted (pages.set i n) := by
  intro m hm
  rcases List.mem_or_eq_of_mem_set hm with h | h
  · exact hp m h
  · rw [h]
    exact hn

theorem leavesSorted_append (pages : List Node) (n : Node)
    (hp : leavesSorted pages) (hn : leafSortedNode n) :
    leavesSorted (pages ++ [n]) := by
  intro m hm
  rcases List.mem_append.mp hm with h | h
  · exact hp m h
  · rw [List.mem_singleton.mp h]
    exact hn

theorem leavesSorted_lookup (pages : List Node) (i : Nat) (n : Node)
    (hp : leavesSorted pages) (h : page_lookup pages i = some n) :
    leafSortedNode n := by
  rw [page_lookup] at h
  by_cases hgt : i > TABLE_MAX_PAGES
  · rw [if_pos hgt] at h
    exact Option.noConfusion h
  · rw [if_neg hgt] at h
    exact hp n (List.get?_mem h)

theorem leafSortedNode_zeroPage : leafSortedNode zeroPage := trivial

theorem leafSortedNode_init_internal : leafSortedNode init_internal_node := trivial

theorem leafSortedNode_init_leaf : leafSortedNode init_leaf_node := List.Pairwise.nil

theorem leavesSorted_ite (c : Prop) [Decidable c] (p1 p2 : List Node)
    (h1 : c → leavesSorted p1) (h2 : ¬ c → leavesSorted p2) :
    leavesSorted (if c then p1 else p2) := by
  by_cases hc : c
  · rw [if_pos hc]
    exact h1 hc
  · rw [if_neg hc]
    exact h2 hc

theorem foldl_preserve_sorted (f : List Node → (Nat × Nat) → DbM (List Node))
    (hf : ∀ pgs b pgs2, leavesSorted pgs → f pgs b = some pgs2 → leavesSorted pgs2) :
    ∀ (l : List (Nat × Nat)) (pgs pgs2 : List Node), leavesSorted pgs →
      List.foldlM f pgs l = some pgs2 → leavesSorted pgs2 := by
  intro l
  induction l with
  | nil =>
    intro pgs pgs2 hsp h
    rw [List.foldlM_nil] at h
    have h2 : (some pgs : DbM (List Node)) = some pgs2 := h
    rw [← (Option.some.injEq _ _).mp h2]
    exact hsp
  | cons a l ih =>
    intro pgs pgs2 hsp h
    rw [List.foldlM_cons] at h
    obtain ⟨mid, hmid, h⟩ := DbM_bind_eq_some h
    exact ih mid pgs2 (hf pgs a mid hsp hmid) h

/-- `create_new_root` preserves the leaf-sortedness invariant: the only leaf
contents it installs are copies of the old root page. -/
theorem create_new_root_sorted (pages : List Node) (r : Nat) (pages2 : List Node)
    (h : create_new_root pages r = some pages2) (hs : leavesSorted pages) :
    leavesSorted pages2 := by
  rw [create_new_root] at h
  obtain ⟨root, hroot, h⟩ := DbM_bind_eq_some h
  have hrootS : leafSortedNode root := leavesSorted_lookup pages rootPageNum root hs hroot
  obtain ⟨rrc, hrrc, h⟩ := DbM_bind_eq_some h
  have hs1 : leavesSorted (if r = pages.length then pages ++ [zeroPage] else pages) :=
    leavesSorted_ite _ _ _
      (fun _ => leavesSorted_append _ _ hs leafSortedNode_zeroPage)
      (fun _ => hs)
  rcases root with ⟨a, b, cs, d⟩ | ⟨a, b, cs, d⟩
  · obtain ⟨pagesM, hM, h⟩ := DbM_bind_eq_some h
    have hMS : leavesSorted pagesM := by
      rw [← (Option.some.injEq _ _).mp hM]
      apply leavesSorted_set
      · apply leavesSorted_set
        · apply leavesSorted_ite
          · intro _
            exact leavesSorted_append _ _ hs1 leafSortedNode_zeroPage
          · intro _
            apply leavesSorted_set
            · apply leavesSorted_set
              · exact leavesSorted_append _ _ hs1 leafSortedNode_zeroPage
              · exact leafSortedNode_init_internal
            · exact leafSortedNode_init_internal
        · exact hrootS
      · exact leafSortedNode_withRoot _ _ hrootS
    obtain ⟨lcNow, hlcNow, h⟩ := DbM_bind_eq_some h
    obtain ⟨lcMax, hlcMax, h⟩ := DbM_bind_eq_some h
    obtain ⟨leftNow, hleftNow, h⟩ := DbM_bind_eq_some h
    obtain ⟨rightNow, hrightNow, h⟩ := DbM_bind_eq_some h
    have hS1 : leafSortedNode leftNow :=
      leavesSorted_lookup _ _ _
        (leavesSorted_set _ _ _ hMS (leafSortedNode_internal _ _ _ _)) hleftNow
    have hS2 : leafSortedNode rightNow :=
      leavesSorted_lookup _ _ _
        (leavesSorted_set _ _ _
          (leavesSorted_set _ _ _ hMS (leafSortedNode_internal _ _ _ _))
          (leafSortedNode_withParent _ _ hS1)) hrightNow
    rw [← (Option.some.injEq _ _).mp h]
    exact leavesSorted_set _ _ _
      (leavesSorted_set _ _ _
        (leavesSorted_set _ _ _ hMS (leafSortedNode_internal _ _ _ _))
        (leafSortedNode_withParent _ _ hS1))
      (leafSortedNode_withParent _ _ hS2)
  · obtain ⟨pagesM, hM, h⟩ := DbM_bind_eq_some h
    have hMS : leavesSorted pagesM := by
      refine foldl_preserve_sorted _ ?_ _ _ pagesM ?_ hM
      · intro pgs b2 pgs3 hpgs hfb
        by_cases hinv : b2.1 = INVALID_PAGE_NUM
        · simp only [if_pos hinv] at hfb
          exact Option.noConfusion hfb
        · simp only [if_neg hinv] at hfb
          obtain ⟨child, hchild, hfb⟩ := DbM_bind_eq_some hfb
          rw [← (Option.some.injEq _ _).mp hfb]
          exact leavesSorted_set _ _ _ hpgs
            (leafSortedNode_withParent _ _ (leavesSorted_lookup _ _ _ hpgs hchild))
      · apply leavesSorted_set
        · apply leavesSorted_set
          · apply leavesSorted_ite
            · intro _
              exact leavesSorted_append _ _ hs1 leafSortedNode_zeroPage
            · intro _
              apply leavesSorted_set
              · apply leavesSorted_set
                · exact leavesSorted_append _ _ hs1 leafSortedNode_zeroPage
                · exact leafSortedNode_init_internal
              · exact leafSortedNode_init_internal
          · exact hrootS
        · exact leafSortedNode_withRoot _ _ hrootS
    obtain ⟨lcNow, hlcNow, h⟩ := DbM_bind_eq_some h
    obtain ⟨lcMax, hlcMax, h⟩ := DbM_bind_eq_some h
    obtain ⟨leftNow, hleftNow, h⟩ := DbM_bind_eq_some h
    obtain ⟨rightNow, hrightNow, h⟩ := DbM_bind_eq_some h
    have hS1 : leafSortedNode leftNow :=
      leavesSorted_lookup _ _ _
        (leavesSorted_set _ _ _ hMS (leafSortedNode_internal _ _ _ _)) hleftNow
    have hS2 : leafSortedNode rightNow :=
      leavesSorted_lookup _ _ _
        (leavesSorted_set _ _ _
          (leavesSorted_set _ _ _ hMS (leafSortedNode_internal _ _ _ _))
          (leafSortedNode_withParent _ _ hS1)) hrightNow
    rw [← (Option.some.injEq _ _).mp h]
    exact leavesSorted_set _ _ _
      (leavesSorted_set _ _ _
        (leavesSorted_set _ _ _ hMS (leafSortedNode_internal _ _ _ _))
        (leafSortedNode_withParent _ _ hS1))
      (leafSortedNode_withParent _ _ hS2)

theorem DbM_some_inj {α : Type} {a b : α} (h : (some a : DbM α) = some b) : a = b :=
  (Option.some.injEq _ _).mp h

theorem dbm_if_eq_some {α : Type} {c : Prop} [Decidable c] {x y : DbM α} {b : α}
    (h : (if c then x else y) = some b) :
    (c ∧ x = some b) ∨ (¬ c ∧ y = some b) := by
  by_cases hc : c
  · rw [if_pos hc] at h
    exact Or.inl ⟨hc, h⟩
  · rw [if_neg hc] at h
    exact Or.inr ⟨hc, h⟩

theorem leafSortedNode_ite (c : Prop) [Decidable c] (n1 n2 : Node)
    (h1 : leafSortedNode n1) (h2 : leafSortedNode n2) :
    leafSortedNode (if c then n1 else n2) := by
  by_cases hc : c
  · rw [if_pos hc]
    exact h1
  · rw [if_neg hc]
    exact h2

/-- The internal-node insertion/split family preserves the leaf-sortedness
invariant: these operations write only internal pages, parent pointers, and
root-page rebuilds via `create_new_root`. -/
theorem internal_ops_sorted (fuel : Nat) :
    (∀ pages p c pages2, internal_node_insert fuel pages p c = some pages2 →
      leavesSorted pages → leavesSorted pages2) ∧
    (∀ pages o n idxs pages2,
      internal_split_move_loop fuel pages o n idxs = some pages2 →
      leavesSorted pages → leavesSorted pages2) ∧
    (∀ pages p c pages2, internal_node_split_insert fuel pages p c = some pages2 →
      leavesSorted pages → leavesSorted pages2) := by
  induction fuel with
  | zero =>
    refine ⟨?_, ?_, ?_⟩
    · intro pages p c pages2 h
      exact absurd h (fun hh => Option.noConfusion hh)
    · intro pages o n idxs pages2 h hs
      cases idxs with
      | nil =>
        rw [← DbM_some_inj h]
        exact hs
      | cons i rest => exact absurd h (fun hh => Option.noConfusion hh)
    · intro pages p c pages2 h
      exact absurd h (fun hh => Option.noConfusion hh)
  | succ fuel ih =>
    obtain ⟨ih1, ih2, ih3⟩ := ih
    refine ⟨?_, ?_, ?_⟩
    · intro pages p c pages2 h hs
      obtain ⟨parent, hparent, h⟩ := DbM_bind_eq_some h
      obtain ⟨child, hchild, h⟩ := DbM_bind_eq_some h
      obtain ⟨childMax, hchildMax, h⟩ := DbM_bind_eq_some h
      rcases parent with ⟨pr, pp, cells, rc⟩ | ⟨pr, pp, cells, rc⟩
      · exact Option.noConfusion h
      · rcases dbm_if_eq_some h with ⟨hfull, h⟩ | ⟨hfull, h⟩
        · exact ih3 pages p c pages2 h hs
        · rcases dbm_if_eq_some h with ⟨hinv, h⟩ | ⟨hinv, h⟩
          · rw [← DbM_some_inj h]
            exact leavesSorted_set _ _ _ hs (leafSortedNode_internal _ _ _ _)
          · obtain ⟨rightChild, hrc, h⟩ := DbM_bind_eq_some h
            obtain ⟨rightMax, hrm, h⟩ := DbM_bind_eq_some h
            obtain ⟨childNode, hcn, h⟩ := DbM_bind_eq_some h
            have hs2 : leavesSorted (pages.set p
                (if childMax > rightMax then
                  Node.internal pr pp (cells ++ [(rc, rightMax)]) c
                else
                  Node.internal pr pp
                    (cells.take (internal_node_find_child cells childMax) ++
                      [(c, childMax)] ++
                      cells.drop (internal_node_find_child cells childMax)) rc)) :=
              leavesSorted_set _ _ _ hs
                (leafSortedNode_ite _ _ _ trivial trivial)
            rw [← DbM_some_inj h]
            exact leavesSorted_set _ _ _ hs2
              (leafSortedNode_withParent _ _ (leavesSorted_lookup _ _ _ hs2 hcn))
    · intro pages o n idxs pages2 h hs
      cases idxs with
      | nil =>
        rw [← DbM_some_inj h]
        exact hs
      | cons i rest =>
        obtain ⟨oldNode, hold, h⟩ := DbM_bind_eq_some h
        obtain ⟨curPageNum, hcur, h⟩ := DbM_bind_eq_some h
        obtain ⟨pagesI, hI, h⟩ := DbM_bind_eq_some h
        have hsI : leavesSorted pagesI := ih1 _ _ _ _ hI hs
        obtain ⟨curNode, hcn, h⟩ := DbM_bind_eq_some h
        have hsC : leavesSorted (pagesI.set curPageNum (curNode.withParent n)) :=
          leavesSorted_set _ _ _ hsI
            (leafSortedNode_withParent _ _ (leavesSorted_lookup _ _ _ hsI hcn))
        obtain ⟨oldNode2, hold2, h⟩ := DbM_bind_eq_some h
        exact ih2 _ _ _ _ _ h
          (leavesSorted_set _ _ _ hsC
            (leafSortedNode_dec_num_keys _ (leavesSorted_lookup _ _ _ hsC hold2)))
    · intro pages p c pages2 h hs
      obtain ⟨oldNode0, hold0, h⟩ := DbM_bind_eq_some h
      obtain ⟨oldMax, holdMax, h⟩ := DbM_bind_eq_some h
      obtain ⟨child, hchild, h⟩ := DbM_bind_eq_some h
      obtain ⟨childMax, hchildMax, h⟩ := DbM_bind_eq_some h
      rcases dbm_if_eq_some h with ⟨hroot, h⟩ | ⟨hroot, h⟩
      · obtain ⟨pagesC, hC, h⟩ := DbM_bind_eq_some h
        obtain ⟨parentNode0, hpn0, h⟩ := DbM_bind_eq_some h
        obtain ⟨oldPN0, hopn0, h⟩ := DbM_bind_eq_some h
        obtain ⟨step, hstepeq, h⟩ := DbM_bind_eq_some h
        rw [← DbM_some_inj hstepeq] at h
        have hsS : leavesSorted pagesC := create_new_root_sorted _ _ _ hC hs
        obtain ⟨oldNode, hold, h⟩ := DbM_bind_eq_some h
        obtain ⟨curPageNum, hcur, h⟩ := DbM_bind_eq_some h
        obtain ⟨pagesI, hI, h⟩ := DbM_bind_eq_some h
        have hsI : leavesSorted pagesI := ih1 _ _ _ _ hI hsS
        obtain ⟨curNode, hcn, h⟩ := DbM_bind_eq_some h
        have hsC : leavesSorted (pagesI.set curPageNum
            (curNode.withParent (get_unused_page_num pages))) :=
          leavesSorted_set _ _ _ hsI
            (leafSortedNode_withParent _ _ (leavesSorted_lookup _ _ _ hsI hcn))
        obtain ⟨oldNode1, hold1, h⟩ := DbM_bind_eq_some h
        have hsR : leavesSorted ((pagesI.set curPageNum
            (curNode.withParent (get_unused_page_num pages))).set oldPN0
            (internal_with_right_child oldNode1 INVALID_PAGE_NUM)) :=
          leavesSorted_set _ _ _ hsC
            (leafSortedNode_with_right_child _ _ (leavesSorted_lookup _ _ _ hsC hold1))
        obtain ⟨pagesL, hL, h⟩ := DbM_bind_eq_some h
        have hsL : leavesSorted pagesL := ih2 _ _ _ _ _ hL hsR
        obtain ⟨oldNode2, hold2, h⟩ := DbM_bind_eq_some h
        obtain ⟨promotedPageNum, hprom, h⟩ := DbM_bind_eq_some h
        have hsP : leavesSorted (pagesL.set oldPN0
            (internal_dec_num_keys (internal_with_right_child oldNode2 promotedPageNum))) :=
          leavesSorted_set _ _ _ hsL
            (leafSortedNode_dec_num_keys _
              (leafSortedNode_with_right_child _ _ (leavesSorted_lookup _ _ _ hsL hold2)))
        obtain ⟨oldNode3, hold3, h⟩ := DbM_bind_eq_some h
        obtain ⟨maxAfterSplit, hmas, h⟩ := DbM_bind_eq_some h
        obtain ⟨pagesD, hD, h⟩ := DbM_bind_eq_some h
        have hsD : leavesSorted pagesD := ih1 _ _ _ _ hD hsP
        obtain ⟨childNode, hcn2, h⟩ := DbM_bind_eq_some h
        have hsE : leavesSorted (pagesD.set c (childNode.withParent
            (if childMax < maxAfterSplit then oldPN0 else get_unused_page_num pages))) :=
          leavesSorted_set _ _ _ hsD
            (leafSortedNode_withParent _ _ (leavesSorted_lookup _ _ _ hsD hcn2))
        obtain ⟨oldNode4, hold4, h⟩ := DbM_bind_eq_some h
        obtain ⟨newOldMax, hnom, h⟩ := DbM_bind_eq_some h
        obtain ⟨parentNode, hpn2, h⟩ := DbM_bind_eq_some h
        have hsU : leavesSorted ((pagesD.set c (childNode.withParent
            (if childMax < maxAfterSplit then oldPN0 else get_unused_page_num pages))).set
            rootPageNum (update_internal_node_key parentNode oldMax newOldMax)) :=
          leavesSorted_set _ _ _ hsE
            (leafSortedNode_update_key _ _ _ (leavesSorted_lookup _ _ _ hsE hpn2))
        rcases dbm_if_eq_some h with ⟨hroot2, h⟩ | ⟨hroot2, h⟩
        · rw [← DbM_some_inj h]
          exact hsU
        · obtain ⟨oldNode5, hold5, h⟩ := DbM_bind_eq_some h
          obtain ⟨pagesF, hF, h⟩ := DbM_bind_eq_some h
          have hsF : leavesSorted pagesF := ih1 _ _ _ _ hF hsU
          obtain ⟨newNode, hnn, h⟩ := DbM_bind_eq_some h
          obtain ⟨oldNode6, hold6, h⟩ := DbM_bind_eq_some h
          rw [← DbM_some_inj h]
          exact leavesSorted_set _ _ _ hsF
            (leafSortedNode_withParent _ _ (leavesSorted_lookup _ _ _ hsF hnn))
      · obtain ⟨step, hstepeq, h⟩ := DbM_bind_eq_some h
        rw [← DbM_some_inj hstepeq] at h
        have hsS : leavesSorted ((pages ++ [zeroPage]).set (get_unused_page_num pages)
            init_internal_node) :=
          leavesSorted_set _ _ _
            (leavesSorted_append _ _ hs leafSortedNode_zeroPage)
            leafSortedNode_init_internal
        obtain ⟨oldNode, hold, h⟩ := DbM_bind_eq_some h
        obtain ⟨curPageNum, hcur, h⟩ := DbM_bind_eq_some h
        obtain ⟨pagesI, hI, h⟩ := DbM_bind_eq_some h
        have hsI : leavesSorted pagesI := ih1 _ _ _ _ hI hsS
        obtain ⟨curNode, hcn, h⟩ := DbM_bind_eq_some h
        have hsC : leavesSorted (pagesI.set curPageNum
            (curNode.withParent (get_unused_page_num pages))) :=
          leavesSorted_set _ _ _ hsI
            (leafSortedNode_withParent _ _ (leavesSorted_lookup _ _ _ hsI hcn))
        obtain ⟨oldNode1, hold1, h⟩ := DbM_bind_eq_some h
        have hsR : leavesSorted ((pagesI.set curPageNum
            (curNode.withParent (get_unused_page_num pages))).set p
            (internal_with_right_child oldNode1 INVALID_PAGE_NUM)) :=
          leavesSorted_set _ _ _ hsC
            (leafSortedNode_with_right_child _ _ (leavesSorted_lookup _ _ _ hsC hold1))
        obtain ⟨pagesL, hL, h⟩ := DbM_bind_eq_some h
        have hsL : leavesSorted pagesL := ih2 _ _ _ _ _ hL hsR
        obtain ⟨oldNode2, hold2, h⟩ := DbM_bind_eq_some h
        obtain ⟨promotedPageNum, hprom, h⟩ := DbM_bind_eq_some h
        have hsP : leavesSorted (pagesL.set p
            (internal_dec_num_keys (internal_with_right_child oldNode2 promotedPageNum))) :=
          leavesSorted_set _ _ _ hsL
            (leafSortedNode_dec_num_keys _
              (leafSortedNode_with_right_child _ _ (leavesSorted_lookup _ _ _ hsL hold2)))
        obtain ⟨oldNode3, hold3, h⟩ := DbM_bind_eq_some h
        obtain ⟨maxAfterSplit, hmas, h⟩ := DbM_bind_eq_some h
        obtain ⟨pagesD, hD, h⟩ := DbM_bind_eq_some h
        have hsD : leavesSorted pagesD := ih1 _ _ _ _ hD hsP
        obtain ⟨childNode, hcn2, h⟩ := DbM_bind_eq_some h
        have hsE : leavesSorted (pagesD.set c (childNode.withParent
            (if childMax < maxAfterSplit then p else get_unused_page_num pages))) :=
          leavesSorted_set _ _ _ hsD
            (leafSortedNode_withParent _ _ (leavesSorted_lookup _ _ _ hsD hcn2))
        obtain ⟨oldNode4, hold4, h⟩ := DbM_bind_eq_some h
        obtain ⟨newOldMax, hnom, h⟩ := DbM_bind_eq_some h
        obtain ⟨parentNode, hpn2, h⟩ := DbM_bind_eq_some h
        have hsU : leavesSorted ((pagesD.set c (childNode.withParent
            (if childMax < maxAfterSplit then p else get_unused_page_num pages))).set
            oldNode0.parentOf (update_internal_node_key parentNode oldMax newOldMax)) :=
          leavesSorted_set _ _ _ hsE
            (leafSortedNode_update_key _ _ _ (leavesSorted_lookup _ _ _ hsE hpn2))
        rcases dbm_if_eq_some h with ⟨hroot2, h⟩ | ⟨hroot2, h⟩
        · rw [← DbM_some_inj h]
          exact hsU
        · obtain ⟨oldNode5, hold5, h⟩ := DbM_bind_eq_some h
          obtain ⟨pagesF, hF, h⟩ := DbM_bind_eq_some h
          have hsF : leavesSorted pagesF := ih1 _ _ _ _ hF hsU
          obtain ⟨newNode, hnn, h⟩ := DbM_bind_eq_some h
          obtain ⟨oldNode6, hold6, h⟩ := DbM_bind_eq_some h
          rw [← DbM_some_inj h]
          exact leavesSorted_set _ _ _ hsF
            (leafSortedNode_withParent _ _ (leavesSorted_lookup _ _ _ hsF hnn))

theorem insert_sorted (keys : List Nat) (key : Nat) (slot : Nat)
    (hs : List.Pairwise (· < ·) keys)
    (hlow : ∀ i, i < slot → keys.getD i 0 < key)
    (hhigh : ∀ i, slot ≤ i → i < keys.length → key < keys.getD i 0) :
    List.Pairwise (· < ·) (keys.take slot ++ [key] ++ keys.drop slot) := by
  have hmemTake : ∀ a ∈ keys.take slot, a < key := by
    intro a ha
    rcases List.mem_iff_getElem.mp ha with ⟨i, hilen, hget⟩
    have hlt : i < slot := by
      rw [List.length_take] at hilen
      omega
    have hikeys : i < keys.length := by
      rw [List.length_take] at hilen
      omega
    have hgv : (keys.take slot)[i] = keys[i] := List.getElem_take keys
    have h2 := hlow i hlt
    rw [getD_eq_getElem_of_lt keys i hikeys, ← hgv, hget] at h2
    exact h2
  have hmemDrop : ∀ b ∈ keys.drop slot, key < b := by
    intro b hb
    rcases List.mem_iff_getElem.mp hb with ⟨i, hilen, hget⟩
    have hikeys : slot + i < keys.length := by
      rw [List.length_drop] at hilen
      omega
    have hgv : (keys.drop slot)[i] = keys[slot + i] := List.getElem_drop keys
    have h2 := hhigh (slot + i) (by omega) hikeys
    rw [getD_eq_getElem_of_lt keys _ hikeys, ← hgv, hget] at h2
    exact h2
  rw [List.pairwise_append]
  refine ⟨?_, ?_, ?_⟩
  · rw [List.pairwise_append]
    refine ⟨List.Pairwise.sublist (List.take_sublist _ _) hs,
      List.pairwise_singleton _ _, ?_⟩
    intro a ha b hb
    rw [List.mem_singleton.mp hb]
    exact hmemTake a ha
  · exact List.Pairwise.sublist (List.drop_sublist _ _) hs
  · intro a ha b hb
    rcases List.mem_append.mp ha with h1 | h1
    · exact lt_trans (hmemTake a h1) (hmemDrop b hb)
    · rw [List.mem_singleton.mp h1]
      exact hmemDrop b hb

theorem inserted_cells_sorted (cells : List (Nat × Row)) (key : Nat) (v : Row)
    (slot : Nat)
    (hs : List.Pairwise (· < ·) (cells.map Prod.fst))
    (hlow : ∀ i, i < slot → (cells.map Prod.fst).getD i 0 < key)
    (hhigh : ∀ i, slot ≤ i → i < cells.length →
      key < (cells.map Prod.fst).getD i 0) :
    List.Pairwise (· < ·)
      ((cells.take slot ++ [(key, v)] ++ cells.drop slot).map Prod.fst) := by
  rw [List.map_append, List.map_append, List.map_take, List.map_drop]
  exact insert_sorted (cells.map Prod.fst) key slot hs hlow
    (fun i hi1 hi2 => hhigh i hi1 (by rw [List.length_map] at hi2; exact hi2))

theorem filterMap_get_sublist_drop (l : List α) :
    ∀ (idxs : List Nat), List.Pairwise (· < ·) idxs →
    ∀ k, (∀ i ∈ idxs, k ≤ i) →
    List.Sublist (idxs.filterMap (fun i => l.get? i)) (l.drop k) := by
  intro idxs
  induction idxs with
  | nil =>
    intro _ k _
    rw [List.filterMap_nil]
    exact List.nil_sublist _
  | cons i rest ih =>
    intro hpair k hk
    have hrest : ∀ j ∈ rest, i + 1 ≤ j := by
      intro j hj
      exact List.rel_of_pairwise_cons hpair hj
    have hdropLe : List.Sublist (l.drop (i + 1)) (l.drop k) := by
      have h1 : List.Sublist ((l.drop k).drop (i + 1 - k)) (l.drop k) := List.drop_sublist _ _
      rw [List.drop_drop] at h1
      have h2 : k + (i + 1 - k) = i + 1 := by
        have := hk i (List.mem_cons_self i rest)
        omega
      rw [h2] at h1
      exact h1
    rw [List.filterMap_cons]
    rcases hg : l.get? i with _ | a
    · exact List.Sublist.trans
        (ih (List.Pairwise.sublist (List.sublist_cons_self _ _) hpair) (i + 1) hrest)
        hdropLe
    · have hi : i < l.length := by
        by_contra hcon
        rw [List.get?_eq_none.mpr (by omega)] at hg
        exact Option.noConfusion hg
      have ha : a = l[i] := by
        rw [List.get?_eq_getElem?, List.getElem?_eq_getElem hi] at hg
        exact ((Option.some.injEq _ _).mp hg).symm
      have hdecomp : l.drop i = l[i] :: l.drop (i + 1) :=
        List.drop_eq_getElem_cons hi
      have hsub : List.Sublist (a :: rest.filterMap (fun j => l.get? j)) (l.drop i) := by
        rw [hdecomp, ha]
        exact List.Sublist.cons₂ _
          (ih (List.Pairwise.sublist (List.sublist_cons_self _ _) hpair) (i + 1) hrest)
      refine List.Sublist.trans hsub ?_
      have h1 : List.Sublist ((l.drop k).drop (i - k)) (l.drop k) := List.drop_sublist _ _
      rw [List.drop_drop] at h1
      have h2 : k + (i - k) = i := by
        have := hk i (List.mem_cons_self i rest)
        omega
      rw [h2] at h1
      exact h1

theorem filterMap_get_sublist (l : List α) (idxs : List Nat)
    (h : List.Pairwise (· < ·) idxs) :
    List.Sublist (idxs.filterMap (fun i => l.get? i)) l := by
  have := filterMap_get_sublist_drop l idxs h 0 (fun i _ => Nat.zero_le i)
  rw [List.drop_zero] at this
  exact this

theorem leaf_split_slot_eq (cells : List (Nat × Row)) (cellNum : Nat) (key : Nat)
    (v : Row) (hcn : cellNum ≤ cells.length) (i : Nat) :
    leaf_split_slot cells cellNum key v i =
      (cells.take cellNum ++ [(key, v)] ++ cells.drop cellNum).get? i := by
  have htl : (cells.take cellNum).length = cellNum := by
    rw [List.length_take]
    omega
  have hal : (cells.take cellNum ++ [(key, v)]).length = cellNum + 1 := by
    rw [List.length_append, htl]
    rfl
  rw [leaf_split_slot,
    List.get?_eq_getElem? (cells.take cellNum ++ [(key, v)] ++ cells.drop cellNum) i]
  by_cases h1 : i = cellNum
  · rw [if_pos h1, h1]
    rw [List.getElem?_append_left (by omega : cellNum < (cells.take cellNum ++ [(key, v)]).length)]
    rw [List.getElem?_append_right (by omega : (cells.take cellNum).length ≤ cellNum)]
    rw [htl]
    simp
  · rw [if_neg h1]
    by_cases h2 : i > cellNum
    · rw [if_pos h2]
      rw [List.getElem?_append_right (by omega : (cells.take cellNum ++ [(key, v)]).length ≤ i)]
      rw [hal]
      rw [List.getElem?_drop]
      rw [List.get?_eq_getElem?]
      congr 1
      omega
    · rw [if_neg h2]
      rw [List.getElem?_append_left (by omega : i < (cells.take cellNum ++ [(key, v)]).length)]
      rw [List.getElem?_append_left (by omega : i < (cells.take cellNum).length)]
      rw [List.getElem?_take, if_pos (by omega : i < cellNum)]
      rw [List.get?_eq_getElem?]

theorem leaf_split_old_sublist (cells : List (Nat × Row)) (cellNum : Nat)
    (key : Nat) (v : Row) (hcn : cellNum ≤ cells.length) :
    List.Sublist (leaf_split_old_cells cells cellNum key v)
      (cells.take cellNum ++ [(key, v)] ++ cells.drop cellNum) := by
  rw [leaf_split_old_cells]
  rw [List.filterMap_congr (fun i _ => leaf_split_slot_eq cells cellNum key v hcn i)]
  exact filterMap_get_sublist _ _ (List.pairwise_lt_range _)

theorem leaf_split_new_sublist (cells : List (Nat × Row)) (cellNum : Nat)
    (key : Nat) (v : Row) (hcn : cellNum ≤ cells.length) :
    List.Sublist (leaf_split_new_cells cells cellNum key v)
      (cells.take cellNum ++ [(key, v)] ++ cells.drop cellNum) := by
  rw [leaf_split_new_cells]
  rw [List.filterMap_congr (fun i _ => leaf_split_slot_eq cells cellNum key v hcn i)]
  exact filterMap_get_sublist _ _
    (List.Pairwise.sublist (List.drop_sublist _ _) (List.pairwise_lt_range _))

theorem sorted_of_cells_sublist (c1 c2 : List (Nat × Row))
    (hsub : List.Sublist c1 c2)
    (hs : List.Pairwise (· < ·) (c2.map Prod.fst)) :
    List.Pairwise (· < ·) (c1.map Prod.fst) :=
  List.Pairwise.sublist (List.Sublist.map Prod.fst hsub) hs

theorem leaf_split_insert_sorted (fuel : Nat) (pages : List Node) (cursor : Cursor)
    (key : Nat) (value : Row) (pages2 : List Node)
    (isR : Bool) (par nl : Nat) (cells : List (Nat × Row))
    (hlk : page_lookup pages cursor.pageNum = some (.leaf isR par cells nl))
    (h : leaf_node_split_insert fuel pages cursor key value = some pages2)
    (hs : leavesSorted pages)
    (hins : List.Pairwise (· < ·)
      ((cells.take cursor.cellNum ++ [(key, value)] ++
        cells.drop cursor.cellNum).map Prod.fst))
    (hcn : cursor.cellNum ≤ cells.length) :
    leavesSorted pages2 := by
  obtain ⟨oldNode, hold, h⟩ := DbM_bind_eq_some h
  rw [hlk] at hold
  have heq := DbM_some_inj hold
  subst heq
  obtain ⟨oldMax, hom, h⟩ := DbM_bind_eq_some h
  have hsS : leavesSorted (((((pages ++ [zeroPage]).set (get_unused_page_num pages)
      (.leaf false par [] nl)).set cursor.pageNum
      (.leaf isR par cells (get_unused_page_num pages))).set cursor.pageNum
      (.leaf isR par (leaf_split_old_cells cells cursor.cellNum key value)
        (get_unused_page_num pages))).set (get_unused_page_num pages)
      (.leaf false par (leaf_split_new_cells cells cursor.cellNum key value) nl)) := by
    apply leavesSorted_set
    · apply leavesSorted_set
      · apply leavesSorted_set
        · apply leavesSorted_set
          · exact leavesSorted_append _ _ hs leafSortedNode_zeroPage
          · exact List.Pairwise.nil
        · have hsr : leafSortedNode (Node.leaf isR par cells nl) :=
            leavesSorted_lookup _ _ _ hs hlk
          exact hsr
      · exact sorted_of_cells_sublist _ _
          (leaf_split_old_sublist cells cursor.cellNum key value hcn) hins
    · exact sorted_of_cells_sublist _ _
        (leaf_split_new_sublist cells cursor.cellNum key value hcn) hins
  rcases dbm_if_eq_some h with ⟨hroot, h⟩ | ⟨hroot, h⟩
  · exact create_new_root_sorted _ _ _ h hsS
  · obtain ⟨oldNodeAfter, hoa, h⟩ := DbM_bind_eq_some h
    obtain ⟨newMax, hnm, h⟩ := DbM_bind_eq_some h
    obtain ⟨parentNode, hpn, h⟩ := DbM_bind_eq_some h
    exact (internal_ops_sorted fuel).1 _ _ _ _ h
      (leavesSorted_set _ _ _ hsS
        (leafSortedNode_update_key _ _ _ (leavesSorted_lookup _ _ _ hsS hpn)))

theorem leaf_insert_sorted (fuel : Nat) (pages : List Node) (cursor : Cursor)
    (key : Nat) (value : Row) (pages2 : List Node)
    (isR : Bool) (par nl : Nat) (cells : List (Nat × Row))
    (hlk : page_lookup pages cursor.pageNum = some (.leaf isR par cells nl))
    (h : leaf_node_insert fuel pages cursor key value = some pages2)
    (hs : leavesSorted pages)
    (hins : List.Pairwise (· < ·)
      ((cells.take cursor.cellNum ++ [(key, value)] ++
        cells.drop cursor.cellNum).map Prod.fst))
    (hcn : cursor.cellNum ≤ cells.length) :
    leavesSorted pages2 := by
  obtain ⟨node, hnode, h⟩ := DbM_bind_eq_some h
  rw [hlk] at hnode
  have heq := DbM_some_inj hnode
  subst heq
  rcases dbm_if_eq_some h with ⟨hfull, h⟩ | ⟨hfull, h⟩
  · exact leaf_split_insert_sorted fuel pages cursor key value pages2
      isR par nl cells hlk h hs hins hcn
  · rw [← DbM_some_inj h]
    exact leavesSorted_set _ _ _ hs hins

theorem modifyIdx_map_fst (cells : List (Nat × Row)) (i : Nat)
    (f : Nat × Row → Nat × Row) (hf : ∀ kr, (f kr).1 = kr.1) :
    (modifyIdx cells i f).map Prod.fst = cells.map Prod.fst := by
  induction cells generalizing i with
  | nil => rfl
  | cons a as ih =>
    cases i with
    | zero =>
      rw [modifyIdx, List.map_cons, List.map_cons, hf a]
    | succ n =>
      rw [modifyIdx, List.map_cons, List.map_cons, ih n]

theorem execute_insert_sorted (fuel : Nat) (pages : List Node) (r : Row)
    (res : ExecuteResult) (pages2 : List Node)
    (h : execute_insert fuel pages r = some (res, pages2))
    (hs : leavesSorted pages) : leavesSorted pages2 := by
  obtain ⟨cursor, hcur, h⟩ := DbM_bind_eq_some h
  obtain ⟨node, hnode, h⟩ := DbM_bind_eq_some h
  rcases node with ⟨isR, par, cells, nl⟩ | ⟨a, b, cs, d⟩
  · have hsorted : List.Pairwise (· < ·) (cells.map Prod.fst) :=
      leavesSorted_lookup _ _ _ hs hnode
    have hklen : (cells.map Prod.fst).length = cells.length := List.length_map _ _
    have hfind : find_leaf_node pages cursor.pageNum r.id =
        some { pageNum := cursor.pageNum,
               cellNum := find_leaf_loop (cells.map Prod.fst) r.id 0 cells.length,
               endOfTable := false } := by
      rw [find_leaf_node, hnode]
      rfl
    have hleaf := find_table_to_leaf fuel pages r.id cursor hcur
    rw [hfind] at hleaf
    have hcell : cursor.cellNum =
        find_leaf_loop (cells.map Prod.fst) r.id 0 cells.length := by
      rw [← (Option.some.injEq _ _).mp hleaf]
    have hspec := find_leaf_go_spec (cells.map Prod.fst) r.id
      ((cells.map Prod.fst).length - 0) 0 (cells.map Prod.fst).length
      (le_refl _) (Nat.zero_le _) (le_refl _) hsorted
      (fun i hi => absurd hi (Nat.not_lt_zero i))
      (fun i hi1 hi2 => absurd (lt_of_le_of_lt hi1 hi2) (lt_irrefl _))
    rw [show find_leaf_go (cells.map Prod.fst) r.id ((cells.map Prod.fst).length - 0) 0
        (cells.map Prod.fst).length =
        find_leaf_loop (cells.map Prod.fst) r.id 0 cells.length from by
      rw [find_leaf_loop, hklen]] at hspec
    rw [← hcell] at hspec
    rcases dbm_if_eq_some h with ⟨hdup, h⟩ | ⟨hdup, h⟩
    · have h2 := DbM_some_inj h
      have h3 : pages = pages2 := congrArg Prod.snd h2
      rw [← h3]
      exact hs
    · obtain ⟨pagesI, hI, h⟩ := DbM_bind_eq_some h
      have hnohit : ¬ (cursor.cellNum < (cells.map Prod.fst).length ∧
          (cells.map Prod.fst).getD cursor.cellNum 0 = r.id) := by
        rintro ⟨hlt, hkey⟩
        apply hdup
        have hltc : cursor.cellNum < cells.length := by omega
        have hget : cells.get? cursor.cellNum = some cells[cursor.cellNum] := by
          rw [List.get?_eq_getElem?, List.getElem?_eq_getElem hltc]
        rcases hp : cells[cursor.cellNum] with ⟨kk, row⟩
        rw [hp] at hget
        have hkk : kk = r.id := by
          rw [getD_eq_getElem_of_lt _ _ hlt, List.getElem_map] at hkey
          rw [hp] at hkey
          exact hkey
        show (match cells.get? cursor.cellNum with
          | some (keyAtIndex, _) => keyAtIndex == r.id
          | none => false) = true
        rw [hget, hkk]
        exact beq_self_eq_true r.id
      rcases hspec with ⟨h1, h2⟩ | ⟨_hle, hle2, hlow, hhigh⟩
      · exact absurd ⟨h1, h2⟩ hnohit
      · have hcn : cursor.cellNum ≤ cells.length := by omega
        have hins := inserted_cells_sorted cells r.id r cursor.cellNum hsorted hlow
          (fun i hi1 hi2 => hhigh i hi1 (by omega))
        have h2 := DbM_some_inj h
        have h3 : pagesI = pages2 := congrArg Prod.snd h2
        rw [← h3]
        exact leaf_insert_sorted fuel pages cursor r.id r pagesI
          isR par nl cells hnode hI hs hins hcn
  · exact Option.noConfusion h

theorem execute_update_sorted (fuel : Nat) (pages : List Node) (r : Row)
    (res : ExecuteResult) (pages2 : List Node)
    (h : execute_update fuel pages r = some (res, pages2))
    (hs : leavesSorted pages) : leavesSorted pages2 := by
  obtain ⟨cursor, hcur, h⟩ := DbM_bind_eq_some h
  obtain ⟨node, hnode, h⟩ := DbM_bind_eq_some h
  rcases node with ⟨isR, par, cells, nl⟩ | ⟨a, b, cs, d⟩
  · have hsorted : List.Pairwise (· < ·) (cells.map Prod.fst) :=
      leavesSorted_lookup _ _ _ hs hnode
    have h2 := DbM_some_inj h
    have h3 : pages.set cursor.pageNum (.leaf isR par
        (modifyIdx cells cursor.cellNum fun kr =>
          (kr.1, { kr.2 with username := r.username, email := r.email })) nl) =
        pages2 := congrArg Prod.snd h2
    rw [← h3]
    apply leavesSorted_set _ _ _ hs
    show List.Pairwise (· < ·) ((modifyIdx cells cursor.cellNum fun kr =>
      (kr.1, { kr.2 with username := r.username, email := r.email })).map Prod.fst)
    rw [modifyIdx_map_fst cells cursor.cellNum
      (fun kr => (kr.1, { kr.2 with username := r.username, email := r.email }))
      (fun kr => rfl)]
    exact hsorted
  · exact Option.noConfusion h

theorem execute_delete_sorted (fuel : Nat) (pages : List Node) (k : Nat)
    (res : ExecuteResult) (pages2 : List Node)
    (h : execute_delete fuel pages k = some (res, pages2))
    (hs : leavesSorted pages) : leavesSorted pages2 := by
  obtain ⟨cursor, hcur, h⟩ := DbM_bind_eq_some h
  obtain ⟨node, hnode, h⟩ := DbM_bind_eq_some h
  rcases node with ⟨isR, par, cells, nl⟩ | ⟨a, b, cs, d⟩
  · have hsorted : List.Pairwise (· < ·) (cells.map Prod.fst) :=
      leavesSorted_lookup _ _ _ hs hnode
    rcases dbm_if_eq_some h with ⟨hge, h⟩ | ⟨hge, h⟩
    · have h2 := DbM_some_inj h
      have h3 : pages = pages2 := congrArg Prod.snd h2
      rw [← h3]
      exact hs
    · have h2 := DbM_some_inj h
      have h3 : pages.set cursor.pageNum
          (.leaf isR par (cells.eraseIdx cursor.cellNum) nl) = pages2 :=
        congrArg Prod.snd h2
      rw [← h3]
      exact leavesSorted_set _ _ _ hs
        (sorted_of_cells_sublist _ _ (List.eraseIdx_sublist _ _) hsorted)
  · exact Option.noConfusion h

theorem freshTable_sorted : leavesSorted freshTable := by
  intro n hn
  rw [List.mem_singleton.mp hn]
  exact List.Pairwise.nil

/-- Every page store reachable from a fresh table by a sequence of
insert/update/delete statements has strictly ascending keys in every leaf. -/
theorem run_mutations_sorted (fuel : Nat) (ms : List Mutation) :
    ∀ pages pages2, leavesSorted pages →
      run_mutations fuel pages ms = some pages2 → leavesSorted pages2 := by
  induction ms with
  | nil =>
    intro pages pages2 hs h
    rw [← DbM_some_inj h]
    exact hs
  | cons m ms ih =>
    intro pages pages2 hs h
    obtain ⟨rp, hm, h⟩ := DbM_bind_eq_some h
    obtain ⟨res, pagesM⟩ := rp
    have hsM : leavesSorted pagesM := by
      cases m with
      | ins r => exact execute_insert_sorted fuel pages r res pagesM hm hs
      | upd r => exact execute_update_sorted fuel pages r res pagesM hm hs
      | del k => exact execute_delete_sorted fuel pages k res pagesM hm hs
    exact ih pagesM pages2 hsM h

/-- C7: `find_leaf_node` performs a correct binary search on the located
leaf's sorted key array: it returns a cursor at the leaf's page whose cell
number is at most num_cells; when the key is present the cell number indexes
exactly that key, and when it is absent the cell number is the number of
keys smaller than the probe (the insertion slot), with every smaller key
strictly below the slot and every larger key at or above it. -/
theorem C7_find_leaf_binary_search (pages : List Node) (pageNum key : Nat)
    (isR : Bool) (par nl : Nat) (cells : List (Nat × Row))
    (hn : page_lookup pages pageNum = some (.leaf isR par cells nl))
    (hsorted : List.Pairwise (· < ·) (cells.map Prod.fst)) :
    find_leaf_node pages pageNum key =
      some { pageNum := pageNum,
             cellNum := find_leaf_loop (cells.map Prod.fst) key 0 cells.length,
             endOfTable := false } ∧
    find_leaf_loop (cells.map Prod.fst) key 0 cells.length ≤ cells.length ∧
    (key ∈ cells.map Prod.fst →
      (cells.map Prod.fst).getD (find_leaf_loop (cells.map Prod.fst) key 0 cells.length) 0
        = key ∧
      find_leaf_loop (cells.map Prod.fst) key 0 cells.length < cells.length) ∧
    (key ∉ cells.map Prod.fst →
      find_leaf_loop (cells.map Prod.fst) key 0 cells.length =
        (cells.map Prod.fst).countP (fun k => k < key) ∧
      (∀ i, i < find_leaf_loop (cells.map Prod.fst) key 0 cells.length →
        (cells.map Prod.fst).getD i 0 < key) ∧
      (∀ i, find_leaf_loop (cells.map Prod.fst) key 0 cells.length ≤ i →
        i < cells.length → key < (cells.map Prod.fst).getD i 0)) :=
  C7_dev pages pageNum key isR par nl cells hn hsorted

/-- C3 (amended): after every sequence of insert, update and delete
statements run from a freshly opened table, every leaf page's keys are
strictly ascending.  (The internal-key half of the original claim is false;
see the counterexample theorem.) -/
theorem C3_mutations_preserve_leaf_order (fuel : Nat) (ms : List Mutation)
    (pages2 : List Node) (h : run_mutations fuel freshTable ms = some pages2) :
    leavesSorted pages2 :=
  run_mutations_sorted fuel ms freshTable pages2 freshTable_sorted h

set_option maxHeartbeats 1600000 in
theorem C3_mutations_preserve_leaf_order_witness :
    leavesSorted [Node.leaf true 0 [(1, mkRow 1)] 0] :=
  C3_mutations_preserve_leaf_order 1000 [Mutation.ins (mkRow 1)]
    [Node.leaf true 0 [(1, mkRow 1)] 0] (by decide)

set_option maxHeartbeats 1600000 in
theorem C4_duplicate_key_iff_witness :
    ((∃ row, ([(1, mkRow 1)] : List (Nat × Row)).get? 0 = some (1, row)) →
      execute_insert 1000 c4w_pages (mkRow 1) = some (.DuplicateKey, c4w_pages)) ∧
    (∀ pages2, execute_insert 1000 c4w_pages (mkRow 1) = some (.DuplicateKey, pages2) →
      pages2 = c4w_pages ∧
      (∃ row, ([(1, mkRow 1)] : List (Nat × Row)).get? 0 = some (1, row)) ∧
      execute_select 1000 pages2 = execute_select 1000 c4w_pages) :=
  C4_duplicate_key_iff 1000 c4w_pages (mkRow 1) ⟨0, 0, false⟩ true 0 0
    [(1, mkRow 1)] (by decide) (by decide)

set_option maxHeartbeats 1600000 in
theorem C7_find_leaf_binary_search_witness :
    (find_leaf_node c7w_pages 0 4 = some ⟨0, 2, false⟩) ∧
    (2 : Nat) ≤ 3 ∧
    ((4 : Nat) ∈ ([(1, mkRow 1), (3, mkRow 3), (5, mkRow 5)] : List (Nat × Row)).map Prod.fst →
      (([(1, mkRow 1), (3, mkRow 3), (5, mkRow 5)] : List (Nat × Row)).map Prod.fst).getD 2 0 = 4 ∧
      (2 : Nat) < 3) ∧
    ((4 : Nat) ∉ ([(1, mkRow 1), (3, mkRow 3), (5, mkRow 5)] : List (Nat × Row)).map Prod.fst →
      (2 : Nat) = (([(1, mkRow 1), (3, mkRow 3), (5, mkRow 5)] : List (Nat × Row)).map
        Prod.fst).countP (fun k => k < 4) ∧
      (∀ i, i < 2 →
        (([(1, mkRow 1), (3, mkRow 3), (5, mkRow 5)] : List (Nat × Row)).map
          Prod.fst).getD i 0 < 4) ∧
      (∀ i, 2 ≤ i → i < 3 →
        4 < (([(1, mkRow 1), (3, mkRow 3), (5, mkRow 5)] : List (Nat × Row)).map
          Prod.fst).getD i 0)) :=
  C7_find_leaf_binary_search c7w_pages 0 4 true 0 0
    [(1, mkRow 1), (3, mkRow 3), (5, mkRow 5)] (by decide) (by decide)

set_option maxHeartbeats 1600000 in
theorem C8_delete_slot_semantics_witness :
    (((2 : Nat) ≤ 1) ↔
      execute_delete 1000 c5_pages 2 = some (.NotFound, c5_pages)) ∧
    ((1 : Nat) < 2 →
      execute_delete 1000 c5_pages 2 =
        some (.Success, c5_pages.set 0
          (.leaf true 0 (([(1, mkRow 1), (3, mkRow 3)] : List (Nat × Row)).eraseIdx 1) 0)) ∧
      (([(1, mkRow 1), (3, mkRow 3)] : List (Nat × Row)).eraseIdx 1).length + 1 = 2) ∧
    (List.Pairwise (· < ·)
        (([(1, mkRow 1), (3, mkRow 3)] : List (Nat × Row)).map Prod.fst) →
      (2 : Nat) ∉ ([(1, mkRow 1), (3, mkRow 3)] : List (Nat × Row)).map Prod.fst →
      (1 : Nat) < 2 →
      (2 : Nat) < (([(1, mkRow 1), (3, mkRow 3)] : List (Nat × Row)).map Prod.fst).getD 1 0 ∧
      ∀ k2 ∈ ([(1, mkRow 1), (3, mkRow 3)] : List (Nat × Row)).map Prod.fst, 2 < k2 →
        (([(1, mkRow 1), (3, mkRow 3)] : List (Nat × Row)).map Prod.fst).getD 1 0 ≤ k2) :=
  C8_delete_slot_semantics 1000 c5_pages 2 ⟨0, 1, false⟩ true 0 0
    [(1, mkRow 1), (3, mkRow 3)] (by decide) (by decide)

set_option maxHeartbeats 1600000 in
theorem C9_select_empty_first_leaf_witness :
    execute_select 1000 c9_pages = some [] ∧
    page_lookup c9_pages 1 =
      some (.leaf false 0 ((List.range 7).map (fun i => (i + 8, mkRow (i + 8)))) 0) ∧
    ((List.range 7).map (fun i => (i + 8, mkRow (i + 8)))).length = 7 :=
  ⟨C9_select_empty_first_leaf 999 c9_pages ⟨2, 0, false⟩ false 0 1
      (by decide) (by decide),
    by decide, by decide⟩

set_option maxHeartbeats 1600000 in
theorem C10_max_key_u32_wrap_witness :
    (leaf_max_key_index 1 = 0 ∧ (0 : Nat) < 1 ∧
      get_node_max_key 1 [] (.leaf true 0 [(5, mkRow 5)] 0) =
        (([(5, mkRow 5)] : List (Nat × Row)).map Prod.fst).get? 0 ∧
      (get_node_max_key 1 [] (.leaf true 0 [(5, mkRow 5)] 0)).isSome = true) ∧
    (leaf_max_key_index 0 = 2 ^ 32 - 1 ∧
      get_node_max_key 1 [] (.leaf true 0 [] 0) = none) :=
  ⟨(C10_max_key_u32_wrap [] 0 true 0 0 [(5, mkRow 5)]).1 (by decide) (by decide),
    (C10_max_key_u32_wrap [] 0 true 0 0 [(5, mkRow 5)]).2⟩

end CryptoDb
